import Mathlib

/-!
# ATMT Creator Hub: the retrying remote-call wrappers

A shallow embedding of `src/services/apiService.js` (class `ApiService`), of the
duplicated helpers of `src/main.js`, of the snapshot listeners of
`src/services/firebaseService.js` and of the calendar of `SchedulerView`.

The network is the environment of a call.  Every iteration of a retry loop
issues exactly one `fetch` and continues only after `attempt++`, so the request
issued while the counter holds `attempt` is request number `attempt`
(0-based); the environment is therefore a function from the attempt number to
what that `fetch` produced, and a second function gives the value returned by
the single `Math.random()` call an iteration can make.  Delays are doubles,
held as the rationals they are: every product and sum is rounded to the nearest
double.
-/

namespace Atmt

/-! ## JavaScript values used by the wrappers -/

/-- A thrown JavaScript error: the name of its constructor and its message. -/
structure JsError where
  name : String
  message : String
deriving DecidableEq, Repr

/-- The error built by `new Error(message)`. -/
def mkError (message : String) : JsError := ⟨"Error", message⟩

/-- Whether `sub` occurs in `s` (both as character lists): at the head, or further on. -/
def includesChars : List Char → List Char → Bool
  | [], sub => sub.isEmpty
  | c :: cs, sub => sub.isPrefixOf (c :: cs) || includesChars cs sub

/-- The method `String.prototype.includes`. -/
def includes (s sub : String) : Bool := includesChars s.toList sub.toList

/-- JavaScript truthiness of an optional string: present and not empty. -/
def truthy : Option String → Bool
  | some s => s != ""
  | none => false

/-- The expression `value || fallback` for an optional string `value`. -/
def orElse (value : Option String) (fallback : String) : String :=
  match value with
  | some s => if s = "" then fallback else s
  | none => fallback

/-! ## Response bodies

A JSON body is modelled as a record of the fields the wrappers read, each of
them optional (`none` is a field that is absent, or `null`).  An entry of an
array is an object or `null` (the entry `none`).
-/

structure ErrorInfo where
  message : Option String := none
deriving DecidableEq, Repr

structure InlineData where
  data : Option String := none
  mimeType : Option String := none
deriving DecidableEq, Repr

structure Part where
  text : Option String := none
  inlineData : Option InlineData := none
deriving DecidableEq, Repr

structure Content where
  parts : Option (List (Option Part)) := none
deriving DecidableEq, Repr

structure Candidate where
  content : Option Content := none
  finishReason : Option String := none
deriving DecidableEq, Repr

structure PromptFeedback where
  blockReason : Option String := none
deriving DecidableEq, Repr

structure Prediction where
  bytesBase64Encoded : Option String := none
deriving DecidableEq, Repr

/-- A parsed JSON body: an error report, a `generateContent` result, a `predict` result. -/
structure Body where
  error : Option ErrorInfo := none
  candidates : Option (List (Option Candidate)) := none
  promptFeedback : Option PromptFeedback := none
  predictions : Option (List (Option Prediction)) := none
deriving DecidableEq, Repr

/-- What `fetch` resolved to: the status, and what `response.json()` and
`response.text()` produce when the wrapper calls them (a value, or a rejection). -/
structure Response where
  status : Nat
  json : Except JsError Body
  text : Except JsError String

/-- The getter `response.ok`: the status is in the range 200-299. -/
def Response.ok (response : Response) : Bool :=
  decide (200 ≤ response.status) && decide (response.status ≤ 299)

/-- What one `await fetch(...)` produced: a rejection (no HTTP response) or a response. -/
inductive Outcome where
  | fetchRejects (error : JsError)
  | response (response : Response)

/-- The value bound to `errorBody`: the parsed body, or the body text. -/
inductive ErrorBody where
  | json (body : Body)
  | text (s : String)

/-- The statement `try { errorBody = await response.json(); } catch { errorBody = await response.text(); }`. -/
def readErrorBody (response : Response) : Except JsError ErrorBody :=
  match response.json with
  | .ok body => .ok (.json body)
  | .error _ =>
    match response.text with
    | .ok s => .ok (.text s)
    | .error e => .error e

/-- The expression `errorBody?.error?.message`. -/
def ErrorBody.message : ErrorBody → Option String
  | .json body => body.error.bind (fun e => e.message)
  | .text _ => none

/-! ## Requests and the trace of a call -/

/-- A response schema handed to `callGemini` (an object, hence truthy). -/
structure Schema where
  source : String
deriving DecidableEq, Repr

structure GenerationConfig where
  temperature : ℚ
  topK : Nat
  topP : Nat
  maxOutputTokens : Nat
  responseMimeType : Option String := none
  responseSchema : Option Schema := none
deriving DecidableEq

/-- The JSON bodies the four operations post. -/
inductive Payload where
  | generateContent (prompt : String) (generationConfig : GenerationConfig)
  | predict (prompt : String) (sampleCount : Nat) (aspectRatio : String)
  | speech (text : String) (voiceName : String) (model : String)
  | vision (prompt : String) (mimeType : String) (data : String)
      (generationConfig : GenerationConfig)
deriving DecidableEq

/-- The observable steps of a call: a POST, or a sleep of `delay` milliseconds. -/
inductive Event where
  | request (url : String) (payload : Payload)
  | sleep (delay : ℚ)
deriving DecidableEq

deriving instance DecidableEq for Except

/-- A finished call: what it returned or threw, and what it did on the way. -/
structure Run (α : Type) where
  result : Except JsError α
  events : List Event

/-- The number of requests a call issued. -/
def requestCount : List Event → Nat
  | [] => 0
  | .request _ _ :: es => requestCount es + 1
  | .sleep _ :: es => requestCount es

/-- The delays a call slept, in order. -/
def sleeps : List Event → List ℚ
  | [] => []
  | .request _ _ :: es => sleeps es
  | .sleep d :: es => d :: sleeps es

/-! ## Numbers

A JavaScript number is an IEEE 754 double.  The numbers met here are not negative and stay
below 2^1024; they are held as the rationals they are, and an arithmetic operation gives the
double nearest to its exact result.
-/

/-- Rounding to the nearest integer, a tie going to the even one. -/
def roundHalfEven (q : ℚ) : ℤ :=
  if q - ⌊q⌋ < 1 / 2 then ⌊q⌋
  else if 1 / 2 < q - ⌊q⌋ then ⌊q⌋ + 1
  else if ⌊q⌋ % 2 = 0 then ⌊q⌋ else ⌊q⌋ + 1

/-- The exponent of the doubles around a positive `x`: the integer part of its binary
logarithm, and -1022 below 2^-1022, where the doubles are subnormal. -/
def binade (x : ℚ) : ℤ := max (Int.log 2 x) (-1022)

/-- The distance between neighbouring doubles around `x`: 52 binary places below the
exponent. -/
def ulp (x : ℚ) : ℚ := (2 : ℚ) ^ (binade x - 52)

/-- The Number value for a non-negative `x` below 2^1024: the double nearest to it, a tie
going to the double with an even significand (round to nearest, ties to even). -/
def roundDouble (x : ℚ) : ℚ := roundHalfEven (x / ulp x) * ulp x

/-! ## The retry loop -/

/-- The constant `maxRetries` of every wrapper. -/
def maxRetries : Nat := 5

/-- The expression `Math.pow(2, attempt) * 1000 + Math.random() * 1000`: the power of two is
exact, the two products and the sum are rounded to doubles. -/
def backoffDelay (attempt : Nat) (random : ℚ) : ℚ :=
  roundDouble (roundDouble ((2 : ℚ) ^ attempt * 1000) + roundDouble (random * 1000))

/-- The condition `error.message.includes("Failed to fetch") || error.message.includes("NetworkError")`. -/
def isNetworkError (error : JsError) : Bool :=
  includes error.message "Failed to fetch" || includes error.message "NetworkError"

/-- How one pass through a `try` block (or through the `catch` block) ends:
`return`, `throw`, or sleep for `delay`, `attempt++` and go round again. -/
inductive TryResult (α : Type) where
  | returned (value : α)
  | thrown (error : JsError)
  | backoff (delay : ℚ)

/-- The `catch (error)` block shared by all wrappers. -/
def catchBlock {α : Type} (attempt : Nat) (error : JsError) (random : ℚ) : TryResult α :=
  if attempt = maxRetries ∨ isNetworkError error = false then .thrown error
  else .backoff (backoffDelay attempt random)

/-- One iteration of a wrapper: the `try` block, then the `catch` block on a throw. -/
def iteration {α : Type} (tryBlock : Nat → Outcome → ℚ → TryResult α)
    (attempt : Nat) (outcome : Outcome) (random : ℚ) : TryResult α :=
  match tryBlock attempt outcome random with
  | .thrown error => catchBlock attempt error random
  | r => r

/-- The loop `while (attempt < maxRetries) { try {...} catch (error) {...} }` followed by
`throw new Error(exhausted)`.  `none` is fuel running out. -/
def retryLoop {α : Type} (request : Event) (tryBlock : Nat → Outcome → ℚ → TryResult α)
    (exhausted : String) (env : Nat → Outcome) (random : Nat → ℚ) :
    Nat → Nat → Option (Run α)
  | 0, _ => none
  | fuel + 1, attempt =>
    if attempt < maxRetries then
      match iteration tryBlock attempt (env attempt) (random attempt) with
      | .returned value => some ⟨.ok value, [request]⟩
      | .thrown error => some ⟨.error error, [request]⟩
      | .backoff delay =>
        (retryLoop request tryBlock exhausted env random fuel (attempt + 1)).map
          fun run => ⟨run.result, request :: Event.sleep delay :: run.events⟩
    else some ⟨.error (mkError exhausted), []⟩

/-! ## Configuration (`src/config/constants.js`) -/

def USER_API_KEY : String := "YOUR_API_KEY_HERE"

def API_KEY : String := if USER_API_KEY ≠ "YOUR_API_KEY_HERE" then USER_API_KEY else ""

/-! ## Audio helpers (`pcmToWav`, `base64ToArrayBuffer`) -/

/-- The `RangeError` of a `DataView` write outside its buffer. -/
def offsetOutOfBounds : JsError := ⟨"RangeError", "Offset is outside the bounds of the DataView"⟩

/-- The `RangeError` of `new Int16Array(buffer)` on a buffer of odd byte length. -/
def oddByteLength : JsError :=
  ⟨"RangeError", "byte length of Int16Array should be a multiple of 2"⟩

/-- The method `view.setUint8(byteOffset, value)`. -/
def setUint8 (buffer : List Nat) (byteOffset value : Nat) : Except JsError (List Nat) :=
  if byteOffset + 1 ≤ buffer.length then .ok (buffer.set byteOffset (value % 256))
  else .error offsetOutOfBounds

/-- The method `view.setUint16(byteOffset, value, true)` (little-endian). -/
def setUint16 (buffer : List Nat) (byteOffset value : Nat) : Except JsError (List Nat) :=
  if byteOffset + 2 ≤ buffer.length then
    .ok ((buffer.set byteOffset (value % 256)).set (byteOffset + 1) (value / 256 % 256))
  else .error offsetOutOfBounds

/-- The method `view.setUint32(byteOffset, value, true)` (little-endian). -/
def setUint32 (buffer : List Nat) (byteOffset value : Nat) : Except JsError (List Nat) :=
  if byteOffset + 4 ≤ buffer.length then
    .ok ((((buffer.set byteOffset (value % 256)).set (byteOffset + 1) (value / 256 % 256)).set
      (byteOffset + 2) (value / 65536 % 256)).set (byteOffset + 3) (value / 16777216 % 256))
  else .error offsetOutOfBounds

/-- The method `view.setInt16(byteOffset, value, true)`: the value modulo 2^16, little-endian. -/
def setInt16 (buffer : List Nat) (byteOffset : Nat) (value : Int) : Except JsError (List Nat) :=
  setUint16 buffer byteOffset (value % 65536).toNat

/-- The `DataView` of `pcmToWav` together with its variable `offset`. -/
structure Writer where
  buffer : List Nat
  offset : Nat
deriving DecidableEq, Repr

/-- The inner function `writeString` of `pcmToWav`. -/
def writeString (w : Writer) (str : String) : Except JsError Writer :=
  str.toList.foldlM
    (fun w c => (setUint8 w.buffer w.offset c.toNat).map fun b => ⟨b, w.offset + 1⟩) w

/-- The inner function `writeUint32` of `pcmToWav`. -/
def writeUint32 (w : Writer) (val : Nat) : Except JsError Writer :=
  (setUint32 w.buffer w.offset val).map fun b => ⟨b, w.offset + 4⟩

/-- The inner function `writeUint16` of `pcmToWav`. -/
def writeUint16 (w : Writer) (val : Nat) : Except JsError Writer :=
  (setUint16 w.buffer w.offset val).map fun b => ⟨b, w.offset + 2⟩

/-- The body of `pcmToWav` up to its `return`: the view and the final `offset`. -/
def pcmToWavWriter (pcmData : List Int) (sampleRate : Nat) : Except JsError Writer := do
  let w : Writer := ⟨List.replicate (44 + pcmData.length * 2) 0, 0⟩
  let w ← writeString w "RIFF"
  let w ← writeUint32 w (36 + pcmData.length * 2)
  let w ← writeString w "WAVE"
  let w ← writeString w "fmt "
  let w ← writeUint32 w 16
  let w ← writeUint16 w 1
  let w ← writeUint16 w 1
  let w ← writeUint32 w sampleRate
  let w ← writeUint32 w (sampleRate * 2)
  let w ← writeUint16 w 2
  let w ← writeUint16 w 16
  let w ← writeString w "data"
  let w ← writeUint32 w (pcmData.length * 2)
  pcmData.foldlM
    (fun w sample => (setInt16 w.buffer w.offset sample).map fun b => ⟨b, w.offset + 2⟩) w

/-- The function `pcmToWav`: the bytes of the returned `Blob`. -/
def pcmToWav (pcmData : List Int) (sampleRate : Nat) : Except JsError (List Nat) :=
  (pcmToWavWriter pcmData sampleRate).map fun w => w.buffer

/-- The function `base64ToArrayBuffer`; the platform function `atob` is a parameter. -/
def base64ToArrayBuffer (atob : String → Except JsError String) (base64 : String) :
    Except JsError (List Nat) :=
  (atob base64).map fun binaryString => binaryString.toList.map fun c => c.toNat % 256

/-- The samples of `new Int16Array(buffer)` read from complete little-endian byte pairs. -/
def int16Samples : List Nat → List Int
  | lo :: hi :: rest =>
    (if lo + 256 * hi < 32768 then (lo + 256 * hi : Int) else (lo + 256 * hi : Int) - 65536)
      :: int16Samples rest
  | _ => []

/-- The constructor call `new Int16Array(pcmData)`: it throws on an odd byte length. -/
def int16Array (bytes : List Nat) : Except JsError (List Int) :=
  if bytes.length % 2 = 0 then .ok (int16Samples bytes) else .error oddByteLength

/-- The first capture group of the leftmost match of `/rate=(\d+)/`. -/
def matchRate : List Char → Option (List Char)
  | [] => none
  | c :: cs =>
    if "rate=".toList.isPrefixOf (c :: cs) ∧ (((c :: cs).drop 5).takeWhile Char.isDigit) ≠ [] then
      some (((c :: cs).drop 5).takeWhile Char.isDigit)
    else matchRate cs

/-- The call `parseInt(digits, 10)` on a string of decimal digits: the double nearest to the
number the digits denote, which is a natural number again.  (Beyond the largest double the
code holds `Infinity`, which `setUint32` writes as 0, as it writes the value of the model,
a multiple of 2^32.) -/
def parseInt (digits : List Char) : Nat :=
  ⌊roundDouble ((digits.foldl (fun n c => n * 10 + (c.toNat - 48)) 0 : Nat) : ℚ)⌋₊

/-- The element `array?.[0]` of an optional array: `none` stands for `undefined` and for
`null`, which optional chaining treats alike. -/
def first {α : Type} (array : Option (List (Option α))) : Option α :=
  (array.bind List.head?).join

/-- The expression `result?.candidates?.[0]?.content?.parts?.[0]`. -/
def firstPart (result : Body) : Option Part :=
  first ((first result.candidates).bind fun c => c.content.bind fun ct => ct.parts)

/-- The `TypeError` of reading `property` of `null`. -/
def nullReadError (property : String) : JsError :=
  ⟨"TypeError", "Cannot read properties of null (reading '" ++ property ++ "')"⟩

/-! ## The four operations of `ApiService` (`src/services/apiService.js`) -/

/-- The notice appended to a text cut short by the token limit. -/
def truncationNotice : String :=
  "\n\n[WARNING: The generated content was too long and has been cut short.]"

def geminiUrl : String :=
  "https://generativelanguage.googleapis.com/v1beta/models/gemini-2.5-flash-preview-05-20:generateContent?key="
    ++ API_KEY

def imagenUrl : String :=
  "https://generativelanguage.googleapis.com/v1beta/models/imagen-3.0-generate-002:predict?key="
    ++ API_KEY

def ttsUrl : String :=
  "https://generativelanguage.googleapis.com/v1beta/models/gemini-2.5-flash-preview-tts:generateContent?key="
    ++ API_KEY

/-- The `payload` object of `callGemini`, after the `if (responseSchema)` statement. -/
def geminiPayload (prompt : String) (responseSchema : Option Schema) : Payload :=
  match responseSchema with
  | some schema =>
    .generateContent prompt
      { temperature := 7 / 10, topK := 1, topP := 1, maxOutputTokens := 8192,
        responseMimeType := some "application/json", responseSchema := some schema }
  | none =>
    .generateContent prompt
      { temperature := 7 / 10, topK := 1, topP := 1, maxOutputTokens := 8192 }

/-- The `try` block of `ApiService.callGemini` from the result of `fetch` on.  When the first
candidate is `null`, the test of line 73 reads it through `?.` and fails, and line 78 reads
`candidate.finishReason`, which throws. -/
def ApiService.callGeminiTry (attempt : Nat) (outcome : Outcome) (random : ℚ) :
    TryResult String :=
  match outcome with
  | .fetchRejects error => .thrown error
  | .response response =>
    if response.ok = false then
      match readErrorBody response with
      | .error e => .thrown e
      | .ok errorBody =>
        if response.status = 429 ∨ response.status ≥ 500 then
          .backoff (backoffDelay attempt random)
        else
          .thrown (mkError (orElse errorBody.message
            ("API request failed with status " ++ toString response.status)))
    else
      match response.json with
      | .error e => .thrown e
      | .ok result =>
        match result.candidates with
        | some (none :: _) => .thrown (nullReadError "finishReason")
        | some (some candidate :: _) =>
          match (first (candidate.content.bind fun ct => ct.parts)).bind fun p => p.text with
          | some text =>
            if text ≠ "" then
              if candidate.finishReason = some "MAX_TOKENS" then
                .returned (text ++ truncationNotice)
              else .returned text
            else if truthy candidate.finishReason then
              .thrown (mkError ("Content generation stopped unexpectedly. Reason: "
                ++ candidate.finishReason.getD "" ++ "."))
            else .thrown (mkError "Error: An unknown issue occurred with the API response.")
          | none =>
            if truthy candidate.finishReason then
              .thrown (mkError ("Content generation stopped unexpectedly. Reason: "
                ++ candidate.finishReason.getD "" ++ "."))
            else .thrown (mkError "Error: An unknown issue occurred with the API response.")
        | _ =>
          if truthy (result.promptFeedback.bind fun f => f.blockReason) then
            .thrown (mkError ("Content generation blocked. Reason: "
              ++ (result.promptFeedback.bind fun f => f.blockReason).getD "" ++ "."))
          else .thrown (mkError "Error: API returned no candidates.")

/-- The method `ApiService.callGemini(prompt, responseSchema)`. -/
def ApiService.callGemini (prompt : String) (responseSchema : Option Schema)
    (env : Nat → Outcome) (random : Nat → ℚ) : Option (Run String) :=
  retryLoop (.request geminiUrl (geminiPayload prompt responseSchema)) ApiService.callGeminiTry
    "Max retries reached for Gemini API call." env random (maxRetries + 1) 0

/-- The `try` block of `ApiService.callImagen` from the result of `fetch` on. -/
def ApiService.callImagenTry (attempt : Nat) (outcome : Outcome) (random : ℚ) :
    TryResult String :=
  match outcome with
  | .fetchRejects error => .thrown error
  | .response response =>
    if response.ok = false then
      match readErrorBody response with
      | .error e => .thrown e
      | .ok errorBody =>
        if response.status = 429 ∨ response.status ≥ 500 then
          .backoff (backoffDelay attempt random)
        else
          .thrown (mkError (orElse errorBody.message
            ("Image Generation API call failed with status " ++ toString response.status)))
    else
      match response.json with
      | .error e => .thrown e
      | .ok result =>
        match (first result.predictions).bind fun p => p.bytesBase64Encoded with
        | some data =>
          if data ≠ "" then .returned data
          else .thrown (mkError "Unexpected response from Imagen API or content filter triggered.")
        | none =>
          .thrown (mkError "Unexpected response from Imagen API or content filter triggered.")

/-- The method `ApiService.callImagen(prompt, aspectRatio)`. -/
def ApiService.callImagen (prompt : String) (aspectRatio : String)
    (env : Nat → Outcome) (random : Nat → ℚ) : Option (Run String) :=
  retryLoop (.request imagenUrl (.predict prompt 1 aspectRatio)) ApiService.callImagenTry
    "Max retries reached for Imagen API call." env random (maxRetries + 1) 0

/-- Lines 136-138 of `apiService.js`: the sample rate, the decoded samples, the WAV bytes. -/
def ApiService.ttsWav (atob : String → Except JsError String) (audioData mimeType : String) :
    Except JsError (List Nat) := do
  let sampleRate := parseInt ((matchRate mimeType.toList).getD "24000".toList)
  let pcmData ← base64ToArrayBuffer atob audioData
  let pcm16 ← int16Array pcmData
  pcmToWav pcm16 sampleRate

/-- The `try` block of `ApiService.callGeminiTTS` from the result of `fetch` on; the value
returned stands for the blob URL and is the content of the blob. -/
def ApiService.callGeminiTTSTry (atob : String → Except JsError String)
    (attempt : Nat) (outcome : Outcome) (random : ℚ) : TryResult (List Nat) :=
  match outcome with
  | .fetchRejects error => .thrown error
  | .response response =>
    if response.ok = false then
      if response.status = 429 ∨ response.status ≥ 500 then
        .backoff (backoffDelay attempt random)
      else .thrown (mkError ("TTS API failed with status: " ++ toString response.status))
    else
      match response.json with
      | .error e => .thrown e
      | .ok result =>
        match ((firstPart result).bind fun p => p.inlineData).bind fun d => d.data,
            ((firstPart result).bind fun p => p.inlineData).bind fun d => d.mimeType with
        | some audioData, some mimeType =>
          if audioData ≠ "" ∧ mimeType ≠ "" ∧ "audio/".toList.isPrefixOf mimeType.toList then
            match ApiService.ttsWav atob audioData mimeType with
            | .ok wav => .returned wav
            | .error e => .thrown e
          else .thrown (mkError "Invalid audio data from TTS API.")
        | _, _ => .thrown (mkError "Invalid audio data from TTS API.")

/-- The method `ApiService.callGeminiTTS(text, voiceName)`. -/
def ApiService.callGeminiTTS (atob : String → Except JsError String) (text : String)
    (voiceName : String) (env : Nat → Outcome) (random : Nat → ℚ) : Option (Run (List Nat)) :=
  retryLoop (.request ttsUrl (.speech text voiceName "gemini-2.5-flash-preview-tts"))
    (ApiService.callGeminiTTSTry atob)
    "Max retries reached for TTS API call." env random (maxRetries + 1) 0

/-- The `try` block of `ApiService.callGeminiVision` from the result of `fetch` on. -/
def ApiService.callGeminiVisionTry (attempt : Nat) (outcome : Outcome) (random : ℚ) :
    TryResult String :=
  match outcome with
  | .fetchRejects error => .thrown error
  | .response response =>
    if response.ok = false then
      match readErrorBody response with
      | .error e => .thrown e
      | .ok errorBody =>
        if response.status = 429 ∨ response.status ≥ 500 then
          .backoff (backoffDelay attempt random)
        else
          .thrown (mkError (orElse errorBody.message
            ("Vision API request failed with status " ++ toString response.status)))
    else
      match response.json with
      | .error e => .thrown e
      | .ok result =>
        match (firstPart result).bind fun p => p.text with
        | some text =>
          if text ≠ "" then .returned text
          else .thrown (mkError "Error: An unknown issue occurred with the Vision API response.")
        | none =>
          .thrown (mkError "Error: An unknown issue occurred with the Vision API response.")

/-- The method `ApiService.callGeminiVision(prompt, base64ImageData, mimeType)`. -/
def ApiService.callGeminiVision (prompt : String) (base64ImageData : String) (mimeType : String)
    (env : Nat → Outcome) (random : Nat → ℚ) : Option (Run String) :=
  retryLoop
    (.request geminiUrl (.vision prompt mimeType base64ImageData
      { temperature := 4 / 10, topK := 32, topP := 1, maxOutputTokens := 4096 }))
    ApiService.callGeminiVisionTry
    "Max retries reached for Gemini Vision API call." env random (maxRetries + 1) 0

/-! ## The copy of the text wrapper in `src/main.js` -/

/-- The `else` branch of `callGemini` in `main.js` for a candidate without usable text. -/
def callGeminiNoText (candidate : Candidate) : TryResult String :=
  if truthy candidate.finishReason then
    .thrown (mkError ("Content generation stopped unexpectedly. Reason: "
      ++ candidate.finishReason.getD "" ++ "."))
  else .thrown (mkError "Error: An unknown issue occurred with the API response.")

/-- The `try` block of `callGemini` in `main.js` from the result of `fetch` on.  The test of
line 147 reads `candidate.content` and `candidate.content.parts[0].text` without `?.`: on a
first candidate or a first part that is `null` it throws. -/
def callGeminiTry (attempt : Nat) (outcome : Outcome) (random : ℚ) : TryResult String :=
  match outcome with
  | .fetchRejects error => .thrown error
  | .response response =>
    if response.ok = false then
      match readErrorBody response with
      | .error e => .thrown e
      | .ok errorBody =>
        if response.status = 429 ∨ response.status ≥ 500 then
          .backoff (backoffDelay attempt random)
        else
          .thrown (mkError (orElse errorBody.message
            ("API request failed with status " ++ toString response.status)))
    else
      match response.json with
      | .error e => .thrown e
      | .ok result =>
        match result.candidates with
        | none | some [] =>
          match result.promptFeedback with
          | some promptFeedback =>
            if truthy promptFeedback.blockReason then
              .thrown (mkError ("Content generation blocked. Reason: "
                ++ promptFeedback.blockReason.getD "" ++ "."))
            else .thrown (mkError "Error: API returned no candidates.")
          | none => .thrown (mkError "Error: API returned no candidates.")
        | some (none :: _) => .thrown (nullReadError "content")
        | some (some candidate :: _) =>
          match candidate.content with
          | some content =>
            match content.parts with
            | some (none :: _) => .thrown (nullReadError "text")
            | some (some part :: _) =>
              if truthy part.text then
                if candidate.finishReason = some "MAX_TOKENS" then
                  .returned (part.text.getD "" ++ truncationNotice)
                else .returned (part.text.getD "")
              else callGeminiNoText candidate
            | _ => callGeminiNoText candidate
          | none => callGeminiNoText candidate

/-- The function `callGemini(prompt, responseSchema)` of `main.js`. -/
def callGemini (prompt : String) (responseSchema : Option Schema)
    (env : Nat → Outcome) (random : Nat → ℚ) : Option (Run String) :=
  retryLoop (.request geminiUrl (geminiPayload prompt responseSchema)) callGeminiTry
    "Max retries reached for Gemini API call." env random (maxRetries + 1) 0

/-! ## The copy of the speech wrapper in `src/main.js`

`pcmToWav` and `base64ToArrayBuffer` of `main.js` have the same text as those of
`apiService.js`; one definition stands for both copies.
-/

/-- The `TypeError` of reading index 1 of the `null` returned by `match`. -/
def nullMatchError : JsError :=
  ⟨"TypeError", "Cannot read properties of null (reading '1')"⟩

/-- Lines 296-299 of `main.js`: the sample rate, the decoded samples, the WAV bytes; the
expression `mimeType.match(/rate=(\d+)/)[1]` throws when there is no match. -/
def ttsWav (atob : String → Except JsError String) (audioData mimeType : String) :
    Except JsError (List Nat) :=
  match matchRate mimeType.toList with
  | none => .error nullMatchError
  | some digits => do
    let sampleRate := parseInt digits
    let pcmData ← base64ToArrayBuffer atob audioData
    let pcm16 ← int16Array pcmData
    pcmToWav pcm16 sampleRate

/-- The `try` block of `callGeminiTTS` in `main.js` from the result of `fetch` on. -/
def callGeminiTTSTry (atob : String → Except JsError String)
    (attempt : Nat) (outcome : Outcome) (random : ℚ) : TryResult (List Nat) :=
  match outcome with
  | .fetchRejects error => .thrown error
  | .response response =>
    if response.ok = false then
      if response.status = 429 ∨ response.status ≥ 500 then
        .backoff (backoffDelay attempt random)
      else .thrown (mkError ("TTS API failed with status: " ++ toString response.status))
    else
      match response.json with
      | .error e => .thrown e
      | .ok result =>
        match ((firstPart result).bind fun p => p.inlineData).bind fun d => d.data,
            ((firstPart result).bind fun p => p.inlineData).bind fun d => d.mimeType with
        | some audioData, some mimeType =>
          if audioData ≠ "" ∧ mimeType ≠ "" ∧ "audio/".toList.isPrefixOf mimeType.toList then
            match ttsWav atob audioData mimeType with
            | .ok wav => .returned wav
            | .error e => .thrown e
          else .thrown (mkError "Invalid audio data from TTS API.")
        | _, _ => .thrown (mkError "Invalid audio data from TTS API.")

/-- The function `callGeminiTTS(text, voiceName)` of `main.js`. -/
def callGeminiTTS (atob : String → Except JsError String) (text : String)
    (voiceName : String) (env : Nat → Outcome) (random : Nat → ℚ) : Option (Run (List Nat)) :=
  retryLoop (.request ttsUrl (.speech text voiceName "gemini-2.5-flash-preview-tts"))
    (callGeminiTTSTry atob)
    "Max retries reached for TTS API call." env random (maxRetries + 1) 0

/-! ## The copies of the image and vision wrappers in `src/main.js` -/

/-- The `try` block of `callImagen` in `main.js` from the result of `fetch` on. -/
def callImagenTry (attempt : Nat) (outcome : Outcome) (random : ℚ) : TryResult String :=
  match outcome with
  | .fetchRejects error => .thrown error
  | .response response =>
    if response.ok = false then
      match readErrorBody response with
      | .error e => .thrown e
      | .ok errorBody =>
        if response.status = 429 ∨ response.status ≥ 500 then
          .backoff (backoffDelay attempt random)
        else
          .thrown (mkError (orElse errorBody.message
            ("Image Generation API call failed with status " ++ toString response.status)))
    else
      match response.json with
      | .error e => .thrown e
      | .ok result =>
        if truthy ((first result.predictions).bind fun p => p.bytesBase64Encoded) then
          .returned (((first result.predictions).bind fun p => p.bytesBase64Encoded).getD "")
        else .thrown (mkError "Unexpected response from Imagen API or content filter triggered.")

/-- The function `callImagen(prompt, aspectRatio)` of `main.js`. -/
def callImagen (prompt : String) (aspectRatio : String)
    (env : Nat → Outcome) (random : Nat → ℚ) : Option (Run String) :=
  retryLoop (.request imagenUrl (.predict prompt 1 aspectRatio)) callImagenTry
    "Max retries reached for Imagen API call." env random (maxRetries + 1) 0

/-- The error thrown by both copies of the vision wrapper on an unusable response. -/
def visionUnknownIssue : JsError :=
  mkError "Error: An unknown issue occurred with the Vision API response."

/-- The `try` block of `callGeminiVision` in `main.js` from the result of `fetch` on.  The
value returned is `result.candidates[0].content.parts[0].text` as it is: `none` stands for
`undefined`, the value of a missing `text`.  The test of line 443 reads
`result.candidates[0].content`, and line 444 `parts[0].text`, without `?.`: on a first
candidate or a first part that is `null` they throw. -/
def callGeminiVisionTry (attempt : Nat) (outcome : Outcome) (random : ℚ) :
    TryResult (Option String) :=
  match outcome with
  | .fetchRejects error => .thrown error
  | .response response =>
    if response.ok = false then
      match readErrorBody response with
      | .error e => .thrown e
      | .ok errorBody =>
        if response.status = 429 ∨ response.status ≥ 500 then
          .backoff (backoffDelay attempt random)
        else
          .thrown (mkError (orElse errorBody.message
            ("Vision API request failed with status " ++ toString response.status)))
    else
      match response.json with
      | .error e => .thrown e
      | .ok result =>
        match result.candidates with
        | some (none :: _) => .thrown (nullReadError "content")
        | some (some candidate :: _) =>
          match candidate.content with
          | some content =>
            match content.parts with
            | some (none :: _) => .thrown (nullReadError "text")
            | some (some part :: _) => .returned part.text
            | _ => .thrown visionUnknownIssue
          | none => .thrown visionUnknownIssue
        | _ => .thrown visionUnknownIssue

/-- The function `callGeminiVision(prompt, base64ImageData, mimeType)` of `main.js`. -/
def callGeminiVision (prompt : String) (base64ImageData : String) (mimeType : String)
    (env : Nat → Outcome) (random : Nat → ℚ) : Option (Run (Option String)) :=
  retryLoop
    (.request geminiUrl (.vision prompt mimeType base64ImageData
      { temperature := 4 / 10, topK := 32, topP := 1, maxOutputTokens := 4096 }))
    callGeminiVisionTry
    "Max retries reached for Gemini Vision API call." env random (maxRetries + 1) 0

/-! ## Book recommendations (`getRecommendedBooks`)

The platform function `JSON.parse` is a parameter of the model: it maps a text to the value
it denotes, or throws a `SyntaxError`.
-/

/-- A value produced by `JSON.parse`. -/
inductive Json where
  | null
  | bool (b : Bool)
  | number (n : ℚ)
  | string (s : String)
  | array (items : List Json)
  | object (members : List (String × Json))

/-- JavaScript truthiness of a JSON value: `null`, `false`, `0` and `""` are falsy, every
array and every object is truthy. -/
def Json.truthy : Json → Bool
  | .null => false
  | .bool b => b
  | .number n => n != 0
  | .string s => s != ""
  | .array _ => true
  | .object _ => true

/-- The `TypeError` of reading the property `books` of `null`. -/
def nullBooksError : JsError :=
  ⟨"TypeError", "Cannot read properties of null (reading 'books')"⟩

/-- The expression `parsedResult.books`: `none` stands for `undefined`, the value of a
property that an object does not have and of any property `books` of a boolean, a number, a
string or an array; reading a property of `null` throws. -/
def Json.books : Json → Except JsError (Option Json)
  | .null => .error nullBooksError
  | .object members => .ok (members.lookup "books")
  | _ => .ok none

/-- The two statements after the `await` in the `try` block of `getRecommendedBooks`:
`JSON.parse(resultText)` and `return parsedResult.books || [];`. -/
def parseBooks (parse : String → Except JsError Json) (resultText : String) :
    Except JsError Json := do
  let parsedResult ← parse resultText
  let books ← parsedResult.books
  match books with
  | some value => if value.truthy then pure value else pure (.array [])
  | none => pure (.array [])

/-- A finished call of `getRecommendedBooks`: what it returned or threw, what it passed to
`console.error`, and the steps of the underlying `callGemini`. -/
structure BooksRun where
  result : Except JsError Json
  logged : List JsError
  events : List Event

/-- The `try`/`catch` statement of `getRecommendedBooks`, given how `callGemini` ended. -/
def recommendedBooks (parse : String → Except JsError Json) (run : Run String) : BooksRun :=
  match run.result >>= parseBooks parse with
  | .ok books => ⟨.ok books, [], run.events⟩
  | .error err => ⟨.ok (.array []), [err], run.events⟩

/-- The schema `getRecommendedBooks` hands to `callGemini` (the same object in both files). -/
def booksSchema : Schema :=
  ⟨"\x7b type: \"OBJECT\", properties: \x7b books: \x7b type: \"ARRAY\", items: \x7b type: \"OBJECT\", properties: \x7b title: \x7b type: \"STRING\" \x7d, author: \x7b type: \"STRING\" \x7d \x7d, required: [\"title\", \"author\"] \x7d \x7d \x7d, required: [\"books\"] \x7d"⟩

/-- The prompt of `ApiService.getRecommendedBooks`; `substring(0, 3000)` keeps the first 3000
characters (UTF-16 code units in JavaScript). -/
def ApiService.booksPrompt (topicOrContent : String) : String :=
  "You are a librarian and theologian for \"Ancient Truths, Modern Times\". Based on the following topic or content, recommend 3-5 highly relevant and authoritative books (titles and authors) from an Ethiopian Orthodox Tewahedo or broader Patristic perspective for further reading. If no specific books come to mind, suggest relevant themes or areas of study. Return a JSON object with a 'books' array, where each item has 'title' and 'author'.\n\nTopic/Content:\n"
    ++ topicOrContent.take 3000 ++ "\n"

/-- The method `ApiService.getRecommendedBooks(topicOrContent)`. -/
def ApiService.getRecommendedBooks (parse : String → Except JsError Json)
    (topicOrContent : String) (env : Nat → Outcome) (random : Nat → ℚ) : Option BooksRun :=
  (ApiService.callGemini (ApiService.booksPrompt topicOrContent) (some booksSchema) env random).map
    (recommendedBooks parse)

/-- The prompt of `getRecommendedBooks` in `main.js` (a template literal over five lines). -/
def booksPrompt (topicOrContent : String) : String :=
  "You are a librarian and theologian for \"Ancient Truths, Modern Times\". Based on the following topic or content, recommend 3-5 highly relevant and authoritative books (titles and authors) from an Ethiopian Orthodox Tewahedo or broader Patristic perspective for further reading. If no specific books come to mind, suggest relevant themes or areas of study. Return a JSON object with a 'books' array, where each item has 'title' and 'author' (or 'theme' if no specific book).\n    \n    Topic/Content:\n    "
    ++ topicOrContent.take 3000 ++ "\n    "

/-- The function `getRecommendedBooks(topicOrContent)` of `main.js`. -/
def getRecommendedBooks (parse : String → Except JsError Json)
    (topicOrContent : String) (env : Nat → Outcome) (random : Nat → ℚ) : Option BooksRun :=
  (callGemini (booksPrompt topicOrContent) (some booksSchema) env random).map
    (recommendedBooks parse)

/-! ## Firestore listeners (`src/services/firebaseService.js`)

The snapshot handed to a listener is the list of its documents: `snapshot.docs`.
-/

/-- A value stored in a field of a document, as far as the listeners look at it: a Firestore
`Timestamp` (whose `toMillis()` gives `millis`, the milliseconds since 1970, negative
before), `null` (also what a pending server timestamp reads as), or a scalar, which has no
`toMillis` property. -/
inductive FieldValue where
  | timestamp (millis : Int)
  | null
  | bool (b : Bool)
  | number (n : ℚ)
  | string (s : String)
deriving DecidableEq

/-- An object as the list of its properties, each key once, in creation order. -/
abbrev Record := List (String × FieldValue)

/-- A document of a snapshot: `d.id` and `d.data()`. -/
structure Document where
  id : String
  data : Record
deriving DecidableEq

/-- The assignment of one property to an object under construction: an existing property
takes the new value and keeps its place, a new one is added at the end. -/
def assign : Record → String × FieldValue → Record
  | [], field => [field]
  | (key, value) :: rest, field =>
    if key = field.1 then (key, field.2) :: rest else (key, value) :: assign rest field

/-- The object literal `{ id: d.id, ...d.data() }`: the property `id`, then every property
of the data assigned in turn. -/
def toRecord (d : Document) : Record :=
  d.data.foldl assign [("id", .string d.id)]

/-- The expression `value?.toMillis?.()`; `none` stands for `undefined`. -/
def toMillis : Option FieldValue → Option Int
  | some (.timestamp millis) => some millis
  | _ => none

/-- The expression `x || 0` for an optional number. -/
def orZero : Option Int → Int
  | some millis => if millis = 0 then 0 else millis
  | none => 0

/-- The expression `record.updatedAt?.toMillis?.() || 0`. -/
def updatedAtMillis (record : Record) : Int :=
  orZero (toMillis (record.lookup "updatedAt"))

/-- The comparator `(a, b) => (b.updatedAt?.toMillis?.() || 0) - (a.updatedAt?.toMillis?.() || 0)`. -/
def compareUpdatedAt (a b : Record) : Int :=
  updatedAtMillis b - updatedAtMillis a

/-- The method `Array.prototype.sort(compare)` for a comparator that is consistent: a stable
sort, in which `a` stays before `b` when `compare(a, b) ≤ 0`. -/
def sort {α : Type} (compare : α → α → Int) (array : List α) : List α :=
  array.insertionSort fun a b => compare a b ≤ 0

/-- The snapshot callback of `listenProjects`: the value passed to `cb`. -/
def FirebaseService.listenProjects (docs : List Document) : List Record :=
  sort compareUpdatedAt (docs.map toRecord)

/-- The snapshot callback of `listenScheduled`: the value passed to `cb`. -/
def FirebaseService.listenScheduled (docs : List Document) : List Record :=
  docs.map toRecord

/-- The expression `value?.toMillis()` of the copy in `main.js` (line 556): a scalar has no
method `toMillis`, so the call throws. -/
def App.toMillis (operand : String) : Option FieldValue → Except JsError (Option Int)
  | some (.timestamp millis) => .ok (some millis)
  | some .null => .ok none
  | none => .ok none
  | some _ => .error ⟨"TypeError", operand ++ ".updatedAt?.toMillis is not a function"⟩

/-- The comparator of the copy in `main.js`:
`(a, b) => (b.updatedAt?.toMillis() || 0) - (a.updatedAt?.toMillis() || 0)`. -/
def App.compareUpdatedAt (a b : Record) : Except JsError Int := do
  let millisB ← App.toMillis "b" (b.lookup "updatedAt")
  let millisA ← App.toMillis "a" (a.lookup "updatedAt")
  pure (orZero millisB - orZero millisA)

/-! ## The scheduler calendar (`SchedulerView` in `src/main.js`) -/

/-- The local calendar fields of a `Date`: `getFullYear()`, `getMonth()` (0 for January) and
`getDate()`. -/
structure CalendarDate where
  fullYear : Int
  month : Nat
  date : Nat
deriving DecidableEq, Repr

/-- A scheduled post; `scheduleDate` stands for `p.scheduleDate.toDate()`. -/
structure ScheduledPost where
  id : String
  projectTitle : String
  platform : String
  scheduleDate : CalendarDate
deriving DecidableEq, Repr

/-- The function `daysInMonth`: `new Date(date.getFullYear(), date.getMonth() + 1, 0).getDate()`,
the number of days of the month of `date` in the Gregorian calendar. -/
def daysInMonth (date : CalendarDate) : Nat :=
  if date.month = 1 then
    if date.fullYear % 4 = 0 ∧ (date.fullYear % 100 ≠ 0 ∨ date.fullYear % 400 = 0) then 29 else 28
  else if date.month = 3 ∨ date.month = 5 ∨ date.month = 8 ∨ date.month = 10 then 30
  else 31

/-- The constant `postsForDay` of the cell of `day`: the filter of lines 1948-1951. -/
def postsForDay (scheduledPosts : List ScheduledPost) (currentDate today : CalendarDate)
    (day : Nat) : List ScheduledPost :=
  scheduledPosts.filter fun p =>
    decide (p.scheduleDate.date = day) && decide (p.scheduleDate.month = currentDate.month)
      && decide (p.scheduleDate.fullYear = today.fullYear)

/-- The cells the loop `for (let day = 1; day <= totalDays; day++)` pushes: for each day of
the displayed month, the date of the cell and the posts listed in it. -/
def calendarCells (scheduledPosts : List ScheduledPost) (currentDate today : CalendarDate) :
    List (CalendarDate × List ScheduledPost) :=
  (List.range (daysInMonth currentDate)).map fun i =>
    (⟨currentDate.fullYear, currentDate.month, i + 1⟩,
      postsForDay scheduledPosts currentDate today (i + 1))

/-! ## Vocabulary of the WAV statements -/

/-- The two bytes of an unsigned 16-bit field, little-endian. -/
def uint16le (v : Nat) : List Nat := [v % 256, v / 256 % 256]

/-- The four bytes of an unsigned 32-bit field, little-endian. -/
def uint32le (v : Nat) : List Nat :=
  [v % 256, v / 256 % 256, v / 65536 % 256, v / 16777216 % 256]

/-- The two bytes of a signed 16-bit sample, little-endian two's complement. -/
def int16le (sample : Int) : List Nat := uint16le (sample % 65536).toNat

/-- The bytes of an ASCII tag such as "RIFF". -/
def asciiBytes (tag : String) : List Nat := tag.toList.map fun c => c.toNat % 256

/-- The canonical 44-byte header of a mono 16-bit PCM WAV file of `sampleCount` samples. -/
def wavHeader (sampleCount sampleRate : Nat) : List Nat :=
  asciiBytes "RIFF" ++ uint32le (36 + sampleCount * 2) ++ asciiBytes "WAVE"
    ++ asciiBytes "fmt " ++ uint32le 16 ++ uint16le 1 ++ uint16le 1 ++ uint32le sampleRate
    ++ uint32le (sampleRate * 2) ++ uint16le 2 ++ uint16le 16 ++ asciiBytes "data"
    ++ uint32le (sampleCount * 2)

/-- A reader of an unsigned little-endian 16-bit field at `offset`. -/
def getUint16 (bytes : List Nat) (offset : Nat) : Nat :=
  bytes.getD offset 0 + 256 * bytes.getD (offset + 1) 0

/-- A reader of an unsigned little-endian 32-bit field at `offset`. -/
def getUint32 (bytes : List Nat) (offset : Nat) : Nat :=
  bytes.getD offset 0 + 256 * bytes.getD (offset + 1) 0 + 65536 * bytes.getD (offset + 2) 0
    + 16777216 * bytes.getD (offset + 3) 0

/-- A reader of a signed little-endian 16-bit sample at `offset`. -/
def getInt16 (bytes : List Nat) (offset : Nat) : Int :=
  if getUint16 bytes offset < 32768 then (getUint16 bytes offset : Int)
  else (getUint16 bytes offset : Int) - 65536

/-- The state of the view of `pcmToWav` after `bytes` have been written from offset 0 into
a zeroed buffer of `total` bytes. -/
def Writer.after (bytes : List Nat) (total : Nat) : Writer :=
  ⟨bytes ++ List.replicate (total - bytes.length) 0, bytes.length⟩

/-! ## Vocabulary of the statements -/

/-- The trace of `count` consecutive iterations that end in a backoff, starting with the
counter at `attempt`: each is a request followed by a sleep. -/
def backoffEvents (request : Event) (delay : Nat → ℚ) : Nat → Nat → List Event
  | _, 0 => []
  | attempt, count + 1 =>
    request :: Event.sleep (delay attempt) :: backoffEvents request delay (attempt + 1) count

/-- A retryable status: 429 or at least 500. -/
def retryableStatus (status : Nat) : Bool := decide (status = 429) || decide (500 ≤ status)

/-- A retryable outcome for the speech wrapper, which does not read the body of a failed
response: a response with a retryable status, or a `fetch` rejection whose message the
`catch` block recognises as a network failure. -/
def Outcome.retryableByStatus : Outcome → Bool
  | .fetchRejects error => isNetworkError error
  | .response r => retryableStatus r.status

/-- A retryable outcome for the text, image and vision wrappers: as above, and the body of
the failed response was read (line 58 of `apiService.js` completed). -/
def Outcome.retryable : Outcome → Bool
  | .fetchRejects error => isNetworkError error
  | .response r => retryableStatus r.status && (readErrorBody r).isOk

/-- A 2xx response with a JSON body whose first candidate is `candidate` and whose first
part carries the non-empty text `text`. -/
def Response.hasText (response : Response) (candidate : Candidate) (text : String) : Prop :=
  response.ok = true ∧
  (∃ result rest, response.json = .ok result
    ∧ result.candidates = some (some candidate :: rest)) ∧
  (first (candidate.content.bind fun ct => ct.parts)).bind (fun p => p.text) = some text ∧
  text ≠ ""

/-- The run of a wrapper that backs off at every one of its `maxRetries` attempts: a request
and a sleep per attempt, then `throw new Error(message)` after the loop. -/
def exhaustedRun (α : Type) (request : Event) (random : Nat → ℚ) (message : String) : Run α :=
  ⟨.error (mkError message),
    backoffEvents request (fun a => backoffDelay a (random a)) 0 maxRetries⟩

/-- The run of a wrapper that backs off at each of its first `k` attempts and ends at
attempt `k` (its request number `k + 1`) with `result`. -/
def runEndingAt (α : Type) (request : Event) (random : Nat → ℚ) (k : Nat)
    (result : Except JsError α) : Run α :=
  ⟨result, backoffEvents request (fun a => backoffDelay a (random a)) 0 k ++ [request]⟩

/-- A 2xx response with the JSON body `result`, which has no candidates. -/
def Response.hasNoCandidates (response : Response) (result : Body) : Prop :=
  response.ok = true ∧ response.json = .ok result ∧
  (result.candidates = none ∨ result.candidates = some [])

/-- A 2xx response with a JSON body that has no predictions. -/
def Response.hasNoPredictions (response : Response) : Prop :=
  response.ok = true ∧
  ∃ result, response.json = .ok result ∧
    (result.predictions = none ∨ result.predictions = some [])

/-- A 2xx response rejected by content moderation: no candidates, and a non-empty
`promptFeedback.blockReason`. -/
def Response.isBlocked (response : Response) (blockReason : String) : Prop :=
  ∃ result, response.hasNoCandidates result ∧
    (result.promptFeedback.bind fun f => f.blockReason) = some blockReason ∧ blockReason ≠ ""

/-- A 2xx response that is merely malformed: no candidates, and no block reason. -/
def Response.isMalformed (response : Response) : Prop :=
  ∃ result, response.hasNoCandidates result ∧
    truthy (result.promptFeedback.bind fun f => f.blockReason) = false

/-- How a `try` block ends on a computation that returns a value or throws. -/
def TryResult.ofExcept {α : Type} : Except JsError α → TryResult α
  | .ok value => .returned value
  | .error error => .thrown error

/-- Whether `rate=` followed by at least one decimal digit stands at position `i` of a MIME
type. -/
def rateAt (mimeType : List Char) (i : Nat) : Bool :=
  "rate=".toList.isPrefixOf (mimeType.drop i)
    && !((mimeType.drop (i + 5)).takeWhile Char.isDigit).isEmpty

/-- Whether position `i` of a MIME type starts a parameter: it comes right after a `;` or
after a blank. -/
def parameterStart (mimeType : List Char) (i : Nat) : Bool :=
  match i with
  | 0 => false
  | k + 1 => mimeType.getD k 'x' == ';' || mimeType.getD k 'x' == ' '

/-- Whether the parameter `rate` of a MIME type, with a value that starts with a decimal
digit, stands at position `i`. -/
def rateParameterAt (mimeType : List Char) (i : Nat) : Bool :=
  parameterStart mimeType i && rateAt mimeType i

/-- The decimal digits that follow the `rate=` standing at position `i`. -/
def rateDigits (mimeType : List Char) (i : Nat) : List Char :=
  (mimeType.drop (i + 5)).takeWhile Char.isDigit

/-- The decimal value of a string of digits: the first digit weighs most. -/
def decimalValue : List Char → Nat
  | [] => 0
  | c :: cs => (c.toNat - 48) * 10 ^ cs.length + decimalValue cs

/-- The samples both speech wrappers decode from `audioData`: `base64ToArrayBuffer`, then
`new Int16Array`. -/
def decodeSamples (atob : String → Except JsError String) (audioData : String) :
    Except JsError (List Int) :=
  base64ToArrayBuffer atob audioData >>= int16Array

/-- The audio both speech wrappers find in an outcome: the data and the MIME type of the
first part of a 2xx JSON response, when both are non-empty and the type starts with
`audio/`. -/
def Outcome.audio : Outcome → Option (String × String)
  | .fetchRejects _ => none
  | .response r =>
    if r.ok = true then
      match r.json with
      | .error _ => none
      | .ok result =>
        match ((firstPart result).bind fun p => p.inlineData).bind fun d => d.data,
            ((firstPart result).bind fun p => p.inlineData).bind fun d => d.mimeType with
        | some audioData, some mimeType =>
          if audioData ≠ "" ∧ mimeType ≠ "" ∧ "audio/".toList.isPrefixOf mimeType.toList then
            some (audioData, mimeType)
          else none
        | _, _ => none
    else none

/-- A part that carries inline audio. -/
def audioPart (audioData mimeType : String) : Part :=
  { inlineData := some { data := some audioData, mimeType := some mimeType } }

/-- A candidate whose first part is inline audio. -/
def audioCandidate (audioData mimeType : String) : Candidate :=
  { content := some { parts := some [some (audioPart audioData mimeType)] } }

/-- A 200 response whose first part is inline audio. -/
def audioResponse (audioData mimeType : String) : Response :=
  ⟨200, .ok { candidates := some [some (audioCandidate audioData mimeType)] },
    .error ⟨"TypeError", "body stream already read"⟩⟩

/-! ## Vocabulary of the statements about the callers and the listeners -/

/-- The values the counter `attempt` holds at the successive passes through the body of the
loop of `retryLoop`: every pass issues its request, and computes its delay if it backs off,
before `attempt++`. -/
def attemptTrace {α : Type} (tryBlock : Nat → Outcome → ℚ → TryResult α)
    (env : Nat → Outcome) (random : Nat → ℚ) : Nat → Nat → List Nat
  | 0, _ => []
  | fuel + 1, attempt =>
    if attempt < maxRetries then
      match iteration tryBlock attempt (env attempt) (random attempt) with
      | .backoff _ => attempt :: attemptTrace tryBlock env random fuel (attempt + 1)
      | _ => [attempt]
    else []

/-- A `try` block computes its delays by the backoff formula at the current attempt. -/
def DelaysByFormula {α : Type} (tryBlock : Nat → Outcome → ℚ → TryResult α) : Prop :=
  ∀ attempt outcome random delay,
    tryBlock attempt outcome random = .backoff delay → delay = backoffDelay attempt random

/-- The `catch` block without the disjunct `attempt === maxRetries` of its condition. -/
def catchBlockByMessage {α : Type} (attempt : Nat) (error : JsError) (random : ℚ) :
    TryResult α :=
  if isNetworkError error = false then .thrown error
  else .backoff (backoffDelay attempt random)

/-- Whether a JSON value is an array. -/
def Json.isArray : Json → Bool
  | .array _ => true
  | _ => false

/-- The value `getRecommendedBooks` returns, case by case: the member `books` of the value
the returned text denotes, when the call of `callGemini` returned a text, the text is valid
JSON, it denotes an object, and the object has a truthy member `books`; the empty array in
every other case. -/
def booksOrEmpty (parse : String → Except JsError Json) (result : Except JsError String) :
    Json :=
  match result with
  | .error _ => .array []
  | .ok text =>
    match parse text with
    | .ok (.object members) =>
      match members.lookup "books" with
      | some value => if value.truthy then value else .array []
      | none => .array []
    | _ => .array []

/-- The time a record is ranked by: the milliseconds of its `updatedAt` timestamp, and 0
when it has no `updatedAt` timestamp. -/
def rank (record : Record) : Int :=
  match record.lookup "updatedAt" with
  | some (.timestamp millis) => millis
  | _ => 0

/-- Whether a record has an `updatedAt` timestamp. -/
def hasTimestamp (record : Record) : Bool :=
  match record.lookup "updatedAt" with
  | some (.timestamp _) => true
  | _ => false

/-- The end of a `try` block with the returned value, if any, replaced by its image. -/
def TryResult.map {α β : Type} (f : α → β) : TryResult α → TryResult β
  | .returned value => .returned (f value)
  | .thrown error => .thrown error
  | .backoff delay => .backoff delay

/-- A run with the returned value, if any, replaced by its image. -/
def Run.map {α β : Type} (f : α → β) (run : Run α) : Run β :=
  ⟨run.result.map f, run.events⟩

/-- The request both copies of the vision wrapper post. -/
def visionRequest (prompt base64ImageData mimeType : String) : Event :=
  .request geminiUrl (.vision prompt mimeType base64ImageData
    { temperature := 4 / 10, topK := 32, topP := 1, maxOutputTokens := 4096 })

/-- Neither the first candidate of a body nor the first part of the content of its first
candidate is `null`. -/
def Body.firstEntriesNotNull (result : Body) : Bool :=
  match result.candidates with
  | some (none :: _) => false
  | some (some candidate :: _) =>
    match candidate.content.bind fun ct => ct.parts with
    | some (none :: _) => false
    | _ => true
  | _ => true

/-- An outcome that is not a 2xx response with a JSON body whose first candidate, or the
first part of the content of its first candidate, is `null`. -/
def Outcome.firstEntriesNotNull : Outcome → Bool
  | .fetchRejects _ => true
  | .response r =>
    if r.ok = true then
      match r.json with
      | .error _ => true
      | .ok result => result.firstEntriesNotNull
    else true

/-- The first part of an outcome has a usable text, or the outcome has no first part: the
outcome is not a 2xx response with a JSON body whose first part has a missing or empty
text, or whose first candidate or first part is `null`. -/
def Outcome.textUsable : Outcome → Bool
  | .fetchRejects _ => true
  | .response r =>
    if r.ok = true then
      match r.json with
      | .error _ => true
      | .ok result =>
        result.firstEntriesNotNull &&
          match firstPart result with
          | some part => truthy part.text
          | none => true
    else true

/-- The `updatedAt` of a record is a timestamp, `null`, or absent. -/
def timestampOrNone (record : Record) : Bool :=
  match record.lookup "updatedAt" with
  | some (.timestamp _) => true
  | some .null => true
  | none => true
  | some _ => false

/-! ## Concrete responses used as examples -/

/-- The rejection of `response.text()` (and of `response.json()`) on a body already read. -/
def bodyUsed : JsError := ⟨"TypeError", "body stream already read"⟩

/-- The rejection of `fetch` when the network is down. -/
def networkFailure : JsError := ⟨"TypeError", "Failed to fetch"⟩

/-- A response with a JSON body; `response.text()` after `response.json()` would reject. -/
def jsonResponse (status : Nat) (body : Body) : Outcome :=
  .response ⟨status, .ok body, .error bodyUsed⟩

/-- A failed response whose body reports `message`. -/
def errorResponse (status : Nat) (message : String) : Outcome :=
  jsonResponse status { error := some { message := some message } }

/-- A candidate whose first part is the text `text`. -/
def textCandidate (text : String) (finishReason : Option String) : Candidate :=
  { content := some { parts := some [some { text := some text }] },
    finishReason := finishReason }

/-- A 200 response with one candidate carrying `text`. -/
def textResponse (text : String) (finishReason : Option String) : Response :=
  ⟨200, .ok { candidates := some [some (textCandidate text finishReason)] }, .error bodyUsed⟩

/-- Four throttled responses, then a 200 with the text "hello". -/
def fourThrottledThenText : Nat → Outcome := fun i =>
  if i < 4 then errorResponse 429 "Resource has been exhausted"
  else .response (textResponse "hello" (some "STOP"))

/-- A mix of retryable outcomes: 429, network failure, 503, network failure, 500, ... -/
def mixedFailures : Nat → Outcome := fun i =>
  [errorResponse 429 "Resource has been exhausted", .fetchRejects networkFailure,
    errorResponse 503 "The model is overloaded",
    .fetchRejects ⟨"TypeError", "NetworkError when attempting to fetch resource."⟩].getD i
    (errorResponse 500 "Internal error")

/-- The value of `JSON.parse` on the texts of the examples: two texts that denote an object
with a member `books`, and the text "null"; on "not json" it throws.  (No other text is
used.) -/
def parseExample (text : String) : Except JsError Json :=
  if text = "\x7b\"books\":[\x7b\"title\":\"On the Incarnation\",\"author\":\"Athanasius\"\x7d]\x7d" then
    .ok (.object [("books", .array [.object [("title", .string "On the Incarnation"),
      ("author", .string "Athanasius")]])])
  else if text = "\x7b\"books\":\"none\"\x7d" then .ok (.object [("books", .string "none")])
  else if text = "null" then .ok .null
  else .error ⟨"SyntaxError", "Unexpected token 'o', \"not json\" is not valid JSON"⟩

/-- A candidate with the finish reason "STOP" whose array of parts holds `null`. -/
def nullPartCandidate : Candidate :=
  { content := some { parts := some [none] }, finishReason := some "STOP" }

/-- A 200 response whose first candidate has `null` as its first part. -/
def nullPartResponse : Response :=
  ⟨200, .ok { candidates := some [some nullPartCandidate] }, .error bodyUsed⟩

/-- A 200 response whose first part has no `text` property. -/
def partWithoutText : Response :=
  ⟨200, .ok { candidates := some [some { content := some { parts := some [some {}] } }] },
    .error bodyUsed⟩

/-- A 200 response whose first part has the empty text. -/
def partWithEmptyText : Response :=
  ⟨200, .ok { candidates := some [some (textCandidate "" none)] }, .error bodyUsed⟩

/-- Three project documents: one updated at 5 ms, one never stamped that stores an `id` of
its own, one updated at 9 ms. -/
def threeProjects : List Document :=
  [⟨"a", [("title", .string "first"), ("updatedAt", .timestamp 5)]⟩,
    ⟨"b", [("id", .string "own"), ("title", .string "second")]⟩,
    ⟨"c", [("updatedAt", .timestamp 9), ("title", .string "third")]⟩]

/-- A post scheduled for 10 June 2025. -/
def juneTenth2025 : ScheduledPost := ⟨"p1", "Homily", "Blog", ⟨2025, 5, 10⟩⟩

/-- A post scheduled for 10 June 2026. -/
def juneTenth2026 : ScheduledPost := ⟨"p2", "Sermon", "Podcast", ⟨2026, 5, 10⟩⟩

/-! ## Rounding to the nearest double -/

theorem roundHalfEven_eq (q : ℚ) (n : ℤ)
    (h : |q - n| < 1 / 2 ∨ (|q - n| = 1 / 2 ∧ n % 2 = 0)) : roundHalfEven q = n := by
  by_cases hq : (n : ℚ) ≤ q
  · have habs : |q - n| = q - n := abs_of_nonneg (by linarith)
    rw [habs] at h
    have hfloor : ⌊q⌋ = n := by
      rw [Int.floor_eq_iff]
      constructor
      · exact hq
      · rcases h with h | ⟨h, _⟩ <;> linarith
    simp only [roundHalfEven, hfloor]
    rcases h with h | ⟨h, heven⟩
    · rw [if_pos h]
    · rw [if_neg (by linarith), if_neg (by linarith), if_pos heven]
  · have hq' : q < n := lt_of_not_le hq
    have habs : |q - n| = n - q := by rw [abs_of_neg (by linarith)]; ring
    rw [habs] at h
    have hfloor : ⌊q⌋ = n - 1 := by
      rw [Int.floor_eq_iff]
      push_cast
      constructor
      · rcases h with h | ⟨h, _⟩ <;> linarith
      · linarith
    simp only [roundHalfEven, hfloor]
    push_cast
    rcases h with h | ⟨h, heven⟩
    · rw [if_neg (by linarith), if_pos (by linarith)]; ring
    · have hodd : ¬ (n - 1) % 2 = 0 := by omega
      rw [if_neg (by linarith), if_neg (by linarith), if_neg hodd]; ring

theorem roundHalfEven_intCast (n : ℤ) : roundHalfEven n = n :=
  roundHalfEven_eq n n (Or.inl (by simp))

theorem floor_le_roundHalfEven (q : ℚ) : ⌊q⌋ ≤ roundHalfEven q := by
  simp only [roundHalfEven]
  split_ifs <;> omega

theorem roundHalfEven_le_floor_succ (q : ℚ) : roundHalfEven q ≤ ⌊q⌋ + 1 := by
  simp only [roundHalfEven]
  split_ifs <;> omega

theorem roundHalfEven_mono {q q' : ℚ} (h : q ≤ q') : roundHalfEven q ≤ roundHalfEven q' := by
  have hfl : ⌊q⌋ ≤ ⌊q'⌋ := Int.floor_mono h
  rcases lt_or_eq_of_le hfl with hlt | heq
  · calc roundHalfEven q ≤ ⌊q⌋ + 1 := roundHalfEven_le_floor_succ q
      _ ≤ ⌊q'⌋ := hlt
      _ ≤ roundHalfEven q' := floor_le_roundHalfEven q'
  · simp only [roundHalfEven, heq]
    have hfr : q - ⌊q'⌋ ≤ q' - ⌊q'⌋ := by linarith
    split_ifs <;> first | omega | (exfalso; linarith)

theorem ulp_pos (x : ℚ) : 0 < ulp x := zpow_pos (by norm_num) _

theorem log_eq_of_bounds (x : ℚ) (e : ℤ) (hlo : (2 : ℚ) ^ e ≤ x) (hhi : x < (2 : ℚ) ^ (e + 1)) :
    Int.log 2 x = e := by
  have hx : 0 < x := lt_of_lt_of_le (zpow_pos (by norm_num) e) hlo
  have h1 : e ≤ Int.log 2 x := (Int.zpow_le_iff_le_log (by norm_num) hx).1 (by simpa using hlo)
  have h2 : Int.log 2 x < e + 1 := (Int.lt_zpow_iff_log_lt (by norm_num) hx).1 (by simpa using hhi)
  omega

theorem roundDouble_eq (x : ℚ) (e n : ℤ) (he : -1022 ≤ e) (hlo : (2 : ℚ) ^ e ≤ x)
    (hhi : x < (2 : ℚ) ^ (e + 1))
    (hn : |x / (2 : ℚ) ^ (e - 52) - n| < 1 / 2
      ∨ (|x / (2 : ℚ) ^ (e - 52) - n| = 1 / 2 ∧ n % 2 = 0)) :
    roundDouble x = n * (2 : ℚ) ^ (e - 52) := by
  have hb : binade x = e := by
    rw [binade, log_eq_of_bounds x e hlo hhi]; exact max_eq_left he
  rw [roundDouble, ulp, hb, roundHalfEven_eq _ n hn]

theorem roundDouble_zero : roundDouble 0 = 0 := by
  simp [roundDouble, roundHalfEven]

theorem roundDouble_nonneg {x : ℚ} (hx : 0 ≤ x) : 0 ≤ roundDouble x := by
  have h : (0 : ℤ) ≤ roundHalfEven (x / ulp x) := by
    have := roundHalfEven_mono (div_nonneg hx (ulp_pos x).le)
    rwa [show ((0 : ℚ)) = ((0 : ℤ) : ℚ) by simp, roundHalfEven_intCast] at this
  exact mul_nonneg (by exact_mod_cast h) (ulp_pos x).le

theorem roundDouble_mono {x y : ℚ} (hx : 0 ≤ x) (hxy : x ≤ y) :
    roundDouble x ≤ roundDouble y := by
  rcases eq_or_lt_of_le hx with h0 | hpos
  · rw [← h0, roundDouble_zero]; exact roundDouble_nonneg (hx.trans hxy)
  have hy : 0 < y := lt_of_lt_of_le hpos hxy
  have hlog : Int.log 2 x ≤ Int.log 2 y := Int.log_mono_right hpos hxy
  have hbin : binade x ≤ binade y := max_le_max hlog (le_refl _)
  rcases eq_or_lt_of_le hbin with heq | hlt
  · have hu : ulp x = ulp y := by rw [ulp, ulp, heq]
    rw [roundDouble, roundDouble, hu]
    have hdiv : x / ulp y ≤ y / ulp y := div_le_div_of_nonneg_right hxy (ulp_pos y).le
    have := roundHalfEven_mono hdiv
    exact mul_le_mul_of_nonneg_right (by exact_mod_cast this) (ulp_pos y).le
  · -- different spacing: a power of two lies between
    have hlogx : Int.log 2 x ≤ binade x := le_max_left _ _
    have hby : binade y = Int.log 2 y := by
      have h1022 : -1022 ≤ binade x := le_max_right _ _
      have hgt : -1022 < binade y := by omega
      simp only [binade] at hgt ⊢
      rcases le_total (Int.log 2 y) (-1022) with h | h
      · rw [max_eq_right h] at hgt; omega
      · exact max_eq_left h
    have hxlt : x < (2 : ℚ) ^ (binade x + 1) := by
      have h1 : x < (2 : ℚ) ^ (Int.log 2 x + 1) := by
        simpa using Int.lt_zpow_succ_log_self (b := 2) (by norm_num) x
      exact lt_of_lt_of_le h1 (zpow_le_zpow_right₀ (by norm_num) (by omega))
    have hyge : (2 : ℚ) ^ (binade y) ≤ y := by
      rw [hby]; simpa using Int.zpow_log_le_self (b := 2) (by norm_num) hy
    have h53 : ((2 : ℚ) ^ (binade x + 1)) / ulp x = ((2 ^ 53 : ℤ) : ℚ) := by
      rw [ulp, ← zpow_sub₀ (by norm_num)]
      have : binade x + 1 - (binade x - 52) = 53 := by ring
      rw [this]; norm_num
    have h52 : ((2 : ℚ) ^ (binade y)) / ulp y = ((2 ^ 52 : ℤ) : ℚ) := by
      rw [ulp, ← zpow_sub₀ (by norm_num)]
      have : binade y - (binade y - 52) = 52 := by ring
      rw [this]; norm_num
    have hrx : roundHalfEven (x / ulp x) ≤ 2 ^ 53 := by
      have := roundHalfEven_mono (div_le_div_of_nonneg_right hxlt.le (ulp_pos x).le)
      rwa [h53, roundHalfEven_intCast] at this
    have hry : (2 ^ 52 : ℤ) ≤ roundHalfEven (y / ulp y) := by
      have := roundHalfEven_mono (div_le_div_of_nonneg_right hyge (ulp_pos y).le)
      rwa [h52, roundHalfEven_intCast] at this
    calc roundDouble x ≤ ((2 ^ 53 : ℤ) : ℚ) * ulp x :=
          mul_le_mul_of_nonneg_right (by exact_mod_cast hrx) (ulp_pos x).le
      _ = (2 : ℚ) ^ (binade x + 1) := by rw [← h53]; field_simp [(ulp_pos x).ne']
      _ ≤ (2 : ℚ) ^ (binade y) := zpow_le_zpow_right₀ (by norm_num) (by omega)
      _ = ((2 ^ 52 : ℤ) : ℚ) * ulp y := by rw [← h52]; field_simp [(ulp_pos y).ne']
      _ ≤ roundDouble y :=
          mul_le_mul_of_nonneg_right (by exact_mod_cast hry) (ulp_pos y).le

theorem roundDouble_natCast (n : ℕ) (h : n < 2 ^ 53) : roundDouble (n : ℚ) = n := by
  rcases Nat.eq_zero_or_pos n with h0 | hpos
  · subst h0; simpa using roundDouble_zero
  have hk : Nat.log 2 n < 53 := Nat.log_lt_of_lt_pow (by omega) h
  have hlog : Int.log 2 (n : ℚ) = (Nat.log 2 n : ℤ) := Int.log_natCast 2 n
  have hb : binade (n : ℚ) = (Nat.log 2 n : ℤ) := by
    rw [binade, hlog]; exact max_eq_left (by omega)
  have hu : ulp (n : ℚ) = ((2 : ℚ) ^ (52 - Nat.log 2 n))⁻¹ := by
    rw [ulp, hb, ← zpow_natCast, ← zpow_neg]
    congr 1
    omega
  have hdiv : (n : ℚ) / ulp (n : ℚ) = (((n * 2 ^ (52 - Nat.log 2 n) : ℕ) : ℤ) : ℚ) := by
    rw [hu, div_inv_eq_mul]; push_cast; ring
  rw [roundDouble, hdiv, roundHalfEven_intCast, hu]
  push_cast
  field_simp

theorem roundDouble_sandwich {a x b : ℚ} (ha : roundDouble a = a) (hb : roundDouble b = b)
    (h0 : 0 ≤ a) (hax : a ≤ x) (hxb : x ≤ b) : a ≤ roundDouble x ∧ roundDouble x ≤ b := by
  constructor
  · rw [← ha]; exact roundDouble_mono h0 hax
  · rw [← hb]; exact roundDouble_mono (h0.trans hax) hxb

theorem double_below_one (r : ℚ) (h1 : r < 1) (hd : roundDouble r = r) :
    r ≤ 1 - 1 / 2 ^ 53 := by
  by_cases hhalf : r < 1 / 2
  · have : (1 : ℚ) / 2 ≤ 1 - 1 / 2 ^ 53 := by norm_num
    linarith
  · have hlo : (2 : ℚ) ^ (-1 : ℤ) ≤ r := by
      rw [zpow_neg_one]; norm_num at hhalf ⊢; linarith
    have hhi : r < (2 : ℚ) ^ ((-1 : ℤ) + 1) := by simpa using h1
    have hb : binade r = -1 := by
      rw [binade, log_eq_of_bounds r (-1) hlo hhi]; rfl
    have hu : ulp r = 1 / 2 ^ 53 := by
      rw [ulp, hb]; norm_num [zpow_neg]
    rw [roundDouble, hu] at hd
    set m := roundHalfEven (r / (1 / 2 ^ 53)) with hm
    have hm53 : (m : ℚ) < 2 ^ 53 := by
      have : (m : ℚ) * (1 / 2 ^ 53) < 1 := by rw [hd]; exact h1
      have h2 : (0 : ℚ) < 2 ^ 53 := by positivity
      field_simp at this
      linarith
    have hmle : m ≤ 2 ^ 53 - 1 := by
      have : m < 2 ^ 53 := by exact_mod_cast hm53
      omega
    have : (m : ℚ) ≤ 2 ^ 53 - 1 := by exact_mod_cast hmle
    rw [← hd]
    have h2 : (0 : ℚ) < 1 / 2 ^ 53 := by positivity
    calc (m : ℚ) * (1 / 2 ^ 53) ≤ (2 ^ 53 - 1) * (1 / 2 ^ 53) :=
          mul_le_mul_of_nonneg_right this h2.le
      _ = 1 - 1 / 2 ^ 53 := by norm_num

theorem roundDouble_jitter_top :
    roundDouble ((1 - 1 / 2 ^ 53) * 1000) = 1000 - 1 / 2 ^ 43 := by
  rw [roundDouble_eq _ 9 (1000 * 2 ^ 43 - 1) (by norm_num) (by norm_num) (by norm_num)
    (Or.inl (by norm_num [zpow_neg, abs_lt]))]
  norm_num [zpow_neg]

theorem roundDouble_of_nat (x : ℚ) (n : ℕ) (hx : x = n) (h : n < 2 ^ 53) :
    roundDouble x = x := by
  rw [hx]; exact roundDouble_natCast n h

theorem roundDouble_pow_thousand (attempt : Nat) (ha : attempt ≤ 4) :
    roundDouble ((2 : ℚ) ^ attempt * 1000) = (2 : ℚ) ^ attempt * 1000 := by
  have hpow : 2 ^ attempt ≤ 2 ^ 4 := Nat.pow_le_pow_right (by norm_num) ha
  have hlt : 2 ^ attempt * 1000 < 2 ^ 53 :=
    lt_of_le_of_lt (Nat.mul_le_mul_right _ hpow) (by norm_num)
  exact roundDouble_of_nat _ (2 ^ attempt * 1000) (by push_cast; ring) hlt

theorem roundDouble_pow_thousand_succ (attempt : Nat) (ha : attempt ≤ 4) :
    roundDouble ((2 : ℚ) ^ attempt * 1000 + 1000) = (2 : ℚ) ^ attempt * 1000 + 1000 := by
  have hpow : 2 ^ attempt ≤ 2 ^ 4 := Nat.pow_le_pow_right (by norm_num) ha
  have hlt : 2 ^ attempt * 1000 + 1000 < 2 ^ 53 :=
    lt_of_le_of_lt (Nat.add_le_add_right (Nat.mul_le_mul_right _ hpow) _) (by norm_num)
  exact roundDouble_of_nat _ (2 ^ attempt * 1000 + 1000) (by push_cast; ring) hlt

theorem jitter_bounds (random : ℚ) (h0 : 0 ≤ random) (h1 : random < 1) :
    0 ≤ roundDouble (random * 1000) ∧ roundDouble (random * 1000) ≤ 1000 :=
  roundDouble_sandwich roundDouble_zero
    (roundDouble_of_nat 1000 1000 (by norm_num) (by norm_num)) (le_refl _)
    (by positivity) (by linarith)

theorem jitter_lt (random : ℚ) (h0 : 0 ≤ random) (h1 : random < 1)
    (hd : roundDouble random = random) : roundDouble (random * 1000) < 1000 := by
  have hle := double_below_one random h1 hd
  have hmono : roundDouble (random * 1000) ≤ roundDouble ((1 - 1 / 2 ^ 53) * 1000) :=
    roundDouble_mono (by positivity) (by linarith)
  rw [roundDouble_jitter_top] at hmono
  have : (0 : ℚ) < 1 / 2 ^ 43 := by positivity
  linarith

theorem backoffDelay_eq (attempt : Nat) (random : ℚ) (ha : attempt ≤ 4) :
    backoffDelay attempt random
      = roundDouble ((2 : ℚ) ^ attempt * 1000 + roundDouble (random * 1000)) := by
  rw [backoffDelay, roundDouble_pow_thousand attempt ha]

theorem backoffDelay_bounds (attempt : Nat) (random : ℚ) (ha : attempt ≤ 4)
    (h0 : 0 ≤ random) (h1 : random < 1) :
    (2 : ℚ) ^ attempt * 1000 ≤ backoffDelay attempt random
    ∧ backoffDelay attempt random ≤ (2 : ℚ) ^ attempt * 1000 + 1000 := by
  obtain ⟨hj0, hj1⟩ := jitter_bounds random h0 h1
  rw [backoffDelay_eq attempt random ha]
  exact roundDouble_sandwich (roundDouble_pow_thousand attempt ha)
    (roundDouble_pow_thousand_succ attempt ha) (by positivity) (by linarith) (by linarith)

theorem backoffDelay_of_nat (attempt : Nat) (random : ℚ) (m : ℕ) (ha : attempt ≤ 4)
    (hm : random * 1000 = m) (hle : m ≤ 1000) :
    backoffDelay attempt random = (2 : ℚ) ^ attempt * 1000 + m := by
  rw [backoffDelay_eq attempt random ha, hm, roundDouble_natCast m (by omega)]
  have hpow : 2 ^ attempt ≤ 2 ^ 4 := Nat.pow_le_pow_right (by norm_num) ha
  have hlt : 2 ^ attempt * 1000 + m < 2 ^ 53 :=
    lt_of_le_of_lt (Nat.add_le_add (Nat.mul_le_mul_right _ hpow) hle) (by norm_num)
  exact roundDouble_of_nat _ (2 ^ attempt * 1000 + m) (by push_cast; ring) hlt

theorem double_half : roundDouble (1 / 2) = 1 / 2 := by
  rw [roundDouble_eq _ (-1) (2 ^ 52) (by norm_num) (by norm_num [zpow_neg])
    (by norm_num) (Or.inl (by norm_num [zpow_neg]))]
  norm_num [zpow_neg]

theorem double_top52 : roundDouble (1 - 1 / 2 ^ 52) = 1 - 1 / 2 ^ 52 := by
  rw [roundDouble_eq _ (-1) (2 ^ 53 - 2) (by norm_num) (by norm_num [zpow_neg])
    (by norm_num) (Or.inl (by norm_num [zpow_neg]))]
  norm_num [zpow_neg]

theorem double_top53 : roundDouble (1 - 1 / 2 ^ 53) = 1 - 1 / 2 ^ 53 := by
  rw [roundDouble_eq _ (-1) (2 ^ 53 - 1) (by norm_num) (by norm_num [zpow_neg])
    (by norm_num) (Or.inl (by norm_num [zpow_neg]))]
  norm_num [zpow_neg]

theorem jitter_top52 : roundDouble ((1 - 1 / 2 ^ 52) * 1000) = 1000 - 1 / 2 ^ 42 := by
  rw [roundDouble_eq _ 9 (1000 * 2 ^ 43 - 2) (by norm_num) (by norm_num) (by norm_num)
    (Or.inl (by norm_num [zpow_neg, abs_lt]))]
  norm_num [zpow_neg]

theorem backoffDelay_top52_zero : backoffDelay 0 (1 - 1 / 2 ^ 52) = 2000 - 1 / 2 ^ 42 := by
  rw [backoffDelay_eq _ _ (by norm_num), jitter_top52,
    roundDouble_eq _ 10 (2000 * 2 ^ 42 - 1) (by norm_num) (by norm_num) (by norm_num)
      (Or.inl (by norm_num [zpow_neg]))]
  norm_num [zpow_neg]

theorem backoffDelay_top52_one : backoffDelay 1 (1 - 1 / 2 ^ 52) = 3000 := by
  rw [backoffDelay_eq _ _ (by norm_num), jitter_top52,
    roundDouble_eq _ 11 (3000 * 2 ^ 41) (by norm_num) (by norm_num) (by norm_num)
      (Or.inr ⟨by norm_num [zpow_neg, abs_of_neg], by norm_num⟩)]
  norm_num [zpow_neg]

theorem backoffDelay_top52_four : backoffDelay 4 (1 - 1 / 2 ^ 52) = 17000 := by
  rw [backoffDelay_eq _ _ (by norm_num), jitter_top52,
    roundDouble_eq _ 14 (17000 * 2 ^ 38) (by norm_num) (by norm_num) (by norm_num)
      (Or.inl (by norm_num [zpow_neg, abs_lt]))]
  norm_num [zpow_neg]

theorem backoffDelay_top53 :
    backoffDelay 0 (1 - 1 / 2 ^ 53) = 2000 ∧ backoffDelay 1 (1 - 1 / 2 ^ 53) = 3000
    ∧ backoffDelay 2 (1 - 1 / 2 ^ 53) = 5000 ∧ backoffDelay 3 (1 - 1 / 2 ^ 53) = 9000
    ∧ backoffDelay 4 (1 - 1 / 2 ^ 53) = 17000 := by
  refine ⟨?_, ?_, ?_, ?_, ?_⟩
  · rw [backoffDelay_eq _ _ (by norm_num), roundDouble_jitter_top,
      roundDouble_eq _ 10 (2000 * 2 ^ 42) (by norm_num) (by norm_num) (by norm_num)
        (Or.inr ⟨by norm_num [zpow_neg, abs_of_neg], by norm_num⟩)]
    norm_num [zpow_neg]
  · rw [backoffDelay_eq _ _ (by norm_num), roundDouble_jitter_top,
      roundDouble_eq _ 11 (3000 * 2 ^ 41) (by norm_num) (by norm_num) (by norm_num)
        (Or.inl (by norm_num [zpow_neg, abs_lt]))]
    norm_num [zpow_neg]
  · rw [backoffDelay_eq _ _ (by norm_num), roundDouble_jitter_top,
      roundDouble_eq _ 12 (5000 * 2 ^ 40) (by norm_num) (by norm_num) (by norm_num)
        (Or.inl (by norm_num [zpow_neg, abs_lt]))]
    norm_num [zpow_neg]
  · rw [backoffDelay_eq _ _ (by norm_num), roundDouble_jitter_top,
      roundDouble_eq _ 13 (9000 * 2 ^ 39) (by norm_num) (by norm_num) (by norm_num)
        (Or.inl (by norm_num [zpow_neg, abs_lt]))]
    norm_num [zpow_neg]
  · rw [backoffDelay_eq _ _ (by norm_num), roundDouble_jitter_top,
      roundDouble_eq _ 14 (17000 * 2 ^ 38) (by norm_num) (by norm_num) (by norm_num)
        (Or.inl (by norm_num [zpow_neg, abs_lt]))]
    norm_num [zpow_neg]

/-! ## The retry loop: general facts -/

@[simp]
theorem first_none {α : Type} : first (none : Option (List (Option α))) = none := rfl

@[simp]
theorem first_nil {α : Type} : first (some ([] : List (Option α))) = none := rfl

@[simp]
theorem first_cons {α : Type} (entry : Option α) (rest : List (Option α)) :
    first (some (entry :: rest)) = entry := by
  cases entry <;> rfl

theorem retryLoop_exhausted {α : Type} (request : Event)
    (tryBlock : Nat → Outcome → ℚ → TryResult α) (exhausted : String) (env : Nat → Outcome)
    (random : Nat → ℚ) (fuel : Nat) :
    retryLoop request tryBlock exhausted env random (fuel + 1) maxRetries
      = some ⟨.error (mkError exhausted), []⟩ := by
  simp [retryLoop]

theorem retryLoop_backoffs {α : Type} (request : Event)
    (tryBlock : Nat → Outcome → ℚ → TryResult α) (exhausted : String) (env : Nat → Outcome)
    (random : Nat → ℚ) (delay : Nat → ℚ) (fuel : Nat) :
    ∀ (count attempt : Nat), attempt + count ≤ maxRetries →
      (∀ i, attempt ≤ i → i < attempt + count →
        iteration tryBlock i (env i) (random i) = .backoff (delay i)) →
      retryLoop request tryBlock exhausted env random (fuel + count) attempt
        = (retryLoop request tryBlock exhausted env random fuel (attempt + count)).map
            fun run => ⟨run.result, backoffEvents request delay attempt count ++ run.events⟩ := by
  intro count
  induction count with
  | zero =>
    intro attempt _ _
    cases h : retryLoop request tryBlock exhausted env random fuel attempt <;>
      simp [h, backoffEvents]
  | succ count ih =>
    intro attempt hle hstep
    have hlt : attempt < maxRetries := by omega
    have h0 := hstep attempt (le_refl _) (by omega)
    have ih1 := ih (attempt + 1) (by omega) (fun i h1 h2 => hstep i (by omega) (by omega))
    have hfuel : fuel + (count + 1) = (fuel + count) + 1 := by omega
    rw [hfuel, retryLoop, if_pos hlt, h0]
    simp only []
    rw [ih1, Option.map_map]
    have hidx : attempt + 1 + count = attempt + (count + 1) := by omega
    rw [hidx]
    congr 1

theorem requestCount_append (xs ys : List Event) :
    requestCount (xs ++ ys) = requestCount xs + requestCount ys := by
  induction xs with
  | nil => simp [requestCount]
  | cons e es ih =>
    cases e
    · simp [requestCount, ih]; omega
    · simp [requestCount, ih]

theorem requestCount_backoffEvents (url : String) (payload : Payload) (delay : Nat → ℚ) :
    ∀ (count attempt : Nat),
      requestCount (backoffEvents (.request url payload) delay attempt count) = count := by
  intro count
  induction count with
  | zero => intro attempt; simp [backoffEvents, requestCount]
  | succ count ih => intro attempt; simp [backoffEvents, requestCount, ih]

theorem ok_false_of_retryableStatus (response : Response)
    (h : retryableStatus response.status = true) : response.ok = false := by
  simp only [retryableStatus, Bool.or_eq_true, decide_eq_true_eq] at h
  simp only [Response.ok, Bool.and_eq_false_iff, decide_eq_false_iff_not]
  omega

theorem catchBlock_network {α : Type} (attempt : Nat) (error : JsError) (random : ℚ)
    (ha : attempt < maxRetries) (h : isNetworkError error = true) :
    (catchBlock attempt error random : TryResult α) = .backoff (backoffDelay attempt random) := by
  have : attempt ≠ maxRetries := by omega
  simp [catchBlock, this, h]

theorem catchBlock_other {α : Type} (attempt : Nat) (error : JsError) (random : ℚ)
    (h : isNetworkError error = false) :
    (catchBlock attempt error random : TryResult α) = .thrown error := by
  simp [catchBlock, h]

theorem retryLoop_backoffs_then_returned {α : Type} (request : Event)
    (tryBlock : Nat → Outcome → ℚ → TryResult α) (exhausted : String) (env : Nat → Outcome)
    (random : Nat → ℚ) (delay : Nat → ℚ) (k : Nat) (value : α) (hk : k < maxRetries)
    (hback : ∀ i, i < k → iteration tryBlock i (env i) (random i) = .backoff (delay i))
    (hlast : iteration tryBlock k (env k) (random k) = .returned value) :
    retryLoop request tryBlock exhausted env random (maxRetries + 1) 0
      = some ⟨.ok value, backoffEvents request delay 0 k ++ [request]⟩ := by
  have hfuel : maxRetries + 1 = (maxRetries - k) + 1 + k := by omega
  rw [hfuel, retryLoop_backoffs request tryBlock exhausted env random delay _ k 0 (by omega)
    (fun i _ h2 => hback i (by omega))]
  simp [retryLoop, hk, hlast]

theorem retryLoop_backoffs_then_thrown {α : Type} (request : Event)
    (tryBlock : Nat → Outcome → ℚ → TryResult α) (exhausted : String) (env : Nat → Outcome)
    (random : Nat → ℚ) (delay : Nat → ℚ) (k : Nat) (error : JsError) (hk : k < maxRetries)
    (hback : ∀ i, i < k → iteration tryBlock i (env i) (random i) = .backoff (delay i))
    (hlast : iteration tryBlock k (env k) (random k) = .thrown error) :
    retryLoop request tryBlock exhausted env random (maxRetries + 1) 0
      = some ⟨.error error, backoffEvents request delay 0 k ++ [request]⟩ := by
  have hfuel : maxRetries + 1 = (maxRetries - k) + 1 + k := by omega
  rw [hfuel, retryLoop_backoffs request tryBlock exhausted env random delay _ k 0 (by omega)
    (fun i _ h2 => hback i (by omega))]
  simp [retryLoop, hk, hlast]

theorem retryLoop_all_backoffs {α : Type} (request : Event)
    (tryBlock : Nat → Outcome → ℚ → TryResult α) (exhausted : String) (env : Nat → Outcome)
    (random : Nat → ℚ) (delay : Nat → ℚ)
    (hback : ∀ i, i < maxRetries → iteration tryBlock i (env i) (random i) = .backoff (delay i)) :
    retryLoop request tryBlock exhausted env random (maxRetries + 1) 0
      = some ⟨.error (mkError exhausted), backoffEvents request delay 0 maxRetries⟩ := by
  have hfuel : maxRetries + 1 = 1 + maxRetries := by omega
  rw [hfuel, retryLoop_backoffs request tryBlock exhausted env random delay _ maxRetries 0
    (by omega) (fun i _ h2 => hback i (by omega))]
  simp [retryLoop]

theorem ApiService.callGeminiTry_hasText (attempt : Nat) (r : Response) (c : Candidate)
    (t : String) (u : ℚ) (h : r.hasText c t) :
    iteration ApiService.callGeminiTry attempt (.response r) u
      = .returned (if c.finishReason = some "MAX_TOKENS" then t ++ truncationNotice else t) := by
  obtain ⟨hok, ⟨result, rest, hjson, hcand⟩, htext, hne⟩ := h
  simp only [iteration, ApiService.callGeminiTry, hok, hjson, hcand, htext]
  by_cases hf : c.finishReason = some "MAX_TOKENS" <;> simp [hne, hf]

theorem mainJs_callGeminiTry_hasText (attempt : Nat) (r : Response) (c : Candidate)
    (t : String) (u : ℚ) (h : r.hasText c t) :
    iteration callGeminiTry attempt (.response r) u
      = .returned (if c.finishReason = some "MAX_TOKENS" then t ++ truncationNotice else t) := by
  obtain ⟨hok, ⟨result, rest, hjson, hcand⟩, htext, hne⟩ := h
  cases hc : c.content with
  | none => simp [hc, first] at htext
  | some content =>
    cases hp : content.parts with
    | none => simp [hc, hp, first] at htext
    | some parts =>
      cases parts with
      | nil => simp [hc, hp, first] at htext
      | cons part ps =>
        cases part with
        | none => simp [hc, hp, first] at htext
        | some part =>
          simp only [hc, hp, first_cons, Option.bind] at htext
          simp only [iteration, callGeminiTry, hok, hjson, hcand, hc, hp, htext, truthy]
          by_cases hf : c.finishReason = some "MAX_TOKENS" <;> simp [hne, hf]


/-! ## Retryable outcomes make every wrapper back off -/

theorem ApiService.callGeminiTry_retryable (attempt : Nat) (o : Outcome) (u : ℚ)
    (ha : attempt < maxRetries) (h : o.retryable = true) :
    iteration ApiService.callGeminiTry attempt o u = .backoff (backoffDelay attempt u) := by
  cases o with
  | fetchRejects e =>
    simp only [Outcome.retryable] at h
    simp [iteration, ApiService.callGeminiTry, catchBlock_network attempt e u ha h]
  | response r =>
    simp only [Outcome.retryable, Bool.and_eq_true] at h
    have hok := ok_false_of_retryableStatus r h.1
    have hst : r.status = 429 ∨ r.status ≥ 500 := by
      simpa [retryableStatus] using h.1
    cases hb : readErrorBody r with
    | error e => simp [hb, Except.isOk, Except.toBool] at h
    | ok b => simp [iteration, ApiService.callGeminiTry, hok, hb, hst]

theorem mainJs_callGeminiTry_retryable (attempt : Nat) (o : Outcome) (u : ℚ)
    (ha : attempt < maxRetries) (h : o.retryable = true) :
    iteration callGeminiTry attempt o u = .backoff (backoffDelay attempt u) := by
  cases o with
  | fetchRejects e =>
    simp only [Outcome.retryable] at h
    simp [iteration, callGeminiTry, catchBlock_network attempt e u ha h]
  | response r =>
    simp only [Outcome.retryable, Bool.and_eq_true] at h
    have hok := ok_false_of_retryableStatus r h.1
    have hst : r.status = 429 ∨ r.status ≥ 500 := by
      simpa [retryableStatus] using h.1
    cases hb : readErrorBody r with
    | error e => simp [hb, Except.isOk, Except.toBool] at h
    | ok b => simp [iteration, callGeminiTry, hok, hb, hst]

theorem ApiService.callImagenTry_retryable (attempt : Nat) (o : Outcome) (u : ℚ)
    (ha : attempt < maxRetries) (h : o.retryable = true) :
    iteration ApiService.callImagenTry attempt o u = .backoff (backoffDelay attempt u) := by
  cases o with
  | fetchRejects e =>
    simp only [Outcome.retryable] at h
    simp [iteration, ApiService.callImagenTry, catchBlock_network attempt e u ha h]
  | response r =>
    simp only [Outcome.retryable, Bool.and_eq_true] at h
    have hok := ok_false_of_retryableStatus r h.1
    have hst : r.status = 429 ∨ r.status ≥ 500 := by
      simpa [retryableStatus] using h.1
    cases hb : readErrorBody r with
    | error e => simp [hb, Except.isOk, Except.toBool] at h
    | ok b => simp [iteration, ApiService.callImagenTry, hok, hb, hst]

theorem ApiService.callGeminiVisionTry_retryable (attempt : Nat) (o : Outcome) (u : ℚ)
    (ha : attempt < maxRetries) (h : o.retryable = true) :
    iteration ApiService.callGeminiVisionTry attempt o u
      = .backoff (backoffDelay attempt u) := by
  cases o with
  | fetchRejects e =>
    simp only [Outcome.retryable] at h
    simp [iteration, ApiService.callGeminiVisionTry, catchBlock_network attempt e u ha h]
  | response r =>
    simp only [Outcome.retryable, Bool.and_eq_true] at h
    have hok := ok_false_of_retryableStatus r h.1
    have hst : r.status = 429 ∨ r.status ≥ 500 := by
      simpa [retryableStatus] using h.1
    cases hb : readErrorBody r with
    | error e => simp [hb, Except.isOk, Except.toBool] at h
    | ok b => simp [iteration, ApiService.callGeminiVisionTry, hok, hb, hst]

theorem ApiService.callGeminiTTSTry_retryable (atob : String → Except JsError String)
    (attempt : Nat) (o : Outcome) (u : ℚ)
    (ha : attempt < maxRetries) (h : o.retryableByStatus = true) :
    iteration (ApiService.callGeminiTTSTry atob) attempt o u
      = .backoff (backoffDelay attempt u) := by
  cases o with
  | fetchRejects e =>
    simp only [Outcome.retryableByStatus] at h
    simp [iteration, ApiService.callGeminiTTSTry, catchBlock_network attempt e u ha h]
  | response r =>
    simp only [Outcome.retryableByStatus] at h
    have hok := ok_false_of_retryableStatus r h
    have hst : r.status = 429 ∨ r.status ≥ 500 := by
      simpa [retryableStatus] using h
    simp [iteration, ApiService.callGeminiTTSTry, hok, hst]

theorem exhausted_message_not_network :
    isNetworkError (mkError "Max retries reached for Gemini API call.") = false ∧
    isNetworkError (mkError "Max retries reached for Imagen API call.") = false ∧
    isNetworkError (mkError "Max retries reached for TTS API call.") = false ∧
    isNetworkError (mkError "Max retries reached for Gemini Vision API call.") = false := by
  decide

/-! ## Messages that the `catch` block does not take for network failures -/

theorem includesChars_of_head_not_mem (c : Char) (rest : List Char) :
    ∀ s : List Char, c ∉ s → includesChars s (c :: rest) = false := by
  intro s
  induction s with
  | nil => intro _; rfl
  | cons x xs ih =>
    intro h
    have hx : c ≠ x := fun e => h (by simp [e])
    have hxs : c ∉ xs := fun e => h (by simp [e])
    simp [includesChars, List.isPrefixOf, hx, ih hxs]

theorem digitChar_mod_ten (n : Nat) : Nat.digitChar (n % 10) ∈ "0123456789".toList := by
  have h : n % 10 < 10 := Nat.mod_lt _ (by decide)
  generalize n % 10 = k at h
  interval_cases k <;> decide

theorem toDigitsCore_digits (fuel : Nat) :
    ∀ (n : Nat) (ds : List Char), (∀ c ∈ ds, c ∈ "0123456789".toList) →
      ∀ c ∈ Nat.toDigitsCore 10 fuel n ds, c ∈ "0123456789".toList := by
  induction fuel with
  | zero => intro n ds h; simpa [Nat.toDigitsCore] using h
  | succ fuel ih =>
    intro n ds h
    have hcons : ∀ c ∈ Nat.digitChar (n % 10) :: ds, c ∈ "0123456789".toList := by
      intro c hc
      rcases List.mem_cons.mp hc with rfl | hc
      · exact digitChar_mod_ten n
      · exact h c hc
    unfold Nat.toDigitsCore
    by_cases h0 : n / 10 = 0
    · simpa [h0] using hcons
    · simpa [h0] using ih (n / 10) _ hcons

theorem toString_nat_digits (n : Nat) : ∀ c ∈ (toString n).toList, c ∈ "0123456789".toList := by
  show ∀ c ∈ (Nat.toDigits 10 n), c ∈ "0123456789".toList
  exact toDigitsCore_digits _ _ _ (by simp)

theorem not_network_of_no_F_N (s : String) (hF : 'F' ∉ s.toList) (hN : 'N' ∉ s.toList) :
    isNetworkError (mkError s) = false := by
  have h1 : includes s "Failed to fetch" = false :=
    includesChars_of_head_not_mem 'F' "ailed to fetch".toList s.toList hF
  have h2 : includes s "NetworkError" = false :=
    includesChars_of_head_not_mem 'N' "etworkError".toList s.toList hN
  simp [isNetworkError, mkError, h1, h2]

theorem not_network_status_message (pre : String) (status : Nat)
    (hF : 'F' ∉ pre.toList) (hN : 'N' ∉ pre.toList) :
    isNetworkError (mkError (pre ++ toString status)) = false := by
  apply not_network_of_no_F_N
  · rw [String.toList, String.data_append]
    intro h
    rcases List.mem_append.mp h with h | h
    · exact hF h
    · exact absurd (toString_nat_digits status _ h) (by decide)
  · rw [String.toList, String.data_append]
    intro h
    rcases List.mem_append.mp h with h | h
    · exact hN h
    · exact absurd (toString_nat_digits status _ h) (by decide)

theorem includesChars_append_left (c : Char) (rest : List Char) (s : List Char) :
    ∀ p : List Char, c ∉ p →
      includesChars (p ++ s) (c :: rest) = includesChars s (c :: rest) := by
  intro p
  induction p with
  | nil => intro _; rfl
  | cons x xs ih =>
    intro h
    have hx : c ≠ x := fun e => h (by simp [e])
    have hxs : c ∉ xs := fun e => h (by simp [e])
    simp [includesChars, List.isPrefixOf, hx, ih hxs]

theorem isPrefixOf_append_singleton (d : Char) :
    ∀ (sub l : List Char), d ∉ sub → sub.isPrefixOf (l ++ [d]) = sub.isPrefixOf l := by
  intro sub
  induction sub with
  | nil => intro l _; simp [List.isPrefixOf]
  | cons a sub ih =>
    intro l h
    have ha : a ≠ d := fun e => h (by simp [e])
    have hsub : d ∉ sub := fun e => h (by simp [e])
    cases l with
    | nil => simp [List.isPrefixOf, ha]
    | cons b l => simp [List.isPrefixOf, ih l hsub]

theorem includesChars_append_singleton (d : Char) (sub : List Char) (h : d ∉ sub) :
    ∀ s : List Char, includesChars (s ++ [d]) sub = includesChars s sub := by
  intro s
  induction s with
  | nil =>
    have := isPrefixOf_append_singleton d sub [] h
    simp only [List.nil_append] at this
    cases sub <;> simp_all [includesChars, List.isPrefixOf]
  | cons x xs ih =>
    have := isPrefixOf_append_singleton d sub (x :: xs) h
    simp only [List.cons_append] at this
    simp [includesChars, this, ih]

theorem not_network_blocked_message (blockReason : String)
    (h : isNetworkError (mkError blockReason) = false) :
    isNetworkError (mkError ("Content generation blocked. Reason: " ++ blockReason ++ "."))
      = false := by
  simp only [isNetworkError, mkError, includes, Bool.or_eq_false_iff] at h ⊢
  have hd : ("Content generation blocked. Reason: " ++ blockReason ++ ".").toList
      = "Content generation blocked. Reason: ".toList ++ (blockReason.toList ++ ['.']) := by
    simp [String.toList, String.data_append]
  rw [hd]
  constructor
  · rw [show "Failed to fetch".toList = 'F' :: "ailed to fetch".toList from rfl,
      includesChars_append_left 'F' _ _ _ (by decide),
      includesChars_append_singleton '.' _ (by decide)]
    exact h.1
  · rw [show "NetworkError".toList = 'N' :: "etworkError".toList from rfl,
      includesChars_append_left 'N' _ _ _ (by decide),
      includesChars_append_singleton '.' _ (by decide)]
    exact h.2

theorem blocked_message_ne (blockReason other : String)
    (h : other.toList.head? ≠ some 'C') :
    mkError ("Content generation blocked. Reason: " ++ blockReason ++ ".") ≠ mkError other := by
  intro heq
  have hm : "Content generation blocked. Reason: " ++ blockReason ++ "." = other := by
    simpa [mkError] using heq
  apply h
  rw [← hm]
  simp [String.toList, String.data_append]

/-! ## Responses without the expected payload -/

theorem ApiService.callGeminiTry_blocked (attempt : Nat) (r : Response) (br : String) (u : ℚ)
    (h : r.isBlocked br) (hn : isNetworkError (mkError br) = false) :
    iteration ApiService.callGeminiTry attempt (.response r) u
      = .thrown (mkError ("Content generation blocked. Reason: " ++ br ++ ".")) := by
  obtain ⟨result, ⟨hok, hjson, hcand⟩, hbr, hne⟩ := h
  have hc : catchBlock attempt (mkError ("Content generation blocked. Reason: " ++ br ++ "."))
      u = (.thrown (mkError ("Content generation blocked. Reason: " ++ br ++ "."))
        : TryResult String) :=
    catchBlock_other _ _ _ (not_network_blocked_message br hn)
  rcases hcand with hcand | hcand <;>
    simp [iteration, ApiService.callGeminiTry, hok, hjson, hcand, hbr, truthy, hne, hc]

theorem mainJs_callGeminiTry_blocked (attempt : Nat) (r : Response) (br : String) (u : ℚ)
    (h : r.isBlocked br) (hn : isNetworkError (mkError br) = false) :
    iteration callGeminiTry attempt (.response r) u
      = .thrown (mkError ("Content generation blocked. Reason: " ++ br ++ ".")) := by
  obtain ⟨result, ⟨hok, hjson, hcand⟩, hbr, hne⟩ := h
  have hc : catchBlock attempt (mkError ("Content generation blocked. Reason: " ++ br ++ "."))
      u = (.thrown (mkError ("Content generation blocked. Reason: " ++ br ++ "."))
        : TryResult String) :=
    catchBlock_other _ _ _ (not_network_blocked_message br hn)
  cases hpf : result.promptFeedback with
  | none => simp [hpf] at hbr
  | some pf =>
    simp only [hpf, Option.bind] at hbr
    rcases hcand with hcand | hcand <;>
      simp [iteration, callGeminiTry, hok, hjson, hcand, hpf, hbr, truthy, hne, hc]

theorem ApiService.callGeminiTry_malformed (attempt : Nat) (r : Response) (u : ℚ)
    (h : r.isMalformed) :
    iteration ApiService.callGeminiTry attempt (.response r) u
      = .thrown (mkError "Error: API returned no candidates.") := by
  obtain ⟨result, ⟨hok, hjson, hcand⟩, hbr⟩ := h
  have hc : catchBlock attempt (mkError "Error: API returned no candidates.") u
      = (.thrown (mkError "Error: API returned no candidates.") : TryResult String) :=
    catchBlock_other _ _ _ (by decide)
  rcases hcand with hcand | hcand <;>
    simp [iteration, ApiService.callGeminiTry, hok, hjson, hcand, hbr, hc]

theorem ApiService.callImagenTry_noPredictions (attempt : Nat) (r : Response)
    (u : ℚ) (h : r.hasNoPredictions) :
    iteration ApiService.callImagenTry attempt (.response r) u
      = .thrown (mkError "Unexpected response from Imagen API or content filter triggered.") := by
  obtain ⟨hok, result, hjson, hpred⟩ := h
  have hc : catchBlock attempt
      (mkError "Unexpected response from Imagen API or content filter triggered.") u
      = (.thrown (mkError "Unexpected response from Imagen API or content filter triggered.")
        : TryResult String) :=
    catchBlock_other _ _ _ (by decide)
  rcases hpred with hpred | hpred <;>
    simp [iteration, ApiService.callImagenTry, hok, hjson, hpred, hc]

theorem firstPart_noCandidates (r : Response) (result : Body)
    (h : r.hasNoCandidates result) :
    firstPart result = none := by
  obtain ⟨_, _, hcand⟩ := h
  rcases hcand with hcand | hcand <;> simp [firstPart, hcand]

theorem ApiService.callGeminiVisionTry_noCandidates (attempt : Nat) (r : Response) (result : Body)
    (u : ℚ) (h : r.hasNoCandidates result) :
    iteration ApiService.callGeminiVisionTry attempt (.response r) u
      = .thrown (mkError "Error: An unknown issue occurred with the Vision API response.") := by
  have hfp := firstPart_noCandidates r result h
  obtain ⟨hok, hjson, _⟩ := h
  have hc : catchBlock attempt
      (mkError "Error: An unknown issue occurred with the Vision API response.") u
      = (.thrown (mkError "Error: An unknown issue occurred with the Vision API response.")
        : TryResult String) :=
    catchBlock_other _ _ _ (by decide)
  simp [iteration, ApiService.callGeminiVisionTry, hok, hjson, hfp, hc]

theorem ApiService.callGeminiTTSTry_noCandidates (atob : String → Except JsError String)
    (attempt : Nat) (r : Response) (result : Body) (u : ℚ) (h : r.hasNoCandidates result) :
    iteration (ApiService.callGeminiTTSTry atob) attempt (.response r) u
      = .thrown (mkError "Invalid audio data from TTS API.") := by
  have hfp := firstPart_noCandidates r result h
  obtain ⟨hok, hjson, _⟩ := h
  have hc : catchBlock attempt (mkError "Invalid audio data from TTS API.") u
      = (.thrown (mkError "Invalid audio data from TTS API.") : TryResult (List Nat)) :=
    catchBlock_other _ _ _ (by decide)
  simp [iteration, ApiService.callGeminiTTSTry, hok, hjson, hfp, hc]

/-! ## Terminal client errors -/

theorem ok_false_of_client_error (response : Response)
    (h : 400 ≤ response.status ∧ response.status ≤ 499 ∧ response.status ≠ 429) :
    response.ok = false ∧ ¬ (response.status = 429 ∨ response.status ≥ 500) := by
  refine ⟨?_, by omega⟩
  simp only [Response.ok, Bool.and_eq_false_iff, decide_eq_false_iff_not]
  omega

theorem ApiService.callGeminiTry_terminal (attempt : Nat) (r : Response) (errorBody : ErrorBody)
    (u : ℚ) (hok : r.ok = false) (hst : ¬ (r.status = 429 ∨ r.status ≥ 500))
    (hb : readErrorBody r = .ok errorBody)
    (hn : isNetworkError (mkError (orElse errorBody.message
      ("API request failed with status " ++ toString r.status))) = false) :
    iteration ApiService.callGeminiTry attempt (.response r) u
      = .thrown (mkError (orElse errorBody.message
          ("API request failed with status " ++ toString r.status))) := by
  simp only [iteration, ApiService.callGeminiTry, hok, hb, if_neg hst, if_true]
  exact catchBlock_other _ _ _ hn

theorem ApiService.callImagenTry_terminal (attempt : Nat) (r : Response) (errorBody : ErrorBody)
    (u : ℚ) (hok : r.ok = false) (hst : ¬ (r.status = 429 ∨ r.status ≥ 500))
    (hb : readErrorBody r = .ok errorBody)
    (hn : isNetworkError (mkError (orElse errorBody.message
      ("Image Generation API call failed with status " ++ toString r.status))) = false) :
    iteration ApiService.callImagenTry attempt (.response r) u
      = .thrown (mkError (orElse errorBody.message
          ("Image Generation API call failed with status " ++ toString r.status))) := by
  simp only [iteration, ApiService.callImagenTry, hok, hb, if_neg hst, if_true]
  exact catchBlock_other _ _ _ hn

theorem ApiService.callGeminiVisionTry_terminal (attempt : Nat) (r : Response)
    (errorBody : ErrorBody) (u : ℚ) (hok : r.ok = false)
    (hst : ¬ (r.status = 429 ∨ r.status ≥ 500)) (hb : readErrorBody r = .ok errorBody)
    (hn : isNetworkError (mkError (orElse errorBody.message
      ("Vision API request failed with status " ++ toString r.status))) = false) :
    iteration ApiService.callGeminiVisionTry attempt (.response r) u
      = .thrown (mkError (orElse errorBody.message
          ("Vision API request failed with status " ++ toString r.status))) := by
  simp only [iteration, ApiService.callGeminiVisionTry, hok, hb, if_neg hst, if_true]
  exact catchBlock_other _ _ _ hn

theorem ApiService.callGeminiTTSTry_terminal (atob : String → Except JsError String)
    (attempt : Nat) (r : Response) (u : ℚ) (hok : r.ok = false)
    (hst : ¬ (r.status = 429 ∨ r.status ≥ 500)) :
    iteration (ApiService.callGeminiTTSTry atob) attempt (.response r) u
      = .thrown (mkError ("TTS API failed with status: " ++ toString r.status)) := by
  simp only [iteration, ApiService.callGeminiTTSTry, hok, if_neg hst, if_true]
  exact catchBlock_other _ _ _ (not_network_status_message _ _ (by decide) (by decide))

theorem orElse_some (m fallback : String) (h : m ≠ "") : orElse (some m) fallback = m := by
  simp [orElse, h]

theorem orElse_absent (value : Option String) (fallback : String)
    (h : value = none ∨ value = some "") : orElse value fallback = fallback := by
  rcases h with h | h <;> simp [orElse, h]

theorem retryableByStatus_of_retryable (o : Outcome) (h : o.retryable = true) :
    o.retryableByStatus = true := by
  cases o with
  | fetchRejects e => simpa [Outcome.retryable, Outcome.retryableByStatus] using h
  | response r =>
    simp only [Outcome.retryable, Bool.and_eq_true] at h
    simpa [Outcome.retryableByStatus] using h.1

theorem retryLoop_terminates {α : Type} (url : String) (payload : Payload)
    (tryBlock : Nat → Outcome → ℚ → TryResult α) (exhausted : String) (env : Nat → Outcome)
    (random : Nat → ℚ) :
    ∀ (fuel attempt : Nat), maxRetries - attempt < fuel →
      ∃ run, retryLoop (.request url payload) tryBlock exhausted env random fuel attempt
          = some run ∧
        requestCount run.events ≤ maxRetries - attempt ∧
        (sleeps run.events).length ≤ maxRetries - attempt := by
  intro fuel
  induction fuel with
  | zero => intro attempt h; omega
  | succ fuel ih =>
    intro attempt h
    by_cases hlt : attempt < maxRetries
    · rw [retryLoop, if_pos hlt]
      cases hit : iteration tryBlock attempt (env attempt) (random attempt) with
      | returned value => exact ⟨_, rfl, by simp [requestCount]; omega, by simp [sleeps]⟩
      | thrown error => exact ⟨_, rfl, by simp [requestCount]; omega, by simp [sleeps]⟩
      | backoff delay =>
        obtain ⟨run, hrun, hcount, hsleep⟩ := ih (attempt + 1) (by omega)
        refine ⟨_, by simp only [hrun, Option.map_some']; rfl, ?_, ?_⟩
        · simp only [requestCount]; omega
        · simp only [sleeps, List.length_cons]; omega
    · rw [retryLoop, if_neg hlt]
      exact ⟨_, rfl, by simp [requestCount], by simp [sleeps]⟩

theorem retryLoop_backoffs_then_backoff {α : Type} (request : Event)
    (tryBlock : Nat → Outcome → ℚ → TryResult α) (exhausted : String) (env : Nat → Outcome)
    (random : Nat → ℚ) (delay : Nat → ℚ) (k : Nat) (hk : k < maxRetries)
    (hback : ∀ i, i < k → iteration tryBlock i (env i) (random i) = .backoff (delay i))
    (hlast : iteration tryBlock k (env k) (random k) = .backoff (delay k)) :
    retryLoop request tryBlock exhausted env random (maxRetries + 1) 0
      = (retryLoop request tryBlock exhausted env random (maxRetries - k) (k + 1)).map
          fun run => ⟨run.result, backoffEvents request delay 0 (k + 1) ++ run.events⟩ := by
  have hfuel : maxRetries + 1 = (maxRetries - k) + (k + 1) := by omega
  rw [hfuel, retryLoop_backoffs request tryBlock exhausted env random delay _ (k + 1) 0
    (by omega) (fun i _ h2 => ?_)]
  · simp
  · by_cases hi : i < k
    · exact hback i hi
    · have : i = k := by omega
      rw [this]; exact hlast

theorem iteration_thrown_other {α : Type} (tryBlock : Nat → Outcome → ℚ → TryResult α)
    (attempt : Nat) (outcome : Outcome) (random : ℚ) (error : JsError)
    (h : tryBlock attempt outcome random = .thrown error)
    (hn : isNetworkError error = false) :
    iteration tryBlock attempt outcome random = .thrown error := by
  simp only [iteration, h]
  exact catchBlock_other _ _ _ hn

/-! ## Error bodies that cannot be read -/

/-- When neither `response.json()` nor `response.text()` yields the body of a failed response
(the second rejects with `error`, whose message is not taken for a network failure), the
status is never inspected: `ApiService.callGemini` rethrows `error` at that attempt. -/
theorem ApiService.callGemini_unreadable_error_body (prompt : String)
    (responseSchema : Option Schema) (env : Nat → Outcome) (random : Nat → ℚ) (k : Nat)
    (response : Response) (error : JsError)
    (hk : k ≤ 4) (hfail : ∀ i, i < k → (env i).retryable = true)
    (hresp : env k = .response response) (hok : response.ok = false)
    (hread : readErrorBody response = .error error) (hn : isNetworkError error = false) :
    ApiService.callGemini prompt responseSchema env random
      = some (runEndingAt String (.request geminiUrl (geminiPayload prompt responseSchema))
          random k (.error error)) := by
  have hlt : k < maxRetries := by simp only [maxRetries]; omega
  refine retryLoop_backoffs_then_thrown _ _ _ env random _ k _ hlt
    (fun i hi => ApiService.callGeminiTry_retryable i (env i) (random i)
      (by omega) (hfail i hi))
    (iteration_thrown_other _ _ _ _ _ ?_ hn)
  rw [hresp]
  simp [ApiService.callGeminiTry, hok, hread]

/-! ## The WAV encoder writes the canonical header and the samples -/

theorem set_after (bytes : List Nat) (k v : Nat) :
    (bytes ++ List.replicate (k + 1) 0).set bytes.length v
      = (bytes ++ [v]) ++ List.replicate k 0 := by
  rw [List.set_append_right _ _ (le_refl _)]
  simp [List.replicate_succ]

theorem setUint8_after (bytes : List Nat) (total v : Nat) (h : bytes.length + 1 ≤ total) :
    setUint8 (Writer.after bytes total).buffer (Writer.after bytes total).offset v
      = .ok (Writer.after (bytes ++ [v % 256]) total).buffer := by
  obtain ⟨k, rfl⟩ : ∃ k, total = bytes.length + 1 + k := ⟨total - (bytes.length + 1), by omega⟩
  have h1 : bytes.length + 1 + k - bytes.length = k + 1 := by omega
  have h2 : bytes.length + 1 + k - (bytes.length + 1) = k := by omega
  simp only [setUint8, Writer.after, List.length_append, List.length_replicate,
    List.length_singleton, h1, h2]
  rw [if_pos (by omega), set_after]

theorem setUint16_after (bytes : List Nat) (total v : Nat) (h : bytes.length + 2 ≤ total) :
    setUint16 (Writer.after bytes total).buffer (Writer.after bytes total).offset v
      = .ok (Writer.after (bytes ++ uint16le v) total).buffer := by
  obtain ⟨k, rfl⟩ : ∃ k, total = bytes.length + 2 + k := ⟨total - (bytes.length + 2), by omega⟩
  have h1 : bytes.length + 2 + k - bytes.length = (k + 1) + 1 := by omega
  have h2 : bytes.length + 2 + k - (bytes.length + 2) = k := by omega
  simp only [setUint16, Writer.after, uint16le, List.length_append, List.length_replicate,
    List.length_cons, List.length_nil, h1, h2]
  rw [if_pos (by omega), set_after]
  have := set_after (bytes ++ [v % 256]) k (v / 256 % 256)
  simp only [List.length_append, List.length_singleton] at this
  rw [this]
  simp

theorem setUint32_after (bytes : List Nat) (total v : Nat) (h : bytes.length + 4 ≤ total) :
    setUint32 (Writer.after bytes total).buffer (Writer.after bytes total).offset v
      = .ok (Writer.after (bytes ++ uint32le v) total).buffer := by
  obtain ⟨k, rfl⟩ : ∃ k, total = bytes.length + 4 + k := ⟨total - (bytes.length + 4), by omega⟩
  have h1 : bytes.length + 4 + k - bytes.length = (((k + 1) + 1) + 1) + 1 := by omega
  have h2 : bytes.length + 4 + k - (bytes.length + 4) = k := by omega
  simp only [setUint32, Writer.after, uint32le, List.length_append, List.length_replicate,
    List.length_cons, List.length_nil, h1, h2]
  rw [if_pos (by omega), set_after]
  have a1 := set_after (bytes ++ [v % 256]) (k + 2) (v / 256 % 256)
  have a2 := set_after (bytes ++ [v % 256] ++ [v / 256 % 256]) (k + 1) (v / 65536 % 256)
  have a3 := set_after (bytes ++ [v % 256] ++ [v / 256 % 256] ++ [v / 65536 % 256]) k
    (v / 16777216 % 256)
  simp only [List.length_append, List.length_singleton] at a1 a2 a3
  rw [a1, a2, a3]
  simp


theorem writeUint16_after (bytes : List Nat) (total v : Nat) (h : bytes.length + 2 ≤ total) :
    writeUint16 (Writer.after bytes total) v = .ok (Writer.after (bytes ++ uint16le v) total) := by
  rw [writeUint16, setUint16_after bytes total v h]
  simp [Except.map, Writer.after, uint16le]

theorem writeUint32_after (bytes : List Nat) (total v : Nat) (h : bytes.length + 4 ≤ total) :
    writeUint32 (Writer.after bytes total) v = .ok (Writer.after (bytes ++ uint32le v) total) := by
  rw [writeUint32, setUint32_after bytes total v h]
  simp [Except.map, Writer.after, uint32le]

theorem writeChars_after (total : Nat) :
    ∀ (cs : List Char) (bytes : List Nat), bytes.length + cs.length ≤ total →
      cs.foldlM (fun (w : Writer) c =>
          (setUint8 w.buffer w.offset c.toNat).map fun b => (⟨b, w.offset + 1⟩ : Writer))
          (Writer.after bytes total)
        = .ok (Writer.after (bytes ++ cs.map fun c => c.toNat % 256) total) := by
  intro cs
  induction cs with
  | nil => intro bytes _; simp [pure, Except.pure]
  | cons c cs ih =>
    intro bytes h
    simp only [List.length_cons] at h
    rw [List.foldlM_cons, setUint8_after bytes total c.toNat (by omega)]
    have hstep : (Except.map (fun b => (⟨b, (Writer.after bytes total).offset + 1⟩ : Writer))
        (Except.ok (Writer.after (bytes ++ [c.toNat % 256]) total).buffer)
          : Except JsError Writer)
        = .ok (Writer.after (bytes ++ [c.toNat % 256]) total) := by
      simp [Except.map, Writer.after]
    rw [hstep]
    have := ih (bytes ++ [c.toNat % 256]) (by simp; omega)
    simpa [bind, Except.bind] using this

theorem writeString_after (bytes : List Nat) (total : Nat) (str : String)
    (h : bytes.length + str.length ≤ total) :
    writeString (Writer.after bytes total) str
      = .ok (Writer.after (bytes ++ asciiBytes str) total) := by
  rw [writeString, asciiBytes]
  exact writeChars_after total str.toList bytes h

theorem int16le_length (sample : Int) : (int16le sample).length = 2 := rfl

theorem writeSamples_after (total : Nat) :
    ∀ (pcmData : List Int) (bytes : List Nat), bytes.length + pcmData.length * 2 ≤ total →
      pcmData.foldlM (fun (w : Writer) sample =>
          (setInt16 w.buffer w.offset sample).map fun b => (⟨b, w.offset + 2⟩ : Writer))
          (Writer.after bytes total)
        = .ok (Writer.after (bytes ++ pcmData.flatMap int16le) total) := by
  intro pcmData
  induction pcmData with
  | nil => intro bytes _; simp [pure, Except.pure]
  | cons x xs ih =>
    intro bytes h
    simp only [List.length_cons] at h
    rw [List.foldlM_cons, setInt16, setUint16_after bytes total _ (by omega)]
    have hstep : (Except.map (fun b => (⟨b, (Writer.after bytes total).offset + 2⟩ : Writer))
        (Except.ok (Writer.after (bytes ++ uint16le (x % 65536).toNat) total).buffer)
          : Except JsError Writer)
        = .ok (Writer.after (bytes ++ int16le x) total) := by
      have hx : int16le x = uint16le (x % 65536).toNat := rfl
      rw [hx]
      generalize (x % 65536).toNat = n
      simp [Except.map, Writer.after, uint16le]
    rw [hstep]
    have := ih (bytes ++ int16le x) (by rw [List.length_append, int16le_length]; omega)
    simpa [bind, Except.bind] using this

theorem pcmToWavWriter_eq (pcmData : List Int) (sampleRate : Nat) :
    pcmToWavWriter pcmData sampleRate
      = .ok (Writer.after (wavHeader pcmData.length sampleRate ++ pcmData.flatMap int16le)
          (44 + pcmData.length * 2)) := by
  have h0 : (⟨List.replicate (44 + pcmData.length * 2) 0, 0⟩ : Writer)
      = Writer.after [] (44 + pcmData.length * 2) := by simp [Writer.after]
  simp only [pcmToWavWriter, h0]
  rw [writeString_after _ _ _ (by simp [String.length]; omega)]
  simp only [bind, Except.bind]
  rw [writeUint32_after _ _ _ (by simp [asciiBytes, uint32le]; omega)]
  simp only []
  rw [writeString_after _ _ _ (by simp [asciiBytes, uint32le, String.length]; omega)]
  simp only []
  rw [writeString_after _ _ _ (by simp [asciiBytes, uint32le, String.length]; omega)]
  simp only []
  rw [writeUint32_after _ _ _ (by simp [asciiBytes, uint32le]; omega)]
  simp only []
  rw [writeUint16_after _ _ _ (by simp [asciiBytes, uint32le, uint16le]; omega)]
  simp only []
  rw [writeUint16_after _ _ _ (by simp [asciiBytes, uint32le, uint16le]; omega)]
  simp only []
  rw [writeUint32_after _ _ _ (by simp [asciiBytes, uint32le, uint16le]; omega)]
  simp only []
  rw [writeUint32_after _ _ _ (by simp [asciiBytes, uint32le, uint16le]; omega)]
  simp only []
  rw [writeUint16_after _ _ _ (by simp [asciiBytes, uint32le, uint16le]; omega)]
  simp only []
  rw [writeUint16_after _ _ _ (by simp [asciiBytes, uint32le, uint16le]; omega)]
  simp only []
  rw [writeString_after _ _ _ (by simp [asciiBytes, uint32le, uint16le, String.length]; omega)]
  simp only []
  rw [writeUint32_after _ _ _ (by simp [asciiBytes, uint32le, uint16le])]
  simp only []
  rw [writeSamples_after _ _ _ (by simp [asciiBytes, uint32le, uint16le])]
  simp [wavHeader]


theorem wavHeader_length (sampleCount sampleRate : Nat) :
    (wavHeader sampleCount sampleRate).length = 44 := rfl

theorem sampleBytes_length (pcmData : List Int) :
    (pcmData.flatMap int16le).length = pcmData.length * 2 := by
  induction pcmData with
  | nil => rfl
  | cons x xs ih => simp [List.flatMap_cons, int16le_length, ih]; omega

theorem pcmToWav_eq (pcmData : List Int) (sampleRate : Nat) :
    pcmToWav pcmData sampleRate
      = .ok (wavHeader pcmData.length sampleRate ++ pcmData.flatMap int16le) := by
  have hlen : (wavHeader pcmData.length sampleRate ++ pcmData.flatMap int16le).length
      = 44 + pcmData.length * 2 := by
    rw [List.length_append, wavHeader_length, sampleBytes_length]
  rw [pcmToWav, pcmToWavWriter_eq]
  simp only [Except.map, Writer.after, hlen, Nat.sub_self, List.replicate_zero,
    List.append_nil]

theorem getUint16_append_left (pre l : List Nat) (j : Nat) :
    getUint16 (pre ++ l) (pre.length + j) = getUint16 l j := by
  simp only [getUint16]
  rw [List.getD_append_right _ _ _ _ (by omega),
    List.getD_append_right _ _ _ _ (by omega)]
  have h1 : pre.length + j - pre.length = j := by omega
  have h2 : pre.length + j + 1 - pre.length = j + 1 := by omega
  rw [h1, h2]

theorem getUint16_uint16le (n : Nat) (rest : List Nat) (hn : n < 65536) :
    getUint16 (uint16le n ++ rest) 0 = n := by
  simp only [getUint16, uint16le, List.cons_append, List.getD_cons_zero, List.getD_cons_succ,
    Nat.zero_add]
  omega

theorem getUint16_sampleBytes :
    ∀ (pcmData : List Int) (i : Nat) (h : i < pcmData.length),
      getUint16 (pcmData.flatMap int16le) (2 * i) = (pcmData[i] % 65536).toNat := by
  intro pcmData
  induction pcmData with
  | nil => intro i h; simp at h
  | cons x xs ih =>
    intro i h
    cases i with
    | zero =>
      have hx : int16le x = uint16le (x % 65536).toNat := rfl
      simp only [List.flatMap_cons, hx, Nat.mul_zero, List.getElem_cons_zero]
      exact getUint16_uint16le _ _ (by omega)
    | succ i =>
      have h2 : i < xs.length := by simpa using h
      simp only [List.flatMap_cons, List.getElem_cons_succ]
      have hidx : 2 * (i + 1) = (int16le x).length + 2 * i := by
        rw [int16le_length]; omega
      rw [hidx, getUint16_append_left]
      exact ih i h2

theorem getInt16_wav (pcmData : List Int) (sampleRate : Nat) (i : Nat)
    (h : i < pcmData.length) (hs : -32768 ≤ pcmData[i] ∧ pcmData[i] < 32768) :
    getInt16 (wavHeader pcmData.length sampleRate ++ pcmData.flatMap int16le) (44 + 2 * i)
      = pcmData[i] := by
  have hu : getUint16 (wavHeader pcmData.length sampleRate ++ pcmData.flatMap int16le)
      (44 + 2 * i) = (pcmData[i] % 65536).toNat := by
    have := getUint16_append_left (wavHeader pcmData.length sampleRate)
      (pcmData.flatMap int16le) (2 * i)
    rw [wavHeader_length] at this
    rw [this, getUint16_sampleBytes pcmData i h]
  simp only [getInt16, hu]
  generalize pcmData[i] = s at hs
  split <;> omega

theorem setters_in_bounds (buffer : List Nat) (byteOffset value : Nat) (b : List Nat) :
    (setUint8 buffer byteOffset value = .ok b →
      byteOffset + 1 ≤ buffer.length ∧ b.length = buffer.length)
    ∧ (setUint16 buffer byteOffset value = .ok b →
      byteOffset + 2 ≤ buffer.length ∧ b.length = buffer.length)
    ∧ (setUint32 buffer byteOffset value = .ok b →
      byteOffset + 4 ≤ buffer.length ∧ b.length = buffer.length) := by
  refine ⟨?_, ?_, ?_⟩
  · intro h
    simp only [setUint8] at h
    split at h
    · injection h with h; subst h; simp_all
    · simp at h
  · intro h
    simp only [setUint16] at h
    split at h
    · injection h with h; subst h; simp_all
    · simp at h
  · intro h
    simp only [setUint32] at h
    split at h
    · injection h with h; subst h; simp_all
    · simp at h

theorem int16le_int16Sample (lo hi : Nat) (hlo : lo < 256) (hhi : hi < 256) :
    int16le (if lo + 256 * hi < 32768 then (lo + 256 * hi : Int)
      else (lo + 256 * hi : Int) - 65536) = [lo, hi] := by
  have key : ∀ v : Int, (v % 65536).toNat = lo + 256 * hi →
      uint16le (v % 65536).toNat = [lo, hi] := by
    intro v hv
    rw [hv, uint16le]
    have h1 : (lo + 256 * hi) % 256 = lo := by omega
    have h2 : (lo + 256 * hi) / 256 % 256 = hi := by omega
    rw [h1, h2]
  simp only [int16le]
  split
  · exact key _ (by omega)
  · exact key _ (by omega)

theorem sampleBytes_int16Samples :
    ∀ (n : Nat) (bytes : List Nat), bytes.length = 2 * n → (∀ x ∈ bytes, x < 256) →
      (int16Samples bytes).flatMap int16le = bytes := by
  intro n
  induction n with
  | zero =>
    intro bytes h _
    have : bytes = [] := List.length_eq_zero.mp (by omega)
    subst this; rfl
  | succ n ih =>
    intro bytes h hb
    match bytes, h, hb with
    | lo :: hi :: rest, h, hb =>
      have hrest : rest.length = 2 * n := by simp at h; omega
      simp only [int16Samples, List.flatMap_cons]
      rw [int16le_int16Sample lo hi (hb lo (by simp)) (hb hi (by simp)),
        ih rest hrest (fun x hx => hb x (by simp [hx]))]
      rfl
    | [_], h, _ => simp at h; omega
    | [], h, _ => simp at h

theorem base64ToArrayBuffer_bytes (atob : String → Except JsError String) (base64 : String)
    (bytes : List Nat) (h : base64ToArrayBuffer atob base64 = .ok bytes) :
    ∀ x ∈ bytes, x < 256 := by
  simp only [base64ToArrayBuffer] at h
  cases ha : atob base64 with
  | error e => simp [ha, Except.map] at h
  | ok binaryString =>
    simp only [ha, Except.map, Except.ok.injEq] at h
    subst h
    intro x hx
    obtain ⟨c, _, rfl⟩ := List.mem_map.mp hx
    exact Nat.mod_lt _ (by decide)

/-! ## The sample rate read from the MIME type -/

theorem rateAt_cons_succ (c : Char) (cs : List Char) (j : Nat) :
    rateAt (c :: cs) (j + 1) = rateAt cs j := by
  simp [rateAt, Nat.add_right_comm]

theorem rateDigits_cons_succ (c : Char) (cs : List Char) (j : Nat) :
    rateDigits (c :: cs) (j + 1) = rateDigits cs j := by
  simp [rateDigits, Nat.add_right_comm]

theorem matchRate_cons (c : Char) (cs : List Char) :
    matchRate (c :: cs)
      = if rateAt (c :: cs) 0 = true then some (rateDigits (c :: cs) 0) else matchRate cs := by
  rw [matchRate]
  by_cases h : rateAt (c :: cs) 0 = true
  · rw [if_pos h, if_pos]
    · rfl
    · simpa [rateAt, List.isEmpty_iff] using h
  · rw [if_neg h, if_neg]
    simpa [rateAt, List.isEmpty_iff] using h

theorem matchRate_first :
    ∀ (i : Nat) (mimeType : List Char), (∀ j, j < i → rateAt mimeType j = false) →
      rateAt mimeType i = true → matchRate mimeType = some (rateDigits mimeType i) := by
  intro i
  induction i with
  | zero =>
    intro mimeType _ h
    cases mimeType with
    | nil => simp [rateAt, List.isPrefixOf] at h
    | cons c cs => rw [matchRate_cons, if_pos h]
  | succ i ih =>
    intro mimeType hbefore h
    cases mimeType with
    | nil => simp [rateAt, List.isPrefixOf] at h
    | cons c cs =>
      have h0 : ¬ rateAt (c :: cs) 0 = true := by simp [hbefore 0 (by omega)]
      rw [matchRate_cons, if_neg h0, rateDigits_cons_succ]
      exact ih cs (fun j hj => by rw [← rateAt_cons_succ c]; exact hbefore (j + 1) (by omega))
        (by rw [← rateAt_cons_succ c]; exact h)

theorem matchRate_none :
    ∀ (mimeType : List Char), (∀ j, rateAt mimeType j = false) → matchRate mimeType = none := by
  intro mimeType
  induction mimeType with
  | nil => intro _; rfl
  | cons c cs ih =>
    intro h
    have h0 : ¬ rateAt (c :: cs) 0 = true := by simp [h 0]
    rw [matchRate_cons, if_neg h0]
    exact ih (fun j => by rw [← rateAt_cons_succ c]; exact h (j + 1))

theorem matchRate_some_rateAt :
    ∀ (mimeType digits : List Char), matchRate mimeType = some digits →
      ∃ i, rateAt mimeType i = true := by
  intro mimeType
  induction mimeType with
  | nil => intro digits h; simp [matchRate] at h
  | cons c cs ih =>
    intro digits h
    rw [matchRate_cons] at h
    by_cases h0 : rateAt (c :: cs) 0 = true
    · exact ⟨0, h0⟩
    · rw [if_neg h0] at h
      obtain ⟨i, hi⟩ := ih digits h
      exact ⟨i + 1, by rw [rateAt_cons_succ]; exact hi⟩

theorem foldl_decimal (digits : List Char) :
    ∀ acc : Nat, digits.foldl (fun n c => n * 10 + (c.toNat - 48)) acc
      = acc * 10 ^ digits.length + decimalValue digits := by
  induction digits with
  | nil => intro acc; simp [decimalValue]
  | cons c cs ih =>
    intro acc
    simp only [List.foldl_cons, ih, decimalValue, List.length_cons, pow_succ]
    ring

theorem parseInt_eq_decimalValue (digits : List Char) (h : decimalValue digits < 2 ^ 53) :
    parseInt digits = decimalValue digits := by
  rw [parseInt, foldl_decimal, Nat.zero_mul, Nat.zero_add, roundDouble_natCast _ h]
  exact Nat.floor_natCast _

theorem parseInt_default : parseInt "24000".toList = 24000 :=
  parseInt_eq_decimalValue _ (by decide)

theorem parseInt_twenty_nines :
    parseInt "99999999999999999999".toList = 100000000000000000000 := by
  have hd : decimalValue "99999999999999999999".toList = 99999999999999999999 := by decide
  rw [parseInt, foldl_decimal, Nat.zero_mul, Nat.zero_add, hd,
    roundDouble_eq _ 66 6103515625000000 (by norm_num) (by norm_num) (by norm_num)
      (Or.inl (by norm_num [abs_lt]))]
  norm_num

/-! ## The two copies of the speech wrapper -/

theorem ApiService.ttsWav_eq (atob : String → Except JsError String)
    (audioData mimeType : String) :
    ApiService.ttsWav atob audioData mimeType
      = decodeSamples atob audioData >>= fun pcm16 =>
          pcmToWav pcm16 (parseInt ((matchRate mimeType.toList).getD "24000".toList)) := by
  simp only [ApiService.ttsWav, decodeSamples]
  cases base64ToArrayBuffer atob audioData with
  | error e => rfl
  | ok pcmData => cases int16Array pcmData <;> rfl

theorem mainJs_ttsWav_eq (atob : String → Except JsError String)
    (audioData mimeType : String) (digits : List Char)
    (h : matchRate mimeType.toList = some digits) :
    ttsWav atob audioData mimeType
      = decodeSamples atob audioData >>= fun pcm16 => pcmToWav pcm16 (parseInt digits) := by
  simp only [ttsWav, h, decodeSamples]
  cases base64ToArrayBuffer atob audioData with
  | error e => rfl
  | ok pcmData => cases int16Array pcmData <;> rfl

theorem matchRate_of_rateAt :
    ∀ (i : Nat) (mimeType : List Char), rateAt mimeType i = true →
      ∃ digits, matchRate mimeType = some digits := by
  intro i
  induction i with
  | zero =>
    intro mimeType h
    cases mimeType with
    | nil => simp [rateAt, List.isPrefixOf] at h
    | cons c cs => exact ⟨_, by rw [matchRate_cons, if_pos h]⟩
  | succ i ih =>
    intro mimeType h
    cases mimeType with
    | nil => simp [rateAt, List.isPrefixOf] at h
    | cons c cs =>
      by_cases h0 : rateAt (c :: cs) 0 = true
      · exact ⟨_, by rw [matchRate_cons, if_pos h0]⟩
      · obtain ⟨digits, hd⟩ := ih cs (by rw [← rateAt_cons_succ c]; exact h)
        exact ⟨digits, by rw [matchRate_cons, if_neg h0, hd]⟩

theorem ttsWav_agree (atob : String → Except JsError String)
    (audioData mimeType : String) (i : Nat) (h : rateAt mimeType.toList i = true) :
    ttsWav atob audioData mimeType = ApiService.ttsWav atob audioData mimeType := by
  obtain ⟨digits, hm⟩ := matchRate_of_rateAt i mimeType.toList h
  rw [mainJs_ttsWav_eq _ _ _ _ hm, ApiService.ttsWav_eq, hm]; rfl

theorem ApiService.callGeminiTTSTry_audio (atob : String → Except JsError String)
    (attempt : Nat) (outcome : Outcome) (random : ℚ) (audioData mimeType : String)
    (h : outcome.audio = some (audioData, mimeType)) :
    ApiService.callGeminiTTSTry atob attempt outcome random
      = TryResult.ofExcept (ApiService.ttsWav atob audioData mimeType) := by
  cases outcome with
  | fetchRejects e => simp [Outcome.audio] at h
  | response r =>
    simp only [Outcome.audio] at h
    split at h
    · rename_i hok
      split at h
      · simp at h
      · rename_i result hjson
        split at h
        · rename_i a m ha hm
          split at h
          · rename_i hcond
            simp only [Option.some.injEq, Prod.mk.injEq] at h
            obtain ⟨rfl, rfl⟩ := h
            simp only [ApiService.callGeminiTTSTry, hok, hjson, ha, hm, if_pos hcond,
              Bool.true_eq_false, if_false]
            cases ApiService.ttsWav atob a m <;> rfl
          · simp at h
        · simp at h
    · simp at h

theorem mainJs_callGeminiTTSTry_audio (atob : String → Except JsError String)
    (attempt : Nat) (outcome : Outcome) (random : ℚ) (audioData mimeType : String)
    (h : outcome.audio = some (audioData, mimeType)) :
    callGeminiTTSTry atob attempt outcome random
      = TryResult.ofExcept (ttsWav atob audioData mimeType) := by
  cases outcome with
  | fetchRejects e => simp [Outcome.audio] at h
  | response r =>
    simp only [Outcome.audio] at h
    split at h
    · rename_i hok
      split at h
      · simp at h
      · rename_i result hjson
        split at h
        · rename_i a m ha hm
          split at h
          · rename_i hcond
            simp only [Option.some.injEq, Prod.mk.injEq] at h
            obtain ⟨rfl, rfl⟩ := h
            simp only [callGeminiTTSTry, hok, hjson, ha, hm, if_pos hcond,
              Bool.true_eq_false, if_false]
            cases Atmt.ttsWav atob a m <;> rfl
          · simp at h
        · simp at h
    · simp at h

theorem callGeminiTTSTry_no_audio (atob : String → Except JsError String)
    (attempt : Nat) (outcome : Outcome) (random : ℚ) (h : outcome.audio = none) :
    callGeminiTTSTry atob attempt outcome random
      = ApiService.callGeminiTTSTry atob attempt outcome random := by
  cases outcome with
  | fetchRejects e => rfl
  | response r =>
    simp only [Outcome.audio] at h
    simp only [callGeminiTTSTry, ApiService.callGeminiTTSTry]
    split
    · rfl
    · rename_i hok
      have hok' : r.ok = true := by simpa using hok
      simp only [hok', if_true] at h
      split
      · rfl
      · rename_i result hjson
        simp only [hjson] at h
        split
        · rename_i a m ha hm
          simp only [ha, hm] at h
          split
          · rename_i hcond
            rw [if_pos hcond] at h
            simp at h
          · rfl
        · rfl

theorem retryLoop_congr {α : Type} (request : Event)
    (tryBlock₁ tryBlock₂ : Nat → Outcome → ℚ → TryResult α) (exhausted : String)
    (env : Nat → Outcome) (random : Nat → ℚ)
    (h : ∀ i, i < maxRetries → tryBlock₁ i (env i) (random i) = tryBlock₂ i (env i) (random i)) :
    ∀ (fuel attempt : Nat),
      retryLoop request tryBlock₁ exhausted env random fuel attempt
        = retryLoop request tryBlock₂ exhausted env random fuel attempt := by
  intro fuel
  induction fuel with
  | zero => intro attempt; rfl
  | succ fuel ih =>
    intro attempt
    rw [retryLoop, retryLoop]
    by_cases hlt : attempt < maxRetries
    · simp only [if_pos hlt, iteration, h attempt hlt, ih (attempt + 1)]
    · simp only [if_neg hlt]


theorem mainJs_callGeminiTTSTry_retryable (atob : String → Except JsError String)
    (attempt : Nat) (o : Outcome) (u : ℚ)
    (ha : attempt < maxRetries) (h : o.retryableByStatus = true) :
    iteration (callGeminiTTSTry atob) attempt o u = .backoff (backoffDelay attempt u) := by
  cases o with
  | fetchRejects e =>
    simp only [Outcome.retryableByStatus] at h
    simp [iteration, callGeminiTTSTry, catchBlock_network attempt e u ha h]
  | response r =>
    simp only [Outcome.retryableByStatus] at h
    have hok := ok_false_of_retryableStatus r h
    have hst : r.status = 429 ∨ r.status ≥ 500 := by
      simpa [retryableStatus] using h
    simp [iteration, callGeminiTTSTry, hok, hst]

theorem rateAt_of_length_le (mimeType : List Char) (j : Nat) (h : mimeType.length ≤ j) :
    rateAt mimeType j = false := by
  simp [rateAt, List.drop_eq_nil_of_le h, List.isPrefixOf]

theorem retryLoop_events {α : Type} (request : Event)
    (tryBlock : Nat → Outcome → ℚ → TryResult α) (exhausted : String) (env : Nat → Outcome)
    (random : Nat → ℚ) :
    ∀ (fuel attempt : Nat) (run : Run α),
      retryLoop request tryBlock exhausted env random fuel attempt = some run →
      ∀ e ∈ run.events, e = request ∨ ∃ delay, e = Event.sleep delay := by
  intro fuel
  induction fuel with
  | zero => intro attempt run h; simp [retryLoop] at h
  | succ fuel ih =>
    intro attempt run h
    rw [retryLoop] at h
    split at h
    · split at h
      · injection h with h; subst h; simp
      · injection h with h; subst h; simp
      · rename_i delay _
        cases hrec : retryLoop request tryBlock exhausted env random fuel (attempt + 1) with
        | none => simp [hrec] at h
        | some run' =>
          simp only [hrec, Option.map_some', Option.some.injEq] at h
          subst h
          intro e he
          simp only [List.mem_cons] at he
          rcases he with rfl | rfl | he
          · exact Or.inl rfl
          · exact Or.inr ⟨_, rfl⟩
          · exact ih (attempt + 1) run' hrec e he
    · injection h with h; subst h; simp

theorem sleeps_exhaustedRun (α : Type) (url : String) (payload : Payload) (random : Nat → ℚ)
    (message : String) :
    sleeps (exhaustedRun α (.request url payload) random message).events
      = [backoffDelay 0 (random 0), backoffDelay 1 (random 1), backoffDelay 2 (random 2),
          backoffDelay 3 (random 3), backoffDelay 4 (random 4)] := by
  simp [exhaustedRun, backoffEvents, sleeps, maxRetries]

/-! ## Where an error equal to the exhaustion error can come from -/

theorem mkError_append_ne (pre rest other : String) (c : Char) (cs : List Char)
    (hpre : pre.toList = c :: cs) (hother : other.toList.head? ≠ some c) :
    mkError (pre ++ rest) ≠ mkError other := by
  intro heq
  have hm : pre ++ rest = other := by simpa [mkError] using heq
  apply hother
  rw [← hm]
  simp only [String.toList] at hpre
  simp [String.toList, String.data_append, hpre]

theorem retryLoop_error_cases {α : Type} (url : String) (payload : Payload)
    (tryBlock : Nat → Outcome → ℚ → TryResult α) (exhausted : String) (env : Nat → Outcome)
    (random : Nat → ℚ) :
    ∀ (fuel attempt : Nat) (run : Run α) (error : JsError),
      maxRetries - attempt < fuel →
      retryLoop (.request url payload) tryBlock exhausted env random fuel attempt = some run →
      run.result = .error error →
      (error = mkError exhausted ∧ (sleeps run.events).length = maxRetries - attempt)
      ∨ ∃ k, attempt ≤ k ∧ k < maxRetries
          ∧ (sleeps run.events).length = k - attempt
          ∧ tryBlock k (env k) (random k) = .thrown error := by
  intro fuel
  induction fuel with
  | zero => intro attempt run error h; omega
  | succ fuel ih =>
    intro attempt run error hfuel h herr
    rw [retryLoop] at h
    by_cases hlt : attempt < maxRetries
    · rw [if_pos hlt] at h
      cases hit : iteration tryBlock attempt (env attempt) (random attempt) with
      | returned value =>
        simp only [hit, Option.some.injEq] at h
        subst h
        simp at herr
      | thrown e =>
        simp only [hit, Option.some.injEq] at h
        subst h
        simp only [Except.error.injEq] at herr
        subst herr
        right
        refine ⟨attempt, le_refl _, hlt, by simp [sleeps], ?_⟩
        simp only [iteration] at hit
        cases htry : tryBlock attempt (env attempt) (random attempt) with
        | returned v => simp [htry] at hit
        | backoff d => simp [htry] at hit
        | thrown e' =>
          simp only [htry, catchBlock] at hit
          split at hit
          · injection hit with hit; rw [hit]
          · simp at hit
      | backoff delay =>
        simp only [hit] at h
        cases hrec : retryLoop (.request url payload) tryBlock exhausted env random fuel
            (attempt + 1) with
        | none => simp [hrec] at h
        | some run' =>
          simp only [hrec, Option.map_some', Option.some.injEq] at h
          subst h
          rcases ih (attempt + 1) run' error (by omega) hrec herr with
            ⟨he, hs⟩ | ⟨k, hk1, hk2, hs, ht⟩
          · left
            refine ⟨he, ?_⟩
            simp only [sleeps, List.length_cons, hs]
            simp only [maxRetries] at hlt ⊢
            omega
          · right
            refine ⟨k, by omega, hk2, ?_, ht⟩
            simp only [sleeps, List.length_cons, hs]; omega
    · rw [if_neg hlt] at h
      injection h with h
      subst h
      simp only [Except.error.injEq] at herr
      left
      exact ⟨herr.symm, by simp [sleeps]; omega⟩


theorem orElse_eq_cases (value : Option String) (fallback result : String)
    (h : orElse value fallback = result) : value = some result ∨ fallback = result := by
  cases value with
  | none => right; simpa [orElse] using h
  | some s =>
    simp only [orElse] at h
    split at h
    · right; exact h
    · left; rw [h]

theorem ApiService.callGeminiTry_throws_exhausted (attempt : Nat) (outcome : Outcome)
    (random : ℚ)
    (h : ApiService.callGeminiTry attempt outcome random
      = .thrown (mkError "Max retries reached for Gemini API call.")) :
    outcome = .fetchRejects (mkError "Max retries reached for Gemini API call.")
    ∨ ∃ r, outcome = .response r ∧
        (readErrorBody r = .error (mkError "Max retries reached for Gemini API call.")
        ∨ r.json = .error (mkError "Max retries reached for Gemini API call.")
        ∨ (r.ok = false ∧ ¬ (r.status = 429 ∨ r.status ≥ 500) ∧
            ∃ errorBody, readErrorBody r = .ok errorBody ∧
              errorBody.message = some "Max retries reached for Gemini API call.")) := by
  have hstopped : ∀ s : String,
      mkError ("Content generation stopped unexpectedly. Reason: " ++ s ++ ".")
        ≠ mkError "Max retries reached for Gemini API call." := fun s => by
    rw [String.append_assoc]
    exact mkError_append_ne _ _ _ 'C' _ rfl (by decide)
  have hblocked : ∀ s : String,
      mkError ("Content generation blocked. Reason: " ++ s ++ ".")
        ≠ mkError "Max retries reached for Gemini API call." := fun s => by
    rw [String.append_assoc]
    exact mkError_append_ne _ _ _ 'C' _ rfl (by decide)
  cases outcome with
  | fetchRejects e =>
    left
    simp only [ApiService.callGeminiTry, TryResult.thrown.injEq] at h
    rw [h]
  | response r =>
    right
    refine ⟨r, rfl, ?_⟩
    simp only [ApiService.callGeminiTry] at h
    split at h
    · rename_i hok
      split at h
      · rename_i e hread
        simp only [TryResult.thrown.injEq] at h
        left; rw [hread, h]
      · rename_i errorBody hread
        split at h
        · simp at h
        · rename_i hst
          simp only [TryResult.thrown.injEq, mkError, JsError.mk.injEq, true_and] at h
          rcases orElse_eq_cases _ _ _ h with hm | hd
          · right; right
            exact ⟨hok, hst, errorBody, hread, hm⟩
          · exfalso
            exact mkError_append_ne "API request failed with status " (toString r.status)
              "Max retries reached for Gemini API call." 'A' _ rfl (by decide)
              (by rw [hd])
    · split at h
      · rename_i e hjson
        simp only [TryResult.thrown.injEq] at h
        right; left; rw [hjson, h]
      · rename_i result hjson
        split at h
        · simp only [TryResult.thrown.injEq] at h
          exact absurd h (by decide)
        · split at h
          · split at h
            · split at h <;> simp at h
            · split at h
              · simp only [TryResult.thrown.injEq] at h
                exact absurd h (hstopped _)
              · simp only [TryResult.thrown.injEq] at h
                exact absurd h (by decide)
          · split at h
            · simp only [TryResult.thrown.injEq] at h
              exact absurd h (hstopped _)
            · simp only [TryResult.thrown.injEq] at h
              exact absurd h (by decide)
        · split at h
          · simp only [TryResult.thrown.injEq] at h
            exact absurd h (hblocked _)
          · simp only [TryResult.thrown.injEq] at h
            exact absurd h (by decide)

/-! ## The copies of the text and image wrappers agree -/

theorem callGeminiTry_agree (attempt : Nat) (outcome : Outcome) (random : ℚ)
    (h : outcome.firstEntriesNotNull = true) :
    callGeminiTry attempt outcome random = ApiService.callGeminiTry attempt outcome random := by
  cases outcome with
  | fetchRejects e => rfl
  | response r =>
    simp only [callGeminiTry, ApiService.callGeminiTry]
    split
    · rfl
    · rename_i hok
      have hok' : r.ok = true := by simpa using hok
      simp only [Outcome.firstEntriesNotNull, hok', if_true] at h
      cases hj : r.json with
      | error e => rfl
      | ok result =>
        simp only [hj, Body.firstEntriesNotNull] at h
        simp only
        cases hc : result.candidates with
        | none =>
          cases hf : result.promptFeedback with
          | none => simp [truthy]
          | some f => simp
        | some cs =>
          cases cs with
          | nil =>
            cases hf : result.promptFeedback with
            | none => simp [truthy]
            | some f => simp
          | cons c rest =>
            cases c with
            | none => simp [hc] at h
            | some c =>
              simp only [hc] at h
              simp only
              cases hct : c.content with
              | none => simp [callGeminiNoText]
              | some content =>
                cases hp : content.parts with
                | none => simp [callGeminiNoText, hp]
                | some parts =>
                  cases parts with
                  | nil => simp [callGeminiNoText, hp]
                  | cons part ps =>
                    cases part with
                    | none => simp [hct, hp] at h
                    | some part =>
                      cases ht : part.text with
                      | none => simp [callGeminiNoText, truthy, hp, ht]
                      | some t =>
                        by_cases hne : t = ""
                        · simp [callGeminiNoText, truthy, hne, hp, ht]
                        · simp [callGeminiNoText, truthy, hne, hp, ht]

theorem callImagenTry_agree (attempt : Nat) (outcome : Outcome) (random : ℚ) :
    callImagenTry attempt outcome random = ApiService.callImagenTry attempt outcome random := by
  cases outcome with
  | fetchRejects e => rfl
  | response r =>
    simp only [callImagenTry, ApiService.callImagenTry]
    split
    · rfl
    · cases hj : r.json with
      | error e => rfl
      | ok result =>
        simp only
        cases hd : (first result.predictions).bind fun p => p.bytesBase64Encoded with
        | none => simp [truthy]
        | some d =>
          by_cases hne : d = ""
          · simp [truthy, hne]
          · simp [truthy, hne]

/-! ## The attempt counter -/

theorem attemptTrace_bounds {α : Type} (tryBlock : Nat → Outcome → ℚ → TryResult α)
    (env : Nat → Outcome) (random : Nat → ℚ) :
    ∀ (fuel attempt : Nat), ∀ a ∈ attemptTrace tryBlock env random fuel attempt,
      attempt ≤ a ∧ a < maxRetries := by
  intro fuel
  induction fuel with
  | zero => intro attempt a ha; simp [attemptTrace] at ha
  | succ fuel ih =>
    intro attempt a ha
    rw [attemptTrace] at ha
    split at ha
    · rename_i hlt
      split at ha
      · simp only [List.mem_cons] at ha
        rcases ha with rfl | ha
        · exact ⟨le_refl _, hlt⟩
        · have := ih (attempt + 1) a ha
          exact ⟨by omega, this.2⟩
      · simp only [List.mem_singleton] at ha
        subst ha
        exact ⟨le_refl _, hlt⟩
    · simp at ha

theorem attemptTrace_requests {α : Type} (url : String) (payload : Payload)
    (tryBlock : Nat → Outcome → ℚ → TryResult α) (exhausted : String) (env : Nat → Outcome)
    (random : Nat → ℚ) :
    ∀ (fuel attempt : Nat) (run : Run α),
      retryLoop (.request url payload) tryBlock exhausted env random fuel attempt = some run →
      attemptTrace tryBlock env random fuel attempt
        = List.range' attempt (requestCount run.events) := by
  intro fuel
  induction fuel with
  | zero => intro attempt run h; simp [retryLoop] at h
  | succ fuel ih =>
    intro attempt run h
    rw [retryLoop] at h
    rw [attemptTrace]
    split at h
    · rename_i hlt
      rw [if_pos hlt]
      split at h
      · rename_i value hit
        injection h with h; subst h
        simp [hit, requestCount]
      · rename_i error hit
        injection h with h; subst h
        simp [hit, requestCount]
      · rename_i delay hit
        cases hrec : retryLoop (.request url payload) tryBlock exhausted env random fuel
            (attempt + 1) with
        | none => simp [hrec] at h
        | some run' =>
          simp only [hrec, Option.map_some', Option.some.injEq] at h
          subst h
          simp only [hit, requestCount, ih (attempt + 1) run' hrec]
          rw [List.range'_succ]
    · rename_i hlt
      rw [if_neg hlt]
      injection h with h; subst h
      simp [requestCount]

theorem backoffDelay_le (attempt : Nat) (random : ℚ) (ha : attempt ≤ 4) (h0 : 0 ≤ random)
    (h1 : random < 1) : backoffDelay attempt random ≤ 17000 := by
  have hpow : (2 : ℚ) ^ attempt ≤ 16 := by
    interval_cases attempt <;> norm_num
  have := (backoffDelay_bounds attempt random ha h0 h1).2
  linarith

theorem iteration_backoff_delay {α : Type} (tryBlock : Nat → Outcome → ℚ → TryResult α)
    (htry : DelaysByFormula tryBlock) (attempt : Nat) (outcome : Outcome) (random delay : ℚ)
    (h : iteration tryBlock attempt outcome random = .backoff delay) :
    delay = backoffDelay attempt random := by
  simp only [iteration] at h
  split at h
  · rename_i error _
    simp only [catchBlock] at h
    split at h
    · simp at h
    · injection h with h; exact h.symm
  · exact htry attempt outcome random delay h

theorem retryLoop_sleeps_le {α : Type} (url : String) (payload : Payload)
    (tryBlock : Nat → Outcome → ℚ → TryResult α) (exhausted : String) (env : Nat → Outcome)
    (random : Nat → ℚ) (htry : DelaysByFormula tryBlock) (hrandom : ∀ i, 0 ≤ random i ∧ random i < 1) :
    ∀ (fuel attempt : Nat) (run : Run α),
      retryLoop (.request url payload) tryBlock exhausted env random fuel attempt = some run →
      ∀ d ∈ sleeps run.events, d ≤ 17000 := by
  intro fuel
  induction fuel with
  | zero => intro attempt run h; simp [retryLoop] at h
  | succ fuel ih =>
    intro attempt run h
    rw [retryLoop] at h
    split at h
    · rename_i hlt
      split at h
      · injection h with h; subst h; simp [sleeps]
      · injection h with h; subst h; simp [sleeps]
      · rename_i delay hit
        cases hrec : retryLoop (.request url payload) tryBlock exhausted env random fuel
            (attempt + 1) with
        | none => simp [hrec] at h
        | some run' =>
          simp only [hrec, Option.map_some', Option.some.injEq] at h
          subst h
          intro d hd
          simp only [sleeps, List.mem_cons] at hd
          rcases hd with rfl | hd
          · rw [iteration_backoff_delay tryBlock htry _ _ _ _ hit]
            exact backoffDelay_le _ _ (by simp only [maxRetries] at hlt; omega) (hrandom _).1
              (hrandom _).2
          · exact ih (attempt + 1) run' hrec d hd
    · injection h with h; subst h; simp [sleeps]

theorem catchBlock_below_maxRetries {α : Type} (attempt : Nat) (error : JsError) (random : ℚ)
    (h : attempt < maxRetries) :
    (catchBlock attempt error random : TryResult α) = catchBlockByMessage attempt error random := by
  have hne : attempt ≠ maxRetries := by omega
  simp [catchBlock, catchBlockByMessage, hne]

theorem ApiService.callGeminiTry_delays : DelaysByFormula ApiService.callGeminiTry := by
  intro attempt outcome random delay h
  simp only [ApiService.callGeminiTry] at h
  repeat' split at h
  all_goals first | (injection h with h; exact h.symm) | simp at h


theorem mainJs_callGeminiTry_delays : DelaysByFormula callGeminiTry := by
  intro attempt outcome random delay h
  simp only [callGeminiTry, callGeminiNoText] at h
  repeat' split at h
  all_goals first | (injection h with h; exact h.symm) | simp at h

theorem ApiService.callImagenTry_delays : DelaysByFormula ApiService.callImagenTry := by
  intro attempt outcome random delay h
  simp only [ApiService.callImagenTry] at h
  repeat' split at h
  all_goals first | (injection h with h; exact h.symm) | simp at h

theorem ApiService.callGeminiVisionTry_delays :
    DelaysByFormula ApiService.callGeminiVisionTry := by
  intro attempt outcome random delay h
  simp only [ApiService.callGeminiVisionTry] at h
  repeat' split at h
  all_goals first | (injection h with h; exact h.symm) | simp at h

theorem mainJs_callGeminiVisionTry_delays : DelaysByFormula callGeminiVisionTry := by
  intro attempt outcome random delay h
  simp only [callGeminiVisionTry] at h
  repeat' split at h
  all_goals first | (injection h with h; exact h.symm) | simp at h

theorem ApiService.callGeminiTTSTry_delays (atob : String → Except JsError String) :
    DelaysByFormula (ApiService.callGeminiTTSTry atob) := by
  intro attempt outcome random delay h
  simp only [ApiService.callGeminiTTSTry] at h
  repeat' split at h
  all_goals first | (injection h with h; exact h.symm) | simp at h

theorem mainJs_callGeminiTTSTry_delays (atob : String → Except JsError String) :
    DelaysByFormula (callGeminiTTSTry atob) := by
  intro attempt outcome random delay h
  simp only [callGeminiTTSTry] at h
  repeat' split at h
  all_goals first | (injection h with h; exact h.symm) | simp at h

/-! ## The caller `getRecommendedBooks` -/

theorem retryLoop_result_request {α : Type} (request₁ request₂ : Event)
    (tryBlock : Nat → Outcome → ℚ → TryResult α) (exhausted : String) (env : Nat → Outcome)
    (random : Nat → ℚ) :
    ∀ (fuel attempt : Nat),
      (retryLoop request₁ tryBlock exhausted env random fuel attempt).map (fun run => run.result)
        = (retryLoop request₂ tryBlock exhausted env random fuel attempt).map
            (fun run => run.result) := by
  intro fuel
  induction fuel with
  | zero => intro attempt; rfl
  | succ fuel ih =>
    intro attempt
    rw [retryLoop, retryLoop]
    split
    · split
      · rfl
      · rfl
      · have := ih (attempt + 1)
        simpa [Option.map_map, Function.comp_def] using this
    · rfl

theorem recommendedBooks_events (parse : String → Except JsError Json) (run : Run String) :
    (recommendedBooks parse run).events = run.events := by
  simp only [recommendedBooks]
  split <;> rfl

theorem recommendedBooks_result (parse : String → Except JsError Json) (run : Run String) :
    (recommendedBooks parse run).result = .ok (booksOrEmpty parse run.result) := by
  obtain ⟨result, events⟩ := run
  cases result with
  | error e => rfl
  | ok text =>
    simp only [recommendedBooks, booksOrEmpty, bind, Except.bind, parseBooks]
    cases hp : parse text with
    | error e => rfl
    | ok value =>
      cases value with
      | null => rfl
      | bool b => rfl
      | number n => rfl
      | string s => rfl
      | array items => rfl
      | object members =>
        simp only [Json.books]
        cases hl : members.lookup "books" with
        | none => rfl
        | some v =>
          simp only [pure, Except.pure]
          by_cases ht : v.truthy = true
          · simp [ht]
          · simp [ht]

theorem recommendedBooks_of_error (parse : String → Except JsError Json) (run : Run String)
    (error : JsError) (h : run.result = .error error) :
    recommendedBooks parse run = ⟨.ok (.array []), [error], run.events⟩ := by
  simp only [recommendedBooks, h, bind, Except.bind]

theorem recommendedBooks_of_parse_error (parse : String → Except JsError Json)
    (run : Run String) (text : String) (error : JsError) (h : run.result = .ok text)
    (hp : parse text = .error error) :
    recommendedBooks parse run = ⟨.ok (.array []), [error], run.events⟩ := by
  simp only [recommendedBooks, h, bind, Except.bind, parseBooks, hp]

/-! ## The records handed to the listeners -/

theorem lookup_assign (record : Record) (name : String) (value : FieldValue) (key : String) :
    (assign record (name, value)).lookup key
      = if key = name then some value else record.lookup key := by
  induction record with
  | nil =>
    by_cases h : key = name
    · subst h; simp [assign, List.lookup]
    · have h' : (key == name) = false := by simpa using h
      simp [assign, List.lookup, h, h']
  | cons head rest ih =>
    obtain ⟨k, v⟩ := head
    simp only [assign]
    by_cases hk : k = name
    · subst hk
      rw [if_pos rfl]
      by_cases h : key = k
      · subst h; simp [List.lookup]
      · have h' : (key == k) = false := by simpa using h
        simp [List.lookup, h, h']
    · rw [if_neg hk]
      by_cases hkey : key = k
      · subst hkey
        simp [List.lookup, hk]
      · have h' : (key == k) = false := by simpa using hkey
        simp only [List.lookup, h', ih]

theorem lookup_foldl_assign (key : String) :
    ∀ (data base : Record), (data.map Prod.fst).Nodup →
      (data.foldl assign base).lookup key
        = match data.lookup key with
          | some value => some value
          | none => base.lookup key := by
  intro data
  induction data with
  | nil => intro base _; rfl
  | cons field rest ih =>
    intro base hnodup
    obtain ⟨k, v⟩ := field
    simp only [List.map_cons, List.nodup_cons] at hnodup
    rw [List.foldl_cons, ih _ hnodup.2]
    by_cases hkey : key = k
    · subst hkey
      have hnone : rest.lookup key = none := by
        rw [List.lookup_eq_none_iff]
        intro p hp
        have hne : key ≠ p.1 := fun h => hnodup.1 (h ▸ List.mem_map_of_mem Prod.fst hp)
        simpa using hne
      simp [List.lookup, hnone, lookup_assign]
    · have h' : (key == k) = false := by simpa using hkey
      simp only [List.lookup, h', lookup_assign, if_neg hkey]

theorem updatedAtMillis_eq_rank (record : Record) : updatedAtMillis record = rank record := by
  simp only [updatedAtMillis, rank, toMillis, orZero]
  cases record.lookup "updatedAt" with
  | none => rfl
  | some value =>
    cases value with
    | timestamp millis =>
      by_cases h : millis = 0
      · simp [h]
      · simp [h]
    | null => rfl
    | bool b => rfl
    | number n => rfl
    | string s => rfl

theorem compareUpdatedAt_le (a b : Record) : compareUpdatedAt a b ≤ 0 ↔ rank b ≤ rank a := by
  simp only [compareUpdatedAt, updatedAtMillis_eq_rank]
  omega

theorem sort_compareUpdatedAt (records : List Record) :
    sort compareUpdatedAt records = records.insertionSort (fun a b => rank b ≤ rank a) := by
  simp only [sort]
  congr
  funext a b
  exact propext (compareUpdatedAt_le a b)

/-! ## Runs of the loop: sleeps, and the image of a run -/

theorem sleeps_append (xs ys : List Event) : sleeps (xs ++ ys) = sleeps xs ++ sleeps ys := by
  induction xs with
  | nil => rfl
  | cons e es ih => cases e <;> simp [sleeps, ih]

theorem sleeps_backoffEvents_length (url : String) (payload : Payload) (delay : Nat → ℚ) :
    ∀ (count attempt : Nat),
      (sleeps (backoffEvents (.request url payload) delay attempt count)).length = count := by
  intro count
  induction count with
  | zero => intro attempt; rfl
  | succ count ih => intro attempt; simp [backoffEvents, sleeps, ih]

theorem decodeSamples_odd (atob : String → Except JsError String) (audioData : String)
    (b : List Nat) (hb : base64ToArrayBuffer atob audioData = .ok b) (hodd : b.length % 2 = 1) :
    decodeSamples atob audioData = .error oddByteLength := by
  have hne : ¬ b.length % 2 = 0 := by omega
  simp only [decodeSamples, hb, bind, Except.bind, int16Array, if_neg hne]

theorem iteration_map {α β : Type} (f : α → β) (tryBlock : Nat → Outcome → ℚ → TryResult α)
    (attempt : Nat) (outcome : Outcome) (random : ℚ) :
    iteration (fun a o u => (tryBlock a o u).map f) attempt outcome random
      = (iteration tryBlock attempt outcome random).map f := by
  simp only [iteration]
  cases h : tryBlock attempt outcome random with
  | returned value => rfl
  | backoff delay => rfl
  | thrown error =>
    simp only [TryResult.map, catchBlock]
    split <;> rfl

theorem retryLoop_map {α β : Type} (f : α → β) (request : Event)
    (tryBlock : Nat → Outcome → ℚ → TryResult α) (exhausted : String) (env : Nat → Outcome)
    (random : Nat → ℚ) :
    ∀ (fuel attempt : Nat),
      retryLoop request (fun a o u => (tryBlock a o u).map f) exhausted env random fuel attempt
        = (retryLoop request tryBlock exhausted env random fuel attempt).map (Run.map f) := by
  intro fuel
  induction fuel with
  | zero => intro attempt; rfl
  | succ fuel ih =>
    intro attempt
    rw [retryLoop, retryLoop]
    split
    · rw [iteration_map]
      cases h : iteration tryBlock attempt (env attempt) (random attempt) with
      | returned value => rfl
      | thrown error => rfl
      | backoff delay =>
        show Option.map _ (retryLoop request (fun a o u => (tryBlock a o u).map f) exhausted
          env random fuel (attempt + 1)) = _
        rw [ih (attempt + 1)]
        cases retryLoop request tryBlock exhausted env random fuel (attempt + 1) <;> rfl
    · rfl

theorem callGeminiVisionTry_agree (attempt : Nat) (outcome : Outcome) (random : ℚ)
    (h : outcome.textUsable = true) :
    callGeminiVisionTry attempt outcome random
      = (ApiService.callGeminiVisionTry attempt outcome random).map some := by
  cases outcome with
  | fetchRejects e => rfl
  | response r =>
    simp only [callGeminiVisionTry, ApiService.callGeminiVisionTry]
    split
    · split
      · rfl
      · split <;> rfl
    · rename_i hok
      have hok' : r.ok = true := by simpa using hok
      simp only [Outcome.textUsable, hok', if_true] at h
      cases hj : r.json with
      | error e => rfl
      | ok result =>
        simp only [hj, Bool.and_eq_true, Body.firstEntriesNotNull] at h
        obtain ⟨hnull, h⟩ := h
        simp only [firstPart] at h ⊢
        cases hc : result.candidates with
        | none => rfl
        | some cs =>
          cases cs with
          | nil => rfl
          | cons c rest =>
            cases c with
            | none => simp [hc] at hnull
            | some c =>
              simp only [hc] at hnull
              cases hct : c.content with
              | none => simp [hct, visionUnknownIssue, TryResult.map]
              | some content =>
                cases hp : content.parts with
                | none => simp [hct, hp, visionUnknownIssue, TryResult.map]
                | some parts =>
                  cases parts with
                  | nil => simp [hct, hp, visionUnknownIssue, TryResult.map]
                  | cons part ps =>
                    cases part with
                    | none => simp [hct, hp] at hnull
                    | some part =>
                      simp only [hc, hct, hp, first_cons, Option.bind] at h
                      cases ht : part.text with
                      | none => simp [ht, truthy] at h
                      | some t =>
                        have hne : t ≠ "" := by simpa [ht, truthy] using h
                        simp [hct, hp, ht, hne, TryResult.map]

theorem callGeminiVision_agree (prompt base64ImageData mimeType : String)
    (env : Nat → Outcome) (random : Nat → ℚ)
    (h : ∀ i, i < maxRetries → (env i).textUsable = true) :
    callGeminiVision prompt base64ImageData mimeType env random
      = (ApiService.callGeminiVision prompt base64ImageData mimeType env random).map
          (Run.map some) := by
  rw [ApiService.callGeminiVision, ← retryLoop_map]
  exact retryLoop_congr _ _ _ _ env random
    (fun i hi => callGeminiVisionTry_agree i (env i) (random i) (h i hi)) _ _

/-! ## The records of the listeners, in order -/

theorem mainJs_compareUpdatedAt_eq (a b : Record) (ha : timestampOrNone a = true)
    (hb : timestampOrNone b = true) :
    App.compareUpdatedAt a b = .ok (compareUpdatedAt a b) := by
  simp only [App.compareUpdatedAt, compareUpdatedAt, updatedAtMillis, timestampOrNone] at *
  cases hla : a.lookup "updatedAt" with
  | none =>
    cases hlb : b.lookup "updatedAt" with
    | none => rfl
    | some vb =>
      cases vb <;> simp_all [App.toMillis, toMillis, orZero, bind, Except.bind, pure, Except.pure]
  | some va =>
    cases hlb : b.lookup "updatedAt" with
    | none =>
      cases va <;> simp_all [App.toMillis, toMillis, orZero, bind, Except.bind, pure, Except.pure]
    | some vb =>
      cases va <;> cases vb <;>
        simp_all [App.toMillis, toMillis, orZero, bind, Except.bind, pure, Except.pure]

theorem rank_of_no_timestamp (record : Record) (h : hasTimestamp record = false) :
    rank record = 0 := by
  simp only [hasTimestamp, rank] at *
  cases hl : record.lookup "updatedAt" with
  | none => rfl
  | some value => cases value <;> simp_all

theorem sorted_listenProjects (docs : List Document) :
    (FirebaseService.listenProjects docs).Sorted (fun a b => rank b ≤ rank a) := by
  rw [FirebaseService.listenProjects, sort_compareUpdatedAt]
  have htotal : IsTotal Record (fun a b => rank b ≤ rank a) := ⟨fun a b => le_total _ _⟩
  have htrans : IsTrans Record (fun a b => rank b ≤ rank a) :=
    ⟨fun a b c hab hbc => le_trans hbc hab⟩
  exact List.sorted_insertionSort _ _

theorem perm_listenProjects (docs : List Document) :
    (FirebaseService.listenProjects docs).Perm (docs.map toRecord) := by
  rw [FirebaseService.listenProjects, sort]
  exact List.perm_insertionSort _ _

theorem lookup_toRecord (d : Document) (hkeys : (d.data.map Prod.fst).Nodup) (key : String) :
    (toRecord d).lookup key
      = match d.data.lookup key with
        | some value => some value
        | none => if key = "id" then some (.string d.id) else none := by
  rw [toRecord, lookup_foldl_assign key d.data _ hkeys]
  cases d.data.lookup key with
  | some value => rfl
  | none =>
    by_cases h : key = "id"
    · subst h; simp [List.lookup]
    · have h' : (key == "id") = false := by simpa using h
      simp [List.lookup, h, h']

/-! ## The cells of the calendar -/

theorem postsForDay_same_year (scheduledPosts : List ScheduledPost)
    (currentDate today : CalendarDate) (day : Nat)
    (hyear : today.fullYear = currentDate.fullYear) :
    ∀ p ∈ postsForDay scheduledPosts currentDate today day,
      p.scheduleDate = ⟨currentDate.fullYear, currentDate.month, day⟩ := by
  intro p hp
  simp only [postsForDay, List.mem_filter, Bool.and_eq_true, decide_eq_true_eq] at hp
  obtain ⟨_, ⟨hd, hm⟩, hy⟩ := hp
  cases hs : p.scheduleDate with
  | mk y m d =>
    simp only [hs] at hd hm hy
    rw [hd, hm, hy, hyear]

/-! ## Claims -/

/-- C1 (counterexample): one transport failure, a rejection of `fetch` with the message
"The network connection was lost.", followed by a 200 with the text "hello".  Neither copy
of `callGemini` issues a second request: the `catch` block finds neither "Failed to fetch"
nor "NetworkError" in the message and rethrows, so the call ends with the rejection after
one request and the text of the second response is never returned. -/
theorem callGemini_rethrows_unrecognised_transport_failure :
    ApiService.callGemini "p" none
        (fun i => if i = 0 then .fetchRejects ⟨"TypeError", "The network connection was lost."⟩
          else .response (textResponse "hello" (some "STOP"))) (fun _ => 0)
      = some ⟨.error ⟨"TypeError", "The network connection was lost."⟩,
          [.request geminiUrl (geminiPayload "p" none)]⟩
    ∧ callGemini "p" none
        (fun i => if i = 0 then .fetchRejects ⟨"TypeError", "The network connection was lost."⟩
          else .response (textResponse "hello" (some "STOP"))) (fun _ => 0)
      = some ⟨.error ⟨"TypeError", "The network connection was lost."⟩,
          [.request geminiUrl (geminiPayload "p" none)]⟩
    ∧ requestCount [.request geminiUrl (geminiPayload "p" none)] = 1
    ∧ (textResponse "hello" (some "STOP")).hasText (textCandidate "hello" (some "STOP"))
        "hello" :=
  ⟨rfl, rfl, rfl, rfl, ⟨_, _, rfl, rfl⟩, rfl, by decide⟩

/-- C1 (amended): after `k ≤ 4` retryable failures that the loop recognises (responses with
status 429 or at least 500 whose error body was read, or `fetch` rejections whose message
contains "Failed to fetch" or "NetworkError") followed by a 2xx response whose first
candidate carries a non-empty text, both copies of `callGemini` issue exactly `k + 1`
requests, sleep after each of the first `k`, and return the text of response `k + 1`
(followed by the truncation notice when its finish reason is `MAX_TOKENS`). -/
theorem callGemini_returns_after_retryable_failures (prompt : String)
    (responseSchema : Option Schema) (env : Nat → Outcome) (random : Nat → ℚ) (k : Nat)
    (response : Response) (candidate : Candidate) (text : String)
    (hk : k ≤ 4) (hfail : ∀ i, i < k → (env i).retryable = true)
    (hresp : env k = .response response) (htext : response.hasText candidate text) :
    ApiService.callGemini prompt responseSchema env random
      = some ⟨.ok (if candidate.finishReason = some "MAX_TOKENS" then text ++ truncationNotice
            else text),
          backoffEvents (.request geminiUrl (geminiPayload prompt responseSchema))
            (fun a => backoffDelay a (random a)) 0 k
            ++ [.request geminiUrl (geminiPayload prompt responseSchema)]⟩
    ∧ callGemini prompt responseSchema env random
      = some ⟨.ok (if candidate.finishReason = some "MAX_TOKENS" then text ++ truncationNotice
            else text),
          backoffEvents (.request geminiUrl (geminiPayload prompt responseSchema))
            (fun a => backoffDelay a (random a)) 0 k
            ++ [.request geminiUrl (geminiPayload prompt responseSchema)]⟩
    ∧ requestCount (backoffEvents (.request geminiUrl (geminiPayload prompt responseSchema))
            (fun a => backoffDelay a (random a)) 0 k
            ++ [.request geminiUrl (geminiPayload prompt responseSchema)]) = k + 1 := by
  have hlt : k < maxRetries := by simp only [maxRetries]; omega
  refine ⟨?_, ?_, ?_⟩
  · exact retryLoop_backoffs_then_returned _ _ _ env random _ k _ hlt
      (fun i hi => ApiService.callGeminiTry_retryable i (env i) (random i)
        (by omega) (hfail i hi))
      (by rw [hresp]; exact ApiService.callGeminiTry_hasText k response candidate text _ htext)
  · exact retryLoop_backoffs_then_returned _ _ _ env random _ k _ hlt
      (fun i hi => mainJs_callGeminiTry_retryable i (env i) (random i) (by omega) (hfail i hi))
      (by rw [hresp]; exact mainJs_callGeminiTry_hasText k response candidate text _ htext)
  · rw [requestCount_append, requestCount_backoffEvents]; rfl

/-- Witness of C1 (amended): four 429 responses, then a 200 with the text "hello". -/
theorem callGemini_returns_after_retryable_failures_witness :
    (∀ i, i < 4 → (fourThrottledThenText i).retryable = true) ∧
    ∃ run, ApiService.callGemini "p" none fourThrottledThenText (fun _ => 0) = some run ∧
      run.result = .ok "hello" ∧ requestCount run.events = 5 :=
  ⟨by decide, _,
    (callGemini_returns_after_retryable_failures "p" none fourThrottledThenText (fun _ => 0) 4
      (textResponse "hello" (some "STOP")) (textCandidate "hello" (some "STOP")) "hello"
      (by decide) (by decide) rfl ⟨rfl, ⟨_, _, rfl, rfl⟩, rfl, by decide⟩).1,
    rfl,
    (callGemini_returns_after_retryable_failures "p" none fourThrottledThenText (fun _ => 0) 4
      (textResponse "hello" (some "STOP")) (textCandidate "hello" (some "STOP")) "hello"
      (by decide) (by decide) rfl ⟨rfl, ⟨_, _, rfl, rfl⟩, rfl, by decide⟩).2.2⟩


/-- C2 (counterexample): five transport failures in a row, each a rejection of `fetch` with
the message "Load failed".  Each of the four wrappers ends after one request, without
sleeping, with that rejection, which is not its "Max retries reached" error: the `catch`
block finds neither "Failed to fetch" nor "NetworkError" in the message and rethrows. -/
theorem unrecognised_rejections_end_the_call_at_once :
    ApiService.callGemini "p" none (fun _ => .fetchRejects ⟨"TypeError", "Load failed"⟩)
        (fun _ => 0)
      = some ⟨.error ⟨"TypeError", "Load failed"⟩, [.request geminiUrl (geminiPayload "p" none)]⟩
    ∧ ApiService.callImagen "p" "1:1" (fun _ => .fetchRejects ⟨"TypeError", "Load failed"⟩)
        (fun _ => 0)
      = some ⟨.error ⟨"TypeError", "Load failed"⟩, [.request imagenUrl (.predict "p" 1 "1:1")]⟩
    ∧ ApiService.callGeminiTTS (fun s => .ok s) "t" "Kore"
        (fun _ => .fetchRejects ⟨"TypeError", "Load failed"⟩) (fun _ => 0)
      = some ⟨.error ⟨"TypeError", "Load failed"⟩,
          [.request ttsUrl (.speech "t" "Kore" "gemini-2.5-flash-preview-tts")]⟩
    ∧ ApiService.callGeminiVision "p" "aGk=" "image/png"
        (fun _ => .fetchRejects ⟨"TypeError", "Load failed"⟩) (fun _ => 0)
      = some ⟨.error ⟨"TypeError", "Load failed"⟩,
          [.request geminiUrl (.vision "p" "image/png" "aGk="
            { temperature := 4 / 10, topK := 32, topP := 1, maxOutputTokens := 4096 })]⟩
    ∧ (⟨"TypeError", "Load failed"⟩ : JsError) ≠ mkError "Max retries reached for Gemini API call."
    ∧ (⟨"TypeError", "Load failed"⟩ : JsError) ≠ mkError "Max retries reached for Imagen API call."
    ∧ (⟨"TypeError", "Load failed"⟩ : JsError) ≠ mkError "Max retries reached for TTS API call."
    ∧ (⟨"TypeError", "Load failed"⟩ : JsError)
        ≠ mkError "Max retries reached for Gemini Vision API call." :=
  ⟨rfl, rfl, rfl, rfl, by decide, by decide, by decide, by decide⟩

/-- C2 (amended): when each of the five attempts meets a retryable outcome that the loop
recognises (a response with status 429 or at least 500, or a `fetch` rejection whose message
contains "Failed to fetch" or "NetworkError", in any mix), each of `callGemini`,
`callImagen`, `callGeminiVision` (which read the error body, and for which the response
counts when that body was read) and `callGeminiTTS` (which does not read it) issues exactly
five requests, sleeps after each, and fails with its own "Max retries reached for ... API
call." error, which differs from every rejection of `fetch` met on the way. -/
theorem max_retries_error_after_five_retryable_outcomes
    (atob : String → Except JsError String) (prompt : String) (responseSchema : Option Schema)
    (aspectRatio text voiceName base64ImageData mimeType : String)
    (env : Nat → Outcome) (random : Nat → ℚ) :
    ((∀ i, i < 5 → (env i).retryable = true) →
      ApiService.callGemini prompt responseSchema env random
        = some (exhaustedRun String (.request geminiUrl (geminiPayload prompt responseSchema))
            random "Max retries reached for Gemini API call.")
      ∧ ApiService.callImagen prompt aspectRatio env random
        = some (exhaustedRun String (.request imagenUrl (.predict prompt 1 aspectRatio))
            random "Max retries reached for Imagen API call.")
      ∧ ApiService.callGeminiVision prompt base64ImageData mimeType env random
        = some (exhaustedRun String
            (.request geminiUrl (.vision prompt mimeType base64ImageData
              { temperature := 4 / 10, topK := 32, topP := 1, maxOutputTokens := 4096 }))
            random "Max retries reached for Gemini Vision API call."))
    ∧ ((∀ i, i < 5 → (env i).retryableByStatus = true) →
      ApiService.callGeminiTTS atob text voiceName env random
        = some (exhaustedRun (List Nat)
            (.request ttsUrl (.speech text voiceName "gemini-2.5-flash-preview-tts"))
            random "Max retries reached for TTS API call."))
    ∧ (∀ (α : Type) (url : String) (payload : Payload) (message : String),
        requestCount (exhaustedRun α (.request url payload) random message).events = 5)
    ∧ (∀ i e, i < 5 → (env i).retryableByStatus = true → env i = .fetchRejects e →
        mkError "Max retries reached for Gemini API call." ≠ e
        ∧ mkError "Max retries reached for Imagen API call." ≠ e
        ∧ mkError "Max retries reached for TTS API call." ≠ e
        ∧ mkError "Max retries reached for Gemini Vision API call." ≠ e) := by
  refine ⟨fun h => ⟨?_, ?_, ?_⟩, fun h => ?_, ?_, ?_⟩
  · exact retryLoop_all_backoffs _ _ _ env random _
      (fun i hi => ApiService.callGeminiTry_retryable i (env i) (random i) hi (h i hi))
  · exact retryLoop_all_backoffs _ _ _ env random _
      (fun i hi => ApiService.callImagenTry_retryable i (env i) (random i) hi (h i hi))
  · exact retryLoop_all_backoffs _ _ _ env random _
      (fun i hi => ApiService.callGeminiVisionTry_retryable i (env i) (random i) hi (h i hi))
  · exact retryLoop_all_backoffs _ _ _ env random _
      (fun i hi => ApiService.callGeminiTTSTry_retryable atob i (env i) (random i) hi (h i hi))
  · intro α url payload message
    exact requestCount_backoffEvents url payload _ 5 0
  · intro i e _ hr he
    rw [he] at hr
    simp only [Outcome.retryableByStatus] at hr
    obtain ⟨h1, h2, h3, h4⟩ := exhausted_message_not_network
    refine ⟨?_, ?_, ?_, ?_⟩ <;> intro heq <;> rw [← heq] at hr <;> simp_all

/-- Witness of C2 (amended): a 429, a network failure, a 503, a network failure and a 500. -/
theorem max_retries_error_after_five_retryable_outcomes_witness :
    (∀ i, i < 5 → (mixedFailures i).retryable = true) ∧
    ApiService.callGemini "p" none mixedFailures (fun _ => 0)
        = some (exhaustedRun String (.request geminiUrl (geminiPayload "p" none))
            (fun _ => 0) "Max retries reached for Gemini API call.") :=
  ⟨by decide,
    ((max_retries_error_after_five_retryable_outcomes (fun _ => .ok "") "p" none "1:1" "t"
      "Kore" "" "image/png" mixedFailures (fun _ => 0)).1 (by decide)).1⟩

/-- C3 (failing input): a 404 whose body reports the message "Failed to fetch the requested
model" is not terminal for `ApiService.callGemini`: the error thrown for it carries the
server's message, the `catch` block takes it for a network failure, and the call sleeps
and retries; with that response at every attempt it issues five requests, sleeps five
times and ends with the "Max retries reached" error. -/
theorem callGemini_retries_404_reporting_fetch_words :
    ApiService.callGemini "p" none
        (fun _ => errorResponse 404 "Failed to fetch the requested model") (fun _ => 0)
      = some (exhaustedRun String (.request geminiUrl (geminiPayload "p" none)) (fun _ => 0)
          "Max retries reached for Gemini API call.")
    ∧ requestCount (exhaustedRun String (.request geminiUrl (geminiPayload "p" none))
          (fun _ => 0) "Max retries reached for Gemini API call.").events = 5
    ∧ sleeps (exhaustedRun String (.request geminiUrl (geminiPayload "p" none))
          (fun _ => 0) "Max retries reached for Gemini API call.").events
        = [1000, 2000, 4000, 8000, 16000] := by
  refine ⟨rfl, rfl, ?_⟩
  simp only [sleeps_exhaustedRun]
  rw [backoffDelay_of_nat 0 0 0 (by norm_num) (by norm_num) (by norm_num),
    backoffDelay_of_nat 1 0 0 (by norm_num) (by norm_num) (by norm_num),
    backoffDelay_of_nat 2 0 0 (by norm_num) (by norm_num) (by norm_num),
    backoffDelay_of_nat 3 0 0 (by norm_num) (by norm_num) (by norm_num),
    backoffDelay_of_nat 4 0 0 (by norm_num) (by norm_num) (by norm_num)]
  norm_num

/-- C4 (counterexample): the speech wrapper does not surface the server's message: for a 404
whose body reports "Voice not found", `ApiService.callGeminiTTS` fails with
"TTS API failed with status: 404". -/
theorem callGeminiTTS_ignores_server_message :
    ApiService.callGeminiTTS (fun _ => .ok "") "t" "Kore"
        (fun _ => errorResponse 404 "Voice not found") (fun _ => 0)
      = some ⟨.error (mkError "TTS API failed with status: 404"),
          [.request ttsUrl (.speech "t" "Kore" "gemini-2.5-flash-preview-tts")]⟩
    ∧ mkError "TTS API failed with status: 404" ≠ mkError "Voice not found" :=
  ⟨rfl, by decide⟩

/-- C4 (amended): let a 4xx response other than 429 arrive after `k ≤ 4` retryable outcomes.
For the text, image and vision wrappers, when the error body is read and reports a
non-empty `error.message` `m` that contains neither "Failed to fetch" nor "NetworkError",
the call fails at that attempt with an error whose message is exactly `m`; when the body
that is read reports no message (or an empty one) it fails with the default message of the
operation, which ends in the status code.  The speech wrapper never reads the body: it
fails with "TTS API failed with status: " followed by the status code. -/
theorem client_error_message (atob : String → Except JsError String) (prompt : String)
    (responseSchema : Option Schema)
    (aspectRatio text voiceName base64ImageData mimeType : String)
    (env : Nat → Outcome) (random : Nat → ℚ) (k : Nat) (response : Response)
    (hk : k ≤ 4) (hfail : ∀ i, i < k → (env i).retryable = true)
    (hresp : env k = .response response)
    (h4xx : 400 ≤ response.status ∧ response.status ≤ 499 ∧ response.status ≠ 429) :
    (∀ errorBody m, readErrorBody response = .ok errorBody → errorBody.message = some m →
        m ≠ "" → isNetworkError (mkError m) = false →
      ApiService.callGemini prompt responseSchema env random
        = some (runEndingAt String (.request geminiUrl (geminiPayload prompt responseSchema))
            random k (.error (mkError m)))
      ∧ ApiService.callImagen prompt aspectRatio env random
        = some (runEndingAt String (.request imagenUrl (.predict prompt 1 aspectRatio))
            random k (.error (mkError m)))
      ∧ ApiService.callGeminiVision prompt base64ImageData mimeType env random
        = some (runEndingAt String
            (.request geminiUrl (.vision prompt mimeType base64ImageData
              { temperature := 4 / 10, topK := 32, topP := 1, maxOutputTokens := 4096 }))
            random k (.error (mkError m))))
    ∧ (∀ errorBody, readErrorBody response = .ok errorBody →
        (errorBody.message = none ∨ errorBody.message = some "") →
      ApiService.callGemini prompt responseSchema env random
        = some (runEndingAt String (.request geminiUrl (geminiPayload prompt responseSchema))
            random k
            (.error (mkError ("API request failed with status " ++ toString response.status))))
      ∧ ApiService.callImagen prompt aspectRatio env random
        = some (runEndingAt String (.request imagenUrl (.predict prompt 1 aspectRatio))
            random k
            (.error (mkError
              ("Image Generation API call failed with status " ++ toString response.status))))
      ∧ ApiService.callGeminiVision prompt base64ImageData mimeType env random
        = some (runEndingAt String
            (.request geminiUrl (.vision prompt mimeType base64ImageData
              { temperature := 4 / 10, topK := 32, topP := 1, maxOutputTokens := 4096 }))
            random k
            (.error (mkError
              ("Vision API request failed with status " ++ toString response.status)))))
    ∧ ApiService.callGeminiTTS atob text voiceName env random
        = some (runEndingAt (List Nat)
            (.request ttsUrl (.speech text voiceName "gemini-2.5-flash-preview-tts"))
            random k
            (.error (mkError ("TTS API failed with status: " ++ toString response.status)))) := by
  have hlt : k < maxRetries := by simp only [maxRetries]; omega
  obtain ⟨hok, hst⟩ := ok_false_of_client_error response h4xx
  have hG := fun i (hi : i < k) =>
    ApiService.callGeminiTry_retryable i (env i) (random i) (by omega) (hfail i hi)
  have hI := fun i (hi : i < k) =>
    ApiService.callImagenTry_retryable i (env i) (random i) (by omega) (hfail i hi)
  have hV := fun i (hi : i < k) =>
    ApiService.callGeminiVisionTry_retryable i (env i) (random i) (by omega) (hfail i hi)
  have hT := fun i (hi : i < k) =>
    ApiService.callGeminiTTSTry_retryable atob i (env i) (random i) (by omega)
      (retryableByStatus_of_retryable (env i) (hfail i hi))
  refine ⟨?_, ?_, ?_⟩
  · intro errorBody m hb hm hne hnet
    refine ⟨?_, ?_, ?_⟩
    · refine retryLoop_backoffs_then_thrown _ _ _ env random _ k _ hlt hG ?_
      rw [hresp]
      have h := ApiService.callGeminiTry_terminal k response errorBody (random k) hok hst hb
      rw [hm, orElse_some m _ hne] at h
      exact h hnet
    · refine retryLoop_backoffs_then_thrown _ _ _ env random _ k _ hlt hI ?_
      rw [hresp]
      have h := ApiService.callImagenTry_terminal k response errorBody (random k) hok hst hb
      rw [hm, orElse_some m _ hne] at h
      exact h hnet
    · refine retryLoop_backoffs_then_thrown _ _ _ env random _ k _ hlt hV ?_
      rw [hresp]
      have h :=
        ApiService.callGeminiVisionTry_terminal k response errorBody (random k) hok hst hb
      rw [hm, orElse_some m _ hne] at h
      exact h hnet
  · intro errorBody hb hm
    refine ⟨?_, ?_, ?_⟩
    · refine retryLoop_backoffs_then_thrown _ _ _ env random _ k _ hlt hG ?_
      rw [hresp]
      have h := ApiService.callGeminiTry_terminal k response errorBody (random k) hok hst hb
      rw [orElse_absent _ _ hm] at h
      exact h (not_network_status_message _ _ (by decide) (by decide))
    · refine retryLoop_backoffs_then_thrown _ _ _ env random _ k _ hlt hI ?_
      rw [hresp]
      have h := ApiService.callImagenTry_terminal k response errorBody (random k) hok hst hb
      rw [orElse_absent _ _ hm] at h
      exact h (not_network_status_message _ _ (by decide) (by decide))
    · refine retryLoop_backoffs_then_thrown _ _ _ env random _ k _ hlt hV ?_
      rw [hresp]
      have h :=
        ApiService.callGeminiVisionTry_terminal k response errorBody (random k) hok hst hb
      rw [orElse_absent _ _ hm] at h
      exact h (not_network_status_message _ _ (by decide) (by decide))
  · refine retryLoop_backoffs_then_thrown _ _ _ env random _ k _ hlt hT ?_
    rw [hresp]
    exact ApiService.callGeminiTTSTry_terminal atob k response (random k) hok hst

/-- Witness of C4 (amended): a 404 whose body reports "Model not found". -/
theorem client_error_message_witness :
    (400 ≤ 404 ∧ 404 ≤ 499 ∧ 404 ≠ 429) ∧
    ApiService.callGemini "p" none (fun _ => errorResponse 404 "Model not found") (fun _ => 0)
      = some (runEndingAt String (.request geminiUrl (geminiPayload "p" none)) (fun _ => 0) 0
          (.error (mkError "Model not found"))) :=
  ⟨by decide,
    ((client_error_message (fun _ => .ok "") "p" none "1:1" "t" "Kore" "" "image/png"
      (fun _ => errorResponse 404 "Model not found") (fun _ => 0) 0
      ⟨404, .ok { error := some { message := some "Model not found" } }, .error bodyUsed⟩
      (by decide) (by intro i hi; omega) rfl (by decide)).1
        (.json { error := some { message := some "Model not found" } }) "Model not found"
        rfl rfl (by decide) (by decide)).1⟩

/-- C5 (counterexample): attempt 1 when `Math.random()` returns 1 - 2^-52, a double below 1.
The jitter `Math.random() * 1000` is 1000 - 2^-42, below 1000, and the sum 3000 - 2^-42
lies halfway between two doubles and is rounded to 3000: the delay is neither
`2^1 * 1000 + j` nor below `2^1 * 1000 + 1000`. -/
theorem backoff_delay_reaches_the_next_second :
    roundDouble (1 - 1 / 2 ^ 52) = 1 - 1 / 2 ^ 52
    ∧ roundDouble ((1 - 1 / 2 ^ 52) * 1000) = 1000 - 1 / 2 ^ 42
    ∧ backoffDelay 1 (1 - 1 / 2 ^ 52) = 3000
    ∧ backoffDelay 1 (1 - 1 / 2 ^ 52) ≠ 2 ^ 1 * 1000 + roundDouble ((1 - 1 / 2 ^ 52) * 1000)
    ∧ ¬ backoffDelay 1 (1 - 1 / 2 ^ 52) < 2 ^ 1 * 1000 + 1000 := by
  refine ⟨double_top52, jitter_top52, backoffDelay_top52_one, ?_, ?_⟩
  · rw [backoffDelay_top52_one, jitter_top52]; norm_num
  · rw [backoffDelay_top52_one]; norm_num

/-- C5 (amended): for every attempt number `a` in 0..4 and every value `r` of `Math.random()`
(a double in [0, 1)), the jitter `j = r * 1000` (rounded) lies in [0, 1000), the delay
computed is the double nearest to `2^a * 1000 + j`, and it lies in
`[2^a * 1000, 2^a * 1000 + 1000]`; it is the delay slept both on the HTTP-failure branch of
the `try` blocks (status 429 or at least 500) and on the transport-failure branch, the
`catch` block shared by the wrappers. -/
theorem backoff_delay_formula (atob : String → Except JsError String) (a : Nat) (r : ℚ)
    (ha : a ≤ 4) (hr0 : 0 ≤ r) (hr1 : r < 1) (hdouble : roundDouble r = r) :
    (0 ≤ roundDouble (r * 1000) ∧ roundDouble (r * 1000) < 1000)
    ∧ backoffDelay a r = roundDouble (2 ^ a * 1000 + roundDouble (r * 1000))
    ∧ (2 : ℚ) ^ a * 1000 ≤ backoffDelay a r
    ∧ backoffDelay a r ≤ 2 ^ a * 1000 + 1000
    ∧ (∀ response : Response, retryableStatus response.status = true →
        (readErrorBody response).isOk = true →
        ApiService.callGeminiTry a (.response response) r = .backoff (backoffDelay a r)
        ∧ ApiService.callImagenTry a (.response response) r = .backoff (backoffDelay a r)
        ∧ ApiService.callGeminiVisionTry a (.response response) r
            = .backoff (backoffDelay a r)
        ∧ callGeminiTry a (.response response) r = .backoff (backoffDelay a r))
    ∧ (∀ response : Response, retryableStatus response.status = true →
        ApiService.callGeminiTTSTry atob a (.response response) r
            = .backoff (backoffDelay a r))
    ∧ (∀ (α : Type) (error : JsError), isNetworkError error = true →
        (catchBlock a error r : TryResult α) = .backoff (backoffDelay a r)) := by
  refine ⟨⟨(jitter_bounds r hr0 hr1).1, jitter_lt r hr0 hr1 hdouble⟩, backoffDelay_eq a r ha,
    (backoffDelay_bounds a r ha hr0 hr1).1, (backoffDelay_bounds a r ha hr0 hr1).2, ?_, ?_, ?_⟩
  · intro response hs hb
    have hok := ok_false_of_retryableStatus response hs
    have hst : response.status = 429 ∨ response.status ≥ 500 := by
      simpa [retryableStatus] using hs
    cases hr : readErrorBody response with
    | error e => simp [hr, Except.isOk, Except.toBool] at hb
    | ok b =>
      simp [ApiService.callGeminiTry, ApiService.callImagenTry, ApiService.callGeminiVisionTry,
        callGeminiTry, hok, hr, hst]
  · intro response hs
    have hok := ok_false_of_retryableStatus response hs
    have hst : response.status = 429 ∨ response.status ≥ 500 := by
      simpa [retryableStatus] using hs
    simp [ApiService.callGeminiTTSTry, hok, hst]
  · intro α error he
    rw [catchBlock_network a error _ (by simp only [maxRetries]; omega) he]

/-- Witness of C5: attempt 3 when `Math.random()` returns 1/2: the delay is 8500 ms. -/
theorem backoff_delay_formula_witness :
    ((3 : Nat) ≤ 4 ∧ (0 : ℚ) ≤ 1 / 2 ∧ (1 / 2 : ℚ) < 1 ∧ roundDouble (1 / 2) = 1 / 2) ∧
    backoffDelay 3 (1 / 2) = 8500 ∧
    (2 : ℚ) ^ 3 * 1000 ≤ backoffDelay 3 (1 / 2) ∧ backoffDelay 3 (1 / 2) ≤ 2 ^ 3 * 1000 + 1000 :=
  ⟨⟨by decide, by norm_num, by norm_num, double_half⟩,
    by rw [backoffDelay_of_nat 3 (1 / 2) 500 (by norm_num) (by norm_num) (by norm_num)]
       norm_num,
    (backoff_delay_formula (fun _ => .ok "") 3 (1 / 2) (by decide) (by norm_num) (by norm_num)
      double_half).2.2.1,
    (backoff_delay_formula (fun _ => .ok "") 3 (1 / 2) (by decide) (by norm_num) (by norm_num)
      double_half).2.2.2.1⟩

/-- C6: whatever the outcomes of the attempts (HTTP failures and transport failures in any
order, or anything else) and whatever the jitter, a call of any wrapper ends, by returning
or by throwing, after at most 5 requests and at most 5 sleeps: the single counter
`attempt` bounds the loop for both kinds of failure. -/
theorem calls_end_within_five_requests (atob : String → Except JsError String)
    (prompt : String) (responseSchema : Option Schema)
    (aspectRatio text voiceName base64ImageData mimeType : String)
    (env : Nat → Outcome) (random : Nat → ℚ) :
    (∃ run, ApiService.callGemini prompt responseSchema env random = some run ∧
      requestCount run.events ≤ 5 ∧ (sleeps run.events).length ≤ 5)
    ∧ (∃ run, ApiService.callImagen prompt aspectRatio env random = some run ∧
      requestCount run.events ≤ 5 ∧ (sleeps run.events).length ≤ 5)
    ∧ (∃ run, ApiService.callGeminiTTS atob text voiceName env random = some run ∧
      requestCount run.events ≤ 5 ∧ (sleeps run.events).length ≤ 5)
    ∧ (∃ run, ApiService.callGeminiVision prompt base64ImageData mimeType env random
        = some run ∧
      requestCount run.events ≤ 5 ∧ (sleeps run.events).length ≤ 5)
    ∧ (∃ run, callGemini prompt responseSchema env random = some run ∧
      requestCount run.events ≤ 5 ∧ (sleeps run.events).length ≤ 5) :=
  ⟨retryLoop_terminates _ _ _ _ env random _ 0 (by decide),
    retryLoop_terminates _ _ _ _ env random _ 0 (by decide),
    retryLoop_terminates _ _ _ _ env random _ 0 (by decide),
    retryLoop_terminates _ _ _ _ env random _ 0 (by decide),
    retryLoop_terminates _ _ _ _ env random _ 0 (by decide)⟩

/-- C7 (counterexample): the `catch` block does not retry exactly the transport failures.
A rejection of `fetch` with the message "Load failed" is a transport failure, yet
`ApiService.callGemini` rethrows it at once, without sleeping, although a 200 with the
text "hello" would have followed; and the error thrown for a 403 whose body reports
"NetworkError: upstream unreachable" is not a transport failure, yet both copies of
`callGemini` sleep, issue a second request and return "hello". -/
theorem catch_block_classifies_by_message_only :
    ApiService.callGemini "p" none
        (fun i => if i = 0 then .fetchRejects ⟨"TypeError", "Load failed"⟩
          else .response (textResponse "hello" (some "STOP"))) (fun _ => 0)
      = some ⟨.error ⟨"TypeError", "Load failed"⟩,
          [.request geminiUrl (geminiPayload "p" none)]⟩
    ∧ ApiService.callGemini "p" none
        (fun i => if i = 0 then errorResponse 403 "NetworkError: upstream unreachable"
          else .response (textResponse "hello" (some "STOP"))) (fun _ => 0)
      = some (runEndingAt String (.request geminiUrl (geminiPayload "p" none)) (fun _ => 0) 1
          (.ok "hello"))
    ∧ callGemini "p" none
        (fun i => if i = 0 then errorResponse 403 "NetworkError: upstream unreachable"
          else .response (textResponse "hello" (some "STOP"))) (fun _ => 0)
      = some (runEndingAt String (.request geminiUrl (geminiPayload "p" none)) (fun _ => 0) 1
          (.ok "hello"))
    ∧ requestCount (runEndingAt String (.request geminiUrl (geminiPayload "p" none))
        (fun _ => 0) 1 (.ok "hello")).events = 2 :=
  ⟨rfl, rfl, rfl, rfl⟩

/-- C7 (amended): let attempt number `k ≤ 4` follow `k` retryable outcomes, in either copy of
`callGemini`.  A rejection of `fetch` whose message contains "Failed to fetch" or
"NetworkError" is followed by a sleep of `2^k * 1000` ms plus jitter and by the rest of
the loop run with the counter at `k + 1`.  An exception raised during the attempt whose
message contains neither string (a rejection of `fetch` with another message, or an
error thrown by the `try` block for a terminal client error, blocked content or a
malformed response) reaches the caller unchanged: the request of that attempt is the last
event, with no sleep and no further request. -/
theorem exceptions_classified_by_message (prompt : String) (responseSchema : Option Schema)
    (env : Nat → Outcome) (random : Nat → ℚ) (k : Nat) (error : JsError)
    (hk : k ≤ 4) (hfail : ∀ i, i < k → (env i).retryable = true) :
    (env k = .fetchRejects error → isNetworkError error = true →
      ApiService.callGemini prompt responseSchema env random
        = (retryLoop (.request geminiUrl (geminiPayload prompt responseSchema))
            ApiService.callGeminiTry "Max retries reached for Gemini API call." env random
            (maxRetries - k) (k + 1)).map
          (fun run => ⟨run.result,
            backoffEvents (.request geminiUrl (geminiPayload prompt responseSchema))
              (fun a => backoffDelay a (random a)) 0 (k + 1) ++ run.events⟩)
      ∧ callGemini prompt responseSchema env random
        = (retryLoop (.request geminiUrl (geminiPayload prompt responseSchema))
            callGeminiTry "Max retries reached for Gemini API call." env random
            (maxRetries - k) (k + 1)).map
          (fun run => ⟨run.result,
            backoffEvents (.request geminiUrl (geminiPayload prompt responseSchema))
              (fun a => backoffDelay a (random a)) 0 (k + 1) ++ run.events⟩))
    ∧ (isNetworkError error = false →
        ApiService.callGeminiTry k (env k) (random k) = .thrown error →
        ApiService.callGemini prompt responseSchema env random
          = some (runEndingAt String (.request geminiUrl (geminiPayload prompt responseSchema))
              random k (.error error)))
    ∧ (isNetworkError error = false →
        callGeminiTry k (env k) (random k) = .thrown error →
        callGemini prompt responseSchema env random
          = some (runEndingAt String (.request geminiUrl (geminiPayload prompt responseSchema))
              random k (.error error))) := by
  have hlt : k < maxRetries := by simp only [maxRetries]; omega
  have hA := fun i (hi : i < k) =>
    ApiService.callGeminiTry_retryable i (env i) (random i) (by omega) (hfail i hi)
  have hM := fun i (hi : i < k) =>
    mainJs_callGeminiTry_retryable i (env i) (random i) (by omega) (hfail i hi)
  refine ⟨fun hfetch hnet => ⟨?_, ?_⟩, fun hnet hthrow => ?_, fun hnet hthrow => ?_⟩
  · exact retryLoop_backoffs_then_backoff _ _ _ env random _ k hlt hA
      (ApiService.callGeminiTry_retryable k (env k) (random k) hlt
        (by rw [hfetch]; exact hnet))
  · exact retryLoop_backoffs_then_backoff _ _ _ env random _ k hlt hM
      (mainJs_callGeminiTry_retryable k (env k) (random k) hlt (by rw [hfetch]; exact hnet))
  · exact retryLoop_backoffs_then_thrown _ _ _ env random _ k _ hlt hA
      (iteration_thrown_other _ _ _ _ _ hthrow hnet)
  · exact retryLoop_backoffs_then_thrown _ _ _ env random _ k _ hlt hM
      (iteration_thrown_other _ _ _ _ _ hthrow hnet)

/-- Witness of C7 (amended): a rejection of `fetch` with the message "Load failed" reaches the
caller unchanged after one request. -/
theorem exceptions_classified_by_message_witness :
    isNetworkError ⟨"TypeError", "Load failed"⟩ = false ∧
    callGemini "p" none (fun _ => .fetchRejects ⟨"TypeError", "Load failed"⟩) (fun _ => 0)
      = some (runEndingAt String (.request geminiUrl (geminiPayload "p" none)) (fun _ => 0) 0
          (.error ⟨"TypeError", "Load failed"⟩)) :=
  ⟨by decide,
    (exceptions_classified_by_message "p" none
      (fun _ => .fetchRejects ⟨"TypeError", "Load failed"⟩)
      (fun _ => 0) 0 ⟨"TypeError", "Load failed"⟩ (by decide) (by intro i hi; omega)).2.2
      (by decide) rfl⟩

/-- C8 (counterexample): a 200 response whose first candidate has finish reason `MAX_TOKENS`
and no text makes both copies of `callGemini` fail with
"Content generation stopped unexpectedly. Reason: MAX_TOKENS.". -/
theorem callGemini_fails_on_MAX_TOKENS_without_text :
    ApiService.callGemini "p" none
        (fun _ => jsonResponse 200
          { candidates := some [some { finishReason := some "MAX_TOKENS" }] })
        (fun _ => 0)
      = some ⟨.error (mkError "Content generation stopped unexpectedly. Reason: MAX_TOKENS."),
          [.request geminiUrl (geminiPayload "p" none)]⟩
    ∧ callGemini "p" none
        (fun _ => jsonResponse 200
          { candidates := some [some { finishReason := some "MAX_TOKENS" }] })
        (fun _ => 0)
      = some ⟨.error (mkError "Content generation stopped unexpectedly. Reason: MAX_TOKENS."),
          [.request geminiUrl (geminiPayload "p" none)]⟩ :=
  ⟨rfl, rfl⟩

/-- C8 (amended): when a 2xx response whose first candidate has finish reason `MAX_TOKENS`
and a non-empty text in its first part arrives (after `k ≤ 4` retryable outcomes), both
copies of `callGemini` do not fail: they return that text followed by the truncation
notice "\n\n[WARNING: The generated content was too long and has been cut short.]". -/
theorem callGemini_returns_truncated_text (prompt : String) (responseSchema : Option Schema)
    (env : Nat → Outcome) (random : Nat → ℚ) (k : Nat) (response : Response)
    (candidate : Candidate) (text : String)
    (hk : k ≤ 4) (hfail : ∀ i, i < k → (env i).retryable = true)
    (hresp : env k = .response response) (htext : response.hasText candidate text)
    (hmax : candidate.finishReason = some "MAX_TOKENS") :
    ApiService.callGemini prompt responseSchema env random
      = some (runEndingAt String (.request geminiUrl (geminiPayload prompt responseSchema))
          random k
          (.ok (text ++ "\n\n[WARNING: The generated content was too long and has been cut short.]")))
    ∧ callGemini prompt responseSchema env random
      = some (runEndingAt String (.request geminiUrl (geminiPayload prompt responseSchema))
          random k
          (.ok (text ++ "\n\n[WARNING: The generated content was too long and has been cut short.]"))) := by
  have hlt : k < maxRetries := by simp only [maxRetries]; omega
  constructor
  · refine retryLoop_backoffs_then_returned _ _ _ env random _ k _ hlt
      (fun i hi => ApiService.callGeminiTry_retryable i (env i) (random i)
        (by omega) (hfail i hi)) ?_
    rw [hresp, ApiService.callGeminiTry_hasText k response candidate text _ htext, if_pos hmax]
    rfl
  · refine retryLoop_backoffs_then_returned _ _ _ env random _ k _ hlt
      (fun i hi => mainJs_callGeminiTry_retryable i (env i) (random i) (by omega) (hfail i hi)) ?_
    rw [hresp, mainJs_callGeminiTry_hasText k response candidate text _ htext, if_pos hmax]
    rfl

/-- Witness of C8 (amended): a truncated text "Once upon". -/
theorem callGemini_returns_truncated_text_witness :
    (textResponse "Once upon" (some "MAX_TOKENS")).hasText
        (textCandidate "Once upon" (some "MAX_TOKENS")) "Once upon" ∧
    ApiService.callGemini "p" none
        (fun _ => .response (textResponse "Once upon" (some "MAX_TOKENS"))) (fun _ => 0)
      = some (runEndingAt String (.request geminiUrl (geminiPayload "p" none)) (fun _ => 0) 0
          (.ok ("Once upon"
            ++ "\n\n[WARNING: The generated content was too long and has been cut short.]"))) :=
  ⟨⟨rfl, ⟨_, _, rfl, rfl⟩, rfl, by decide⟩,
    (callGemini_returns_truncated_text "p" none
      (fun _ => .response (textResponse "Once upon" (some "MAX_TOKENS"))) (fun _ => 0) 0
      (textResponse "Once upon" (some "MAX_TOKENS"))
      (textCandidate "Once upon" (some "MAX_TOKENS")) "Once upon"
      (by decide) (by intro i hi; omega) rfl ⟨rfl, ⟨_, _, rfl, rfl⟩, rfl, by decide⟩ rfl).1⟩

/-- C9 (counterexample): a 200 response with `promptFeedback.blockReason` set to "SAFETY" and
a candidate carrying the text "hi" does not make `ApiService.callGemini` fail: the block
reason is read only when there are no candidates, and the call returns "hi". -/
theorem callGemini_ignores_blockReason_with_candidates :
    ApiService.callGemini "p" none
        (fun _ => jsonResponse 200
          { candidates := some [textCandidate "hi" (some "STOP")],
            promptFeedback := some { blockReason := some "SAFETY" } })
        (fun _ => 0)
      = some ⟨.ok "hi", [.request geminiUrl (geminiPayload "p" none)]⟩ :=
  rfl

/-- C9 (amended): when a 2xx response with no candidates and a non-empty
`promptFeedback.blockReason` that contains neither "Failed to fetch" nor "NetworkError"
arrives (after `k ≤ 4` retryable outcomes), both copies of `callGemini` fail at that attempt
with the error "Content generation blocked. Reason: <blockReason>.": the request of that
attempt is the last event of the call (no sleep and no request after it), and the error
is not the "Max retries reached" error. -/
theorem callGemini_content_blocked (prompt : String) (responseSchema : Option Schema)
    (env : Nat → Outcome) (random : Nat → ℚ) (k : Nat) (response : Response)
    (blockReason : String)
    (hk : k ≤ 4) (hfail : ∀ i, i < k → (env i).retryable = true)
    (hresp : env k = .response response) (hblocked : response.isBlocked blockReason)
    (hwords : isNetworkError (mkError blockReason) = false) :
    ApiService.callGemini prompt responseSchema env random
      = some ⟨.error (mkError ("Content generation blocked. Reason: " ++ blockReason ++ ".")),
          backoffEvents (.request geminiUrl (geminiPayload prompt responseSchema))
            (fun a => backoffDelay a (random a)) 0 k
            ++ [.request geminiUrl (geminiPayload prompt responseSchema)]⟩
    ∧ callGemini prompt responseSchema env random
      = some ⟨.error (mkError ("Content generation blocked. Reason: " ++ blockReason ++ ".")),
          backoffEvents (.request geminiUrl (geminiPayload prompt responseSchema))
            (fun a => backoffDelay a (random a)) 0 k
            ++ [.request geminiUrl (geminiPayload prompt responseSchema)]⟩
    ∧ mkError ("Content generation blocked. Reason: " ++ blockReason ++ ".")
      ≠ mkError "Max retries reached for Gemini API call." := by
  have hlt : k < maxRetries := by simp only [maxRetries]; omega
  refine ⟨?_, ?_, ?_⟩
  · refine retryLoop_backoffs_then_thrown _ _ _ env random _ k _ hlt
      (fun i hi => ApiService.callGeminiTry_retryable i (env i) (random i)
        (by omega) (hfail i hi)) ?_
    rw [hresp]
    exact ApiService.callGeminiTry_blocked k response blockReason _ hblocked hwords
  · refine retryLoop_backoffs_then_thrown _ _ _ env random _ k _ hlt
      (fun i hi => mainJs_callGeminiTry_retryable i (env i) (random i) (by omega) (hfail i hi)) ?_
    rw [hresp]
    exact mainJs_callGeminiTry_blocked k response blockReason _ hblocked hwords
  · exact blocked_message_ne blockReason _ (by decide)

/-- Witness of C9 (amended): no candidates and the block reason "SAFETY". -/
theorem callGemini_content_blocked_witness :
    isNetworkError (mkError "SAFETY") = false ∧
    ApiService.callGemini "p" none
        (fun _ => jsonResponse 200 { promptFeedback := some { blockReason := some "SAFETY" } })
        (fun _ => 0)
      = some ⟨.error (mkError ("Content generation blocked. Reason: " ++ "SAFETY" ++ ".")),
          backoffEvents (.request geminiUrl (geminiPayload "p" none))
            (fun a => backoffDelay a ((fun _ => (0 : ℚ)) a)) 0 0
            ++ [.request geminiUrl (geminiPayload "p" none)]⟩ :=
  ⟨by decide,
    (callGemini_content_blocked "p" none
      (fun _ => jsonResponse 200 { promptFeedback := some { blockReason := some "SAFETY" } })
      (fun _ => 0) 0
      ⟨200, .ok { promptFeedback := some { blockReason := some "SAFETY" } }, .error bodyUsed⟩
      "SAFETY" (by decide) (by intro i hi; omega) rfl
      ⟨_, ⟨rfl, rfl, Or.inl rfl⟩, rfl, by decide⟩ (by decide)).1⟩

/-- C10 (counterexample): `ApiService.callGeminiVision` ends in the same way, with the same
error, on a 200 response blocked by moderation (no candidates, block reason "SAFETY") and
on a 200 response that is merely empty: the error does not tell the two conditions
apart. -/
theorem callGeminiVision_same_error_blocked_or_malformed :
    ApiService.callGeminiVision "p" "" "image/png"
        (fun _ => jsonResponse 200 { promptFeedback := some { blockReason := some "SAFETY" } })
        (fun _ => 0)
      = some ⟨.error (mkError "Error: An unknown issue occurred with the Vision API response."),
          [.request geminiUrl (.vision "p" "image/png" ""
            { temperature := 4 / 10, topK := 32, topP := 1, maxOutputTokens := 4096 })]⟩
    ∧ ApiService.callGeminiVision "p" "" "image/png" (fun _ => jsonResponse 200 {}) (fun _ => 0)
      = some ⟨.error (mkError "Error: An unknown issue occurred with the Vision API response."),
          [.request geminiUrl (.vision "p" "image/png" ""
            { temperature := 4 / 10, topK := 32, topP := 1, maxOutputTokens := 4096 })]⟩ :=
  ⟨rfl, rfl⟩

/-- C10 (amended): let the first response of one call be blocked by moderation (2xx, no
candidates, a non-empty block reason that contains neither "Failed to fetch" nor
"NetworkError") and the first response of another call be merely malformed (2xx, no
candidates, no block reason), both without predictions.  Only `ApiService.callGemini`
tells the two apart: it fails with "Content generation blocked. Reason: <blockReason>."
on the first and with "Error: API returned no candidates." on the second, two different
errors.  `callImagen`, `callGeminiTTS` and `callGeminiVision` each fail with one fixed
error on both. -/
theorem blocked_and_malformed_errors (atob : String → Except JsError String) (prompt : String)
    (responseSchema : Option Schema)
    (aspectRatio text voiceName base64ImageData mimeType : String)
    (envBlocked envMalformed : Nat → Outcome) (random : Nat → ℚ)
    (blocked malformed : Response) (blockReason : String)
    (hb0 : envBlocked 0 = .response blocked) (hm0 : envMalformed 0 = .response malformed)
    (hblocked : blocked.isBlocked blockReason)
    (hwords : isNetworkError (mkError blockReason) = false)
    (hmalformed : malformed.isMalformed)
    (hpb : blocked.hasNoPredictions) (hpm : malformed.hasNoPredictions) :
    (ApiService.callGemini prompt responseSchema envBlocked random
        = some (runEndingAt String (.request geminiUrl (geminiPayload prompt responseSchema))
            random 0
            (.error (mkError ("Content generation blocked. Reason: " ++ blockReason ++ "."))))
      ∧ ApiService.callGemini prompt responseSchema envMalformed random
        = some (runEndingAt String (.request geminiUrl (geminiPayload prompt responseSchema))
            random 0 (.error (mkError "Error: API returned no candidates.")))
      ∧ mkError ("Content generation blocked. Reason: " ++ blockReason ++ ".")
        ≠ mkError "Error: API returned no candidates.")
    ∧ (ApiService.callImagen prompt aspectRatio envBlocked random
        = some (runEndingAt String (.request imagenUrl (.predict prompt 1 aspectRatio)) random 0
            (.error (mkError
              "Unexpected response from Imagen API or content filter triggered.")))
      ∧ ApiService.callImagen prompt aspectRatio envMalformed random
        = some (runEndingAt String (.request imagenUrl (.predict prompt 1 aspectRatio)) random 0
            (.error (mkError
              "Unexpected response from Imagen API or content filter triggered."))))
    ∧ (ApiService.callGeminiTTS atob text voiceName envBlocked random
        = some (runEndingAt (List Nat)
            (.request ttsUrl (.speech text voiceName "gemini-2.5-flash-preview-tts")) random 0
            (.error (mkError "Invalid audio data from TTS API.")))
      ∧ ApiService.callGeminiTTS atob text voiceName envMalformed random
        = some (runEndingAt (List Nat)
            (.request ttsUrl (.speech text voiceName "gemini-2.5-flash-preview-tts")) random 0
            (.error (mkError "Invalid audio data from TTS API."))))
    ∧ (ApiService.callGeminiVision prompt base64ImageData mimeType envBlocked random
        = some (runEndingAt String
            (.request geminiUrl (.vision prompt mimeType base64ImageData
              { temperature := 4 / 10, topK := 32, topP := 1, maxOutputTokens := 4096 }))
            random 0
            (.error (mkError "Error: An unknown issue occurred with the Vision API response.")))
      ∧ ApiService.callGeminiVision prompt base64ImageData mimeType envMalformed random
        = some (runEndingAt String
            (.request geminiUrl (.vision prompt mimeType base64ImageData
              { temperature := 4 / 10, topK := 32, topP := 1, maxOutputTokens := 4096 }))
            random 0
            (.error
              (mkError "Error: An unknown issue occurred with the Vision API response.")))) := by
  have hlt : 0 < maxRetries := by decide
  obtain ⟨rb, hrb, hbr, hne⟩ := hblocked
  obtain ⟨rm, hrm, hmr⟩ := hmalformed
  refine ⟨⟨?_, ?_, ?_⟩, ⟨?_, ?_⟩, ⟨?_, ?_⟩, ⟨?_, ?_⟩⟩
  · refine retryLoop_backoffs_then_thrown _ _ _ envBlocked random _ 0 _ hlt
      (fun i hi => absurd hi (Nat.not_lt_zero i)) ?_
    rw [hb0]
    exact ApiService.callGeminiTry_blocked 0 blocked blockReason _ ⟨rb, hrb, hbr, hne⟩ hwords
  · refine retryLoop_backoffs_then_thrown _ _ _ envMalformed random _ 0 _ hlt
      (fun i hi => absurd hi (Nat.not_lt_zero i)) ?_
    rw [hm0]
    exact ApiService.callGeminiTry_malformed 0 malformed _ ⟨rm, hrm, hmr⟩
  · exact blocked_message_ne blockReason _ (by decide)
  · refine retryLoop_backoffs_then_thrown _ _ _ envBlocked random _ 0 _ hlt
      (fun i hi => absurd hi (Nat.not_lt_zero i)) ?_
    rw [hb0]
    exact ApiService.callImagenTry_noPredictions 0 blocked _ hpb
  · refine retryLoop_backoffs_then_thrown _ _ _ envMalformed random _ 0 _ hlt
      (fun i hi => absurd hi (Nat.not_lt_zero i)) ?_
    rw [hm0]
    exact ApiService.callImagenTry_noPredictions 0 malformed _ hpm
  · refine retryLoop_backoffs_then_thrown _ _ _ envBlocked random _ 0 _ hlt
      (fun i hi => absurd hi (Nat.not_lt_zero i)) ?_
    rw [hb0]
    exact ApiService.callGeminiTTSTry_noCandidates atob 0 blocked rb _ hrb
  · refine retryLoop_backoffs_then_thrown _ _ _ envMalformed random _ 0 _ hlt
      (fun i hi => absurd hi (Nat.not_lt_zero i)) ?_
    rw [hm0]
    exact ApiService.callGeminiTTSTry_noCandidates atob 0 malformed rm _ hrm
  · refine retryLoop_backoffs_then_thrown _ _ _ envBlocked random _ 0 _ hlt
      (fun i hi => absurd hi (Nat.not_lt_zero i)) ?_
    rw [hb0]
    exact ApiService.callGeminiVisionTry_noCandidates 0 blocked rb _ hrb
  · refine retryLoop_backoffs_then_thrown _ _ _ envMalformed random _ 0 _ hlt
      (fun i hi => absurd hi (Nat.not_lt_zero i)) ?_
    rw [hm0]
    exact ApiService.callGeminiVisionTry_noCandidates 0 malformed rm _ hrm

/-- Witness of C10 (amended): a response blocked for "SAFETY" and an empty response. -/
theorem blocked_and_malformed_errors_witness :
    (Response.mk 200 (.ok { promptFeedback := some { blockReason := some "SAFETY" } })
        (.error bodyUsed)).isBlocked "SAFETY" ∧
    (Response.mk 200 (.ok {}) (.error bodyUsed)).isMalformed ∧
    ApiService.callGemini "p" none
        (fun _ => jsonResponse 200 { promptFeedback := some { blockReason := some "SAFETY" } })
        (fun _ => 0)
      = some (runEndingAt String (.request geminiUrl (geminiPayload "p" none)) (fun _ => 0) 0
          (.error (mkError ("Content generation blocked. Reason: " ++ "SAFETY" ++ ".")))) :=
  ⟨⟨_, ⟨rfl, rfl, Or.inl rfl⟩, rfl, by decide⟩, ⟨_, ⟨rfl, rfl, Or.inl rfl⟩, rfl⟩,
    (blocked_and_malformed_errors (fun _ => .ok "") "p" none "1:1" "t" "Kore" "" "image/png"
      (fun _ => jsonResponse 200 { promptFeedback := some { blockReason := some "SAFETY" } })
      (fun _ => jsonResponse 200 {}) (fun _ => 0)
      ⟨200, .ok { promptFeedback := some { blockReason := some "SAFETY" } }, .error bodyUsed⟩
      ⟨200, .ok {}, .error bodyUsed⟩ "SAFETY" rfl rfl
      ⟨_, ⟨rfl, rfl, Or.inl rfl⟩, rfl, by decide⟩ (by decide)
      ⟨_, ⟨rfl, rfl, Or.inl rfl⟩, rfl⟩
      ⟨rfl, _, rfl, Or.inl rfl⟩ ⟨rfl, _, rfl, Or.inl rfl⟩).1.1⟩

/-- C13: for `N` samples and a sample rate `R` with `R < 2^31` and `36 + 2N < 2^32`,
`pcmToWav` yields exactly `44 + 2N` bytes that begin with the header `RIFF`, uint32le
`36 + 2N`, `WAVE`, `fmt `, uint32le 16, uint16le 1 (PCM), uint16le 1 (mono), uint32le `R`,
uint32le `2R`, uint16le 2, uint16le 16, `data`, uint32le `2N`; the RIFF size is the file
length minus 8 and the data size is the file length minus 44. -/
theorem pcmToWav_header (pcmData : List Int) (sampleRate : Nat)
    (hR : sampleRate < 2 ^ 31) (hN : 36 + 2 * pcmData.length < 2 ^ 32) :
    ∃ wav, pcmToWav pcmData sampleRate = .ok wav
      ∧ wav.length = 44 + 2 * pcmData.length
      ∧ wav.take 4 = "RIFF".toList.map Char.toNat
      ∧ getUint32 wav 4 = 36 + 2 * pcmData.length
      ∧ (wav.drop 8).take 4 = "WAVE".toList.map Char.toNat
      ∧ (wav.drop 12).take 4 = "fmt ".toList.map Char.toNat
      ∧ getUint32 wav 16 = 16
      ∧ getUint16 wav 20 = 1
      ∧ getUint16 wav 22 = 1
      ∧ getUint32 wav 24 = sampleRate
      ∧ getUint32 wav 28 = 2 * sampleRate
      ∧ getUint16 wav 32 = 2
      ∧ getUint16 wav 34 = 16
      ∧ (wav.drop 36).take 4 = "data".toList.map Char.toNat
      ∧ getUint32 wav 40 = 2 * pcmData.length
      ∧ getUint32 wav 4 = wav.length - 8
      ∧ getUint32 wav 40 = wav.length - 44 := by
  refine ⟨_, pcmToWav_eq pcmData sampleRate, ?_⟩
  have hlen : (wavHeader pcmData.length sampleRate ++ pcmData.flatMap int16le).length
      = 44 + 2 * pcmData.length := by
    rw [List.length_append, wavHeader_length, sampleBytes_length]; omega
  have hR' : sampleRate < 2147483648 := by simpa using hR
  have hN' : 36 + 2 * pcmData.length < 4294967296 := by simpa using hN
  have h4 : getUint32 (wavHeader pcmData.length sampleRate ++ pcmData.flatMap int16le) 4
      = 36 + 2 * pcmData.length := by
    simp [wavHeader, asciiBytes, uint32le, uint16le, getUint32]; omega
  have h40 : getUint32 (wavHeader pcmData.length sampleRate ++ pcmData.flatMap int16le) 40
      = 2 * pcmData.length := by
    simp [wavHeader, asciiBytes, uint32le, uint16le, getUint32]; omega
  refine ⟨hlen, ?_, h4, ?_, ?_, ?_, ?_, ?_, ?_, ?_, ?_, ?_, ?_, h40, ?_, ?_⟩
  · rfl
  · rfl
  · rfl
  · simp [wavHeader, asciiBytes, uint32le, uint16le, getUint32]
  · simp [wavHeader, asciiBytes, uint32le, uint16le, getUint16]
  · simp [wavHeader, asciiBytes, uint32le, uint16le, getUint16]
  · simp [wavHeader, asciiBytes, uint32le, uint16le, getUint32]; omega
  · simp [wavHeader, asciiBytes, uint32le, uint16le, getUint32]; omega
  · simp [wavHeader, asciiBytes, uint32le, uint16le, getUint16]
  · simp [wavHeader, asciiBytes, uint32le, uint16le, getUint16]
  · rfl
  · rw [h4, hlen]; omega
  · rw [h40, hlen]; omega

/-- Witness of C13: two samples at 24000 Hz. -/
theorem pcmToWav_header_witness :
    ((24000 : Nat) < 2 ^ 31 ∧ 36 + 2 * [(1 : Int), -2].length < 2 ^ 32) ∧
    ∃ wav, pcmToWav [1, -2] 24000 = .ok wav ∧ wav.length = 48 ∧ getUint32 wav 4 = 40
      ∧ getUint32 wav 24 = 24000 ∧ getUint32 wav 28 = 48000 ∧ getUint32 wav 40 = 4 := by
  refine ⟨by decide, ?_⟩
  obtain ⟨wav, h, hlen, _, h4, _, _, _, _, _, h24, h28, _, _, _, h40, _⟩ :=
    pcmToWav_header [1, -2] 24000 (by decide) (by decide)
  exact ⟨wav, h, hlen, h4, h24, h28, h40⟩

/-- C14: for every sequence of signed 16-bit samples and every sample rate, reading a
little-endian signed 16-bit value at byte offset `44 + 2i` of the output of `pcmToWav`
gives back sample `i`, for each `i` below the number of samples. -/
theorem pcmToWav_samples_roundtrip (pcmData : List Int) (sampleRate : Nat)
    (hs : ∀ s ∈ pcmData, -32768 ≤ s ∧ s < 32768) :
    ∃ wav, pcmToWav pcmData sampleRate = .ok wav ∧
      ∀ (i : Nat) (h : i < pcmData.length), getInt16 wav (44 + 2 * i) = pcmData[i] :=
  ⟨_, pcmToWav_eq pcmData sampleRate, fun i h =>
    getInt16_wav pcmData sampleRate i h (hs _ (List.getElem_mem h))⟩

/-- Witness of C14: the four samples 1, -2, 32767, -32768 at 8000 Hz. -/
theorem pcmToWav_samples_roundtrip_witness :
    (∀ s ∈ [(1 : Int), -2, 32767, -32768], -32768 ≤ s ∧ s < 32768) ∧
    ∃ wav, pcmToWav [1, -2, 32767, -32768] 8000 = .ok wav ∧
      ∀ (i : Nat) (h : i < [(1 : Int), -2, 32767, -32768].length),
        getInt16 wav (44 + 2 * i) = [(1 : Int), -2, 32767, -32768][i] :=
  ⟨by decide, pcmToWav_samples_roundtrip [1, -2, 32767, -32768] 8000 (by decide)⟩

/-- C15 (counterexample): at the sample rate `2^31`, which fits the 32-bit sample-rate field,
the byte-rate field wraps to 0, so byteRate / blockAlign is 0 and not the rate. -/
theorem pcmToWav_byteRate_wraps :
    ∃ wav, pcmToWav [] 2147483648 = .ok wav ∧ getUint32 wav 24 = 2147483648
      ∧ getUint32 wav 28 / getUint16 wav 32 = 0 :=
  ⟨_, pcmToWav_eq [] 2147483648, by decide, by decide⟩

/-- C15 (amended): for `N` in {0, 1, 44100} and every sample rate `R < 2^31`, reading back the
header of `pcmToWav` recovers the inputs: byteRate / blockAlign is `R` and
dataLength / blockAlign is `N`. -/
theorem pcmToWav_header_roundtrip (pcmData : List Int) (sampleRate : Nat)
    (hN : pcmData.length = 0 ∨ pcmData.length = 1 ∨ pcmData.length = 44100)
    (hR : sampleRate < 2 ^ 31) :
    ∃ wav, pcmToWav pcmData sampleRate = .ok wav
      ∧ getUint32 wav 28 / getUint16 wav 32 = sampleRate
      ∧ getUint32 wav 40 / getUint16 wav 32 = pcmData.length := by
  refine ⟨_, pcmToWav_eq pcmData sampleRate, ?_, ?_⟩
  · have hR' : sampleRate < 2147483648 := by simpa using hR
    simp [wavHeader, asciiBytes, uint32le, uint16le, getUint32, getUint16]
    omega
  · simp [wavHeader, asciiBytes, uint32le, uint16le, getUint32, getUint16]
    omega

/-- Witness of C15 (amended): one sample at 24000 Hz. -/
theorem pcmToWav_header_roundtrip_witness :
    ([(7 : Int)].length = 1 ∧ (24000 : Nat) < 2 ^ 31) ∧
    ∃ wav, pcmToWav [7] 24000 = .ok wav
      ∧ getUint32 wav 28 / getUint16 wav 32 = 24000
      ∧ getUint32 wav 40 / getUint16 wav 32 = [(7 : Int)].length :=
  ⟨by decide, pcmToWav_header_roundtrip [7] 24000 (Or.inr (Or.inl rfl)) (by decide)⟩

/-- C16: `pcmToWav` is total: for every sample sequence of length `N` and every sample rate
it returns; none of its `DataView` writes fails (a write outside the buffer would make the
setter, and with it `pcmToWav`, throw), the buffer keeps its `44 + 2N` bytes, and the write
offset ends at exactly `44 + 2N`. -/
theorem pcmToWav_total (pcmData : List Int) (sampleRate : Nat) :
    (∃ w, pcmToWavWriter pcmData sampleRate = .ok w
      ∧ w.offset = 44 + 2 * pcmData.length
      ∧ w.buffer.length = 44 + 2 * pcmData.length
      ∧ pcmToWav pcmData sampleRate = .ok w.buffer)
    ∧ (∀ (buffer b : List Nat) (byteOffset value : Nat),
        (setUint8 buffer byteOffset value = .ok b → byteOffset + 1 ≤ buffer.length)
        ∧ (setUint16 buffer byteOffset value = .ok b → byteOffset + 2 ≤ buffer.length)
        ∧ (setUint32 buffer byteOffset value = .ok b → byteOffset + 4 ≤ buffer.length)
        ∧ (∀ sample, setInt16 buffer byteOffset sample = .ok b →
            byteOffset + 2 ≤ buffer.length)) := by
  have hlen : (wavHeader pcmData.length sampleRate ++ pcmData.flatMap int16le).length
      = 44 + 2 * pcmData.length := by
    rw [List.length_append, wavHeader_length, sampleBytes_length]; omega
  refine ⟨⟨_, pcmToWavWriter_eq pcmData sampleRate, ?_, ?_, ?_⟩, ?_⟩
  · simp only [Writer.after, hlen]
  · simp only [Writer.after, List.length_append, List.length_replicate, hlen]; omega
  · rw [pcmToWav, pcmToWavWriter_eq]; rfl
  · intro buffer b byteOffset value
    obtain ⟨h8, h16, h32⟩ := setters_in_bounds buffer byteOffset value b
    refine ⟨fun h => (h8 h).1, fun h => (h16 h).1, fun h => (h32 h).1, fun sample h => ?_⟩
    exact ((setters_in_bounds buffer byteOffset (sample % 65536).toNat b).2.1 h).1

/-- C17: in the speech path of `ApiService.callGeminiTTS`, when the decoded audio `b` has an
even number of bytes, the WAV is produced and its bytes from offset 44 to the end are
exactly `b`: viewing `b` as little-endian 16-bit samples and encoding them again leaves
the raw bytes unchanged. -/
theorem ttsWav_passes_sample_bytes_through (atob : String → Except JsError String)
    (audioData mimeType : String) (b : List Nat)
    (hb : base64ToArrayBuffer atob audioData = .ok b) (heven : b.length % 2 = 0) :
    ∃ wav, ApiService.ttsWav atob audioData mimeType = .ok wav ∧ wav.drop 44 = b
      ∧ wav.length = 44 + b.length := by
  have hbytes := base64ToArrayBuffer_bytes atob audioData b hb
  have hsamples : (int16Samples b).flatMap int16le = b :=
    sampleBytes_int16Samples (b.length / 2) b (by omega) hbytes
  refine ⟨wavHeader (int16Samples b).length
      (parseInt ((matchRate mimeType.toList).getD "24000".toList)) ++ b, ?_, ?_, ?_⟩
  · simp only [ApiService.ttsWav, hb, int16Array, heven, bind, Except.bind, if_true]
    rw [pcmToWav_eq, hsamples]
  · have := List.drop_left (wavHeader (int16Samples b).length
      (parseInt ((matchRate mimeType.toList).getD "24000".toList))) b
    rwa [wavHeader_length] at this
  · rw [List.length_append, wavHeader_length]

/-- Witness of C17: the four decoded bytes "ABCD". -/
theorem ttsWav_passes_sample_bytes_through_witness :
    ([65, 66, 67, 68].length % 2 = 0) ∧
    ∃ wav, ApiService.ttsWav (fun s => .ok s) "ABCD" "audio/L16;rate=24000" = .ok wav
      ∧ wav.drop 44 = [65, 66, 67, 68] ∧ wav.length = 44 + [65, 66, 67, 68].length :=
  ⟨by decide, ttsWav_passes_sample_bytes_through (fun s => .ok s) "ABCD"
    "audio/L16;rate=24000" [65, 66, 67, 68] rfl (by decide)⟩

/-- C18 (counterexample): the MIME type "audio/L16;rate=99999999999999999999", whose rate
parameter has twenty digits.  `parseInt` gives the nearest double, 10^20, and not the decimal
value of the digits: the WAV header written by `ApiService.callGeminiTTS` carries the rate
bytes 0, 0, 16, 99 of 10^20 (those of the decimal value are 255, 255, 15, 99). -/
theorem ttsWav_rounds_a_long_rate :
    rateParameterAt "audio/L16;rate=99999999999999999999".toList 10 = true
    ∧ (∀ j, j < 10 → rateAt "audio/L16;rate=99999999999999999999".toList j = false)
    ∧ decimalValue (rateDigits "audio/L16;rate=99999999999999999999".toList 10)
      = 99999999999999999999
    ∧ ApiService.ttsWav (fun s => .ok s) "ABCD" "audio/L16;rate=99999999999999999999"
      = .ok (wavHeader 2 100000000000000000000 ++ [65, 66, 67, 68])
    ∧ ((wavHeader 2 100000000000000000000).drop 24).take 4 = [0, 0, 16, 99]
    ∧ ((wavHeader 2 99999999999999999999).drop 24).take 4 = [255, 255, 15, 99] := by
  refine ⟨by decide, by decide, by decide, ?_, by decide, by decide⟩
  have hm : matchRate "audio/L16;rate=99999999999999999999".toList
      = some "99999999999999999999".toList := by decide
  have hs : decodeSamples (fun s => .ok s) "ABCD" = .ok [16961, 17475] := by decide
  rw [ApiService.ttsWav_eq, hm, Option.getD_some, parseInt_twenty_nines, hs]
  exact pcmToWav_eq [16961, 17475] 100000000000000000000

/-- C18 (amended): in `ApiService.callGeminiTTS`, when the rate parameter of the MIME type of
the response (`rate=` followed by a digit, at the start of a parameter) is the first place
of the MIME type where `rate=` is followed by a digit, and the decimal value of its digits
is below 2^53, the sample rate handed to `pcmToWav` is that decimal value; when `rate=` is
nowhere followed by a digit, it is 24000; the `try` block returns the WAV so encoded. -/
theorem ttsWav_sample_rate (atob : String → Except JsError String)
    (audioData mimeType : String) :
    (∀ i, (∀ j, j < i → rateAt mimeType.toList j = false) →
      rateParameterAt mimeType.toList i = true →
      decimalValue (rateDigits mimeType.toList i) < 2 ^ 53 →
      ApiService.ttsWav atob audioData mimeType
        = decodeSamples atob audioData >>= fun pcm16 =>
            pcmToWav pcm16 (decimalValue (rateDigits mimeType.toList i)))
    ∧ ((∀ j, rateAt mimeType.toList j = false) →
      ApiService.ttsWav atob audioData mimeType
        = decodeSamples atob audioData >>= fun pcm16 => pcmToWav pcm16 24000)
    ∧ (∀ (attempt : Nat) (outcome : Outcome) (random : ℚ) (wav : List Nat),
        outcome.audio = some (audioData, mimeType) →
        ApiService.ttsWav atob audioData mimeType = .ok wav →
        ApiService.callGeminiTTSTry atob attempt outcome random = .returned wav) := by
  refine ⟨fun i hbefore hi hsmall => ?_, fun hnone => ?_,
    fun attempt outcome random wav ha hw => ?_⟩
  · have hrate : rateAt mimeType.toList i = true := by
      simp only [rateParameterAt, Bool.and_eq_true] at hi
      exact hi.2
    rw [ApiService.ttsWav_eq, matchRate_first i _ hbefore hrate, Option.getD_some,
      parseInt_eq_decimalValue _ hsmall]
  · rw [ApiService.ttsWav_eq, matchRate_none _ hnone, Option.getD_none, parseInt_default]
  · rw [ApiService.callGeminiTTSTry_audio atob attempt outcome random _ _ ha, hw]
    rfl

/-- Witness of C18: the MIME type "audio/L16;rate=8000", whose rate stands at position 10. -/
theorem ttsWav_sample_rate_witness :
    ((∀ j, j < 10 → rateAt "audio/L16;rate=8000".toList j = false)
      ∧ rateParameterAt "audio/L16;rate=8000".toList 10 = true
      ∧ decimalValue (rateDigits "audio/L16;rate=8000".toList 10) = 8000) ∧
    ApiService.ttsWav (fun s => .ok s) "ABCD" "audio/L16;rate=8000"
      = decodeSamples (fun s => .ok s) "ABCD" >>= fun pcm16 =>
          pcmToWav pcm16 (decimalValue (rateDigits "audio/L16;rate=8000".toList 10)) :=
  ⟨⟨by decide, by decide, by decide⟩,
    (ttsWav_sample_rate (fun s => .ok s) "ABCD" "audio/L16;rate=8000").1 10
      (by decide) (by decide) (by decide)⟩

/-- C19: the two copies of the speech call end in the same way whenever every response that
carries audio has a MIME type containing `rate=` followed by a digit.  On a response
whose audio MIME type has none (and whose audio decodes to samples), they differ:
`ApiService.callGeminiTTS` returns the WAV encoded at 24000 Hz, whereas `callGeminiTTS` of
`main.js` fails at that attempt with the `TypeError` of reading `[1]` of `null`, which is
not retried. -/
theorem speech_copies_agree_unless_rate_missing (atob : String → Except JsError String)
    (text voiceName : String) (env : Nat → Outcome) (random : Nat → ℚ) :
    ((∀ i audioData mimeType, i < 5 → (env i).audio = some (audioData, mimeType) →
        ∃ k, rateAt mimeType.toList k = true) →
      callGeminiTTS atob text voiceName env random
        = ApiService.callGeminiTTS atob text voiceName env random)
    ∧ (∀ (k : Nat) (audioData mimeType : String) (pcm16 : List Int), k ≤ 4 →
        (∀ i, i < k → (env i).retryableByStatus = true) →
        (env k).audio = some (audioData, mimeType) →
        (∀ j, rateAt mimeType.toList j = false) →
        decodeSamples atob audioData = .ok pcm16 →
        ApiService.callGeminiTTS atob text voiceName env random
          = some (runEndingAt (List Nat)
              (.request ttsUrl (.speech text voiceName "gemini-2.5-flash-preview-tts"))
              random k (.ok (wavHeader pcm16.length 24000 ++ pcm16.flatMap int16le)))
        ∧ pcmToWav pcm16 24000
          = .ok (wavHeader pcm16.length 24000 ++ pcm16.flatMap int16le)
        ∧ callGeminiTTS atob text voiceName env random
          = some (runEndingAt (List Nat)
              (.request ttsUrl (.speech text voiceName "gemini-2.5-flash-preview-tts"))
              random k (.error nullMatchError))) := by
  constructor
  · intro h
    refine retryLoop_congr _ _ _ _ env random (fun i hi => ?_) _ _
    cases ha : (env i).audio with
    | none => exact callGeminiTTSTry_no_audio atob i (env i) (random i) ha
    | some am =>
      obtain ⟨a, m⟩ := am
      obtain ⟨k, hk⟩ := h i a m hi ha
      rw [mainJs_callGeminiTTSTry_audio atob i _ _ a m ha,
        ApiService.callGeminiTTSTry_audio atob i _ _ a m ha, ttsWav_agree atob a m k hk]
  · intro k audioData mimeType pcm16 hk hfail haudio hnone hdecode
    have hlt : k < maxRetries := by simp only [maxRetries]; omega
    have hA := fun i (hi : i < k) =>
      ApiService.callGeminiTTSTry_retryable atob i (env i) (random i) (by omega) (hfail i hi)
    have hwavA : ApiService.ttsWav atob audioData mimeType
        = .ok (wavHeader pcm16.length 24000 ++ pcm16.flatMap int16le) := by
      rw [ApiService.ttsWav_eq, matchRate_none _ hnone, hdecode, Option.getD_none,
        parseInt_default]
      exact pcmToWav_eq pcm16 24000
    have hwavM : ttsWav atob audioData mimeType = .error nullMatchError := by
      simp only [ttsWav, matchRate_none _ hnone]
    refine ⟨?_, pcmToWav_eq pcm16 24000, ?_⟩
    · refine retryLoop_backoffs_then_returned _ _ _ env random _ k _ hlt hA ?_
      simp only [iteration,
        ApiService.callGeminiTTSTry_audio atob k _ _ audioData mimeType haudio, hwavA,
        TryResult.ofExcept]
    · refine retryLoop_backoffs_then_thrown _ _ _ env random _ k _ hlt (fun i hi => ?_) ?_
      · exact mainJs_callGeminiTTSTry_retryable atob i (env i) (random i) (by omega)
          (hfail i hi)
      · refine iteration_thrown_other _ _ _ _ _ ?_ (by decide)
        simp only [mainJs_callGeminiTTSTry_audio atob k _ _ audioData mimeType haudio, hwavM,
          TryResult.ofExcept]

/-- Witness of C19: inline audio "ABCD" with the MIME type "audio/L16", which has no rate. -/
theorem speech_copies_agree_unless_rate_missing_witness :
    (Outcome.response (audioResponse "ABCD" "audio/L16")).audio
      = some ("ABCD", "audio/L16") ∧
    callGeminiTTS (fun s => .ok s) "t" "Kore"
        (fun _ => .response (audioResponse "ABCD" "audio/L16")) (fun _ => 0)
      = some (runEndingAt (List Nat)
          (.request ttsUrl (.speech "t" "Kore" "gemini-2.5-flash-preview-tts"))
          (fun _ => 0) 0 (.error nullMatchError)) :=
  ⟨rfl,
    ((speech_copies_agree_unless_rate_missing (fun s => .ok s) "t" "Kore"
      (fun _ => .response (audioResponse "ABCD" "audio/L16")) (fun _ => 0)).2
      0 "ABCD" "audio/L16" [16961, 17475] (by decide) (by intro i hi; omega) rfl
      (by
        intro j
        by_cases hj : j < 9
        · interval_cases j <;> decide
        · exact rateAt_of_length_le _ j (by simp at hj; simpa using hj))
      rfl).2.2⟩

/-- C20: the request body built by `callGemini` carries
`generationConfig.responseMimeType = "application/json"` and
`generationConfig.responseSchema` = the supplied schema exactly when a schema is supplied;
with no schema neither field is present; the prompt and the other generation settings
(temperature 0.7, topK 1, topP 1, maxOutputTokens 8192) are the same in both cases; and
every request of a call of `ApiService.callGemini` posts this body to the Gemini URL. -/
theorem callGemini_request_body (prompt : String) (responseSchema : Option Schema)
    (env : Nat → Outcome) (random : Nat → ℚ) :
    (∃ generationConfig,
      geminiPayload prompt responseSchema = .generateContent prompt generationConfig
      ∧ generationConfig.responseSchema = responseSchema
      ∧ (generationConfig.responseMimeType = some "application/json" ↔
          responseSchema.isSome = true)
      ∧ (generationConfig.responseMimeType = none ↔ responseSchema = none)
      ∧ generationConfig.temperature = 7 / 10 ∧ generationConfig.topK = 1
      ∧ generationConfig.topP = 1 ∧ generationConfig.maxOutputTokens = 8192)
    ∧ (∃ run, ApiService.callGemini prompt responseSchema env random = some run ∧
        ∀ e ∈ run.events,
          e = .request geminiUrl (geminiPayload prompt responseSchema)
          ∨ ∃ delay, e = .sleep delay) := by
  constructor
  · cases responseSchema with
    | none => exact ⟨_, rfl, rfl, by simp, by simp, rfl, rfl, rfl, rfl⟩
    | some schema => exact ⟨_, rfl, rfl, by simp, by simp, rfl, rfl, rfl, rfl⟩
  · obtain ⟨run, hrun, _⟩ := retryLoop_terminates geminiUrl (geminiPayload prompt responseSchema)
      ApiService.callGeminiTry "Max retries reached for Gemini API call." env random
      (maxRetries + 1) 0 (by decide)
    exact ⟨run, hrun, retryLoop_events _ _ _ env random _ _ run hrun⟩

/-- C12 (counterexample): five retryable outcomes in a row while `Math.random()` returns
1 - 2^-53, a double below 1, each time: the sums are rounded up, the call sleeps 2000, 3000,
5000, 9000 and 17000 ms, and the total is 36000 ms, outside [31000, 36000). -/
theorem exhausted_call_sleeps_36000 :
    roundDouble (1 - 1 / 2 ^ 53) = 1 - 1 / 2 ^ 53
    ∧ (∀ i, i < 5 → (mixedFailures i).retryable = true)
    ∧ ∃ run, ApiService.callGemini "p" none mixedFailures (fun _ => 1 - 1 / 2 ^ 53) = some run
      ∧ sleeps run.events = [2000, 3000, 5000, 9000, 17000]
      ∧ (sleeps run.events).sum = 36000 := by
  have hrun := retryLoop_all_backoffs (.request geminiUrl (geminiPayload "p" none))
    ApiService.callGeminiTry "Max retries reached for Gemini API call." mixedFailures
    (fun _ => 1 - 1 / 2 ^ 53) (fun a => backoffDelay a (1 - 1 / 2 ^ 53))
    (fun i hi => ApiService.callGeminiTry_retryable i (mixedFailures i) _ hi
      (by simp only [maxRetries] at hi; interval_cases i <;> decide))
  have hsleeps : sleeps (backoffEvents (.request geminiUrl (geminiPayload "p" none))
      (fun a => backoffDelay a (1 - 1 / 2 ^ 53)) 0 maxRetries)
      = [2000, 3000, 5000, 9000, 17000] := by
    obtain ⟨h0, h1, h2, h3, h4⟩ := backoffDelay_top53
    simp only [backoffEvents, sleeps, maxRetries, h0, h1, h2, h3, h4]
  refine ⟨double_top53, by decide, _, hrun, hsleeps, ?_⟩
  rw [hsleeps]; norm_num

/-- C12 (amended): when each of the five attempts of a call meets an outcome the loop retries
(and `Math.random()` returns values in [0, 1)), the call sleeps five times, for at least
1000, 2000, 4000, 8000 and 16000 ms in that order and at most a second more each time, so
the total time slept lies in [31000, 36000] ms.  Stated for `ApiService.callGemini`; the
run of every wrapper that exhausts its attempts has the same sleeps. -/
theorem sleeps_of_an_exhausted_call (prompt : String) (responseSchema : Option Schema)
    (env : Nat → Outcome) (random : Nat → ℚ)
    (hfail : ∀ i, i < 5 → (env i).retryable = true)
    (hrandom : ∀ i, i < 5 → 0 ≤ random i ∧ random i < 1) :
    ∃ run d₀ d₁ d₂ d₃ d₄,
      ApiService.callGemini prompt responseSchema env random = some run
      ∧ sleeps run.events = [d₀, d₁, d₂, d₃, d₄]
      ∧ (1000 ≤ d₀ ∧ d₀ ≤ 2000) ∧ (2000 ≤ d₁ ∧ d₁ ≤ 3000) ∧ (4000 ≤ d₂ ∧ d₂ ≤ 5000)
      ∧ (8000 ≤ d₃ ∧ d₃ ≤ 9000) ∧ (16000 ≤ d₄ ∧ d₄ ≤ 17000)
      ∧ 31000 ≤ d₀ + d₁ + d₂ + d₃ + d₄ ∧ d₀ + d₁ + d₂ + d₃ + d₄ ≤ 36000
      ∧ ∀ (α : Type) (url : String) (payload : Payload) (message : String),
          sleeps (exhaustedRun α (.request url payload) random message).events
            = [d₀, d₁, d₂, d₃, d₄] := by
  have h0 := backoffDelay_bounds 0 (random 0) (by norm_num) (hrandom 0 (by decide)).1
    (hrandom 0 (by decide)).2
  have h1 := backoffDelay_bounds 1 (random 1) (by norm_num) (hrandom 1 (by decide)).1
    (hrandom 1 (by decide)).2
  have h2 := backoffDelay_bounds 2 (random 2) (by norm_num) (hrandom 2 (by decide)).1
    (hrandom 2 (by decide)).2
  have h3 := backoffDelay_bounds 3 (random 3) (by norm_num) (hrandom 3 (by decide)).1
    (hrandom 3 (by decide)).2
  have h4 := backoffDelay_bounds 4 (random 4) (by norm_num) (hrandom 4 (by decide)).1
    (hrandom 4 (by decide)).2
  norm_num at h0 h1 h2 h3 h4
  refine ⟨_, backoffDelay 0 (random 0), backoffDelay 1 (random 1), backoffDelay 2 (random 2),
    backoffDelay 3 (random 3), backoffDelay 4 (random 4),
    retryLoop_all_backoffs _ _ _ env random _
      (fun i hi => ApiService.callGeminiTry_retryable i (env i) (random i) hi (hfail i hi)),
    sleeps_exhaustedRun String _ _ random _, h0, h1, h2, h3, h4, ?_, ?_,
    fun α url payload message => sleeps_exhaustedRun α url payload random message⟩
  · linarith [h0.1, h1.1, h2.1, h3.1, h4.1]
  · linarith [h0.2, h1.2, h2.2, h3.2, h4.2]

/-- Witness of C12: the mixed failures with `Math.random()` returning 1/2 each time. -/
theorem sleeps_of_an_exhausted_call_witness :
    ((∀ i, i < 5 → (mixedFailures i).retryable = true)
      ∧ ∀ i, i < 5 → (0 : ℚ) ≤ (fun _ => 1 / 2 : Nat → ℚ) i
          ∧ (fun _ => 1 / 2 : Nat → ℚ) i < 1) ∧
    ∃ run d₀ d₁ d₂ d₃ d₄,
      ApiService.callGemini "p" none mixedFailures (fun _ => 1 / 2) = some run
      ∧ sleeps run.events = [d₀, d₁, d₂, d₃, d₄]
      ∧ 31000 ≤ d₀ + d₁ + d₂ + d₃ + d₄ ∧ d₀ + d₁ + d₂ + d₃ + d₄ ≤ 36000 := by
  have hr : ∀ i, i < 5 → (0 : ℚ) ≤ (fun _ => 1 / 2 : Nat → ℚ) i
      ∧ (fun _ => 1 / 2 : Nat → ℚ) i < 1 := fun i _ => by norm_num
  obtain ⟨run, d₀, d₁, d₂, d₃, d₄, h, hs, _, _, _, _, _, hlo, hhi, _⟩ :=
    sleeps_of_an_exhausted_call "p" none mixedFailures (fun _ => 1 / 2) (by decide) hr
  exact ⟨⟨by decide, hr⟩, run, d₀, d₁, d₂, d₃, d₄, h, hs, hlo, hhi⟩

/-- C11 (counterexample): a 404 whose body reports the message
"Max retries reached for Gemini API call." makes `ApiService.callGemini` fail at the first
attempt, after one request and no sleep, with an error equal to the error it raises when
all attempts are exhausted. -/
theorem callGemini_404_reporting_max_retries :
    ApiService.callGemini "p" none
        (fun _ => errorResponse 404 "Max retries reached for Gemini API call.") (fun _ => 0)
      = some ⟨.error (mkError "Max retries reached for Gemini API call."),
          [.request geminiUrl (geminiPayload "p" none)]⟩
    ∧ (exhaustedRun String (.request geminiUrl (geminiPayload "p" none)) (fun _ => 0)
        "Max retries reached for Gemini API call.").result
      = .error (mkError "Max retries reached for Gemini API call.") :=
  ⟨rfl, rfl⟩

/-- C11 (amended): the error raised by `ApiService.callGemini` when all attempts are exhausted
is a plain `Error` told apart by its message only.  Every error the wrapper composes
itself for a terminal condition (default status message, content blocked, no candidates,
stopped unexpectedly, unknown issue) differs from it.  A call that ends before exhausting
its attempts ends with an error equal to it only when that error comes from outside the
wrapper: the failed response of the last attempt is not retryable and its server-reported
`error.message` is exactly "Max retries reached for Gemini API call.", or `fetch` or the
reading of the body rejected with that very error. -/
theorem max_retries_error_told_apart_by_message (prompt : String)
    (responseSchema : Option Schema) (env : Nat → Outcome) (random : Nat → ℚ)
    (run : Run String)
    (hrun : ApiService.callGemini prompt responseSchema env random = some run)
    (herr : run.result = .error (mkError "Max retries reached for Gemini API call."))
    (hterminal : (sleeps run.events).length < 5) :
    (∃ k, k ≤ 4 ∧ (sleeps run.events).length = k ∧
      (env k = .fetchRejects (mkError "Max retries reached for Gemini API call.")
      ∨ ∃ r, env k = .response r ∧
          (readErrorBody r = .error (mkError "Max retries reached for Gemini API call.")
          ∨ r.json = .error (mkError "Max retries reached for Gemini API call.")
          ∨ (r.ok = false ∧ ¬ (r.status = 429 ∨ r.status ≥ 500) ∧
              ∃ errorBody, readErrorBody r = .ok errorBody ∧
                errorBody.message = some "Max retries reached for Gemini API call."))))
    ∧ (∀ (status : Nat) (reason : String),
        mkError ("API request failed with status " ++ toString status)
          ≠ mkError "Max retries reached for Gemini API call."
        ∧ mkError ("Content generation blocked. Reason: " ++ reason ++ ".")
          ≠ mkError "Max retries reached for Gemini API call."
        ∧ mkError "Error: API returned no candidates."
          ≠ mkError "Max retries reached for Gemini API call."
        ∧ mkError ("Content generation stopped unexpectedly. Reason: " ++ reason ++ ".")
          ≠ mkError "Max retries reached for Gemini API call."
        ∧ mkError "Error: An unknown issue occurred with the API response."
          ≠ mkError "Max retries reached for Gemini API call.") := by
  constructor
  · rcases retryLoop_error_cases geminiUrl (geminiPayload prompt responseSchema)
      ApiService.callGeminiTry "Max retries reached for Gemini API call." env random
      (maxRetries + 1) 0 run _ (by decide) hrun herr with ⟨_, hs⟩ | ⟨k, _, hk, hs, ht⟩
    · simp only [maxRetries] at hs; omega
    · refine ⟨k, by simp only [maxRetries] at hk; omega, by omega, ?_⟩
      exact ApiService.callGeminiTry_throws_exhausted k (env k) (random k) ht
  · intro status reason
    refine ⟨mkError_append_ne _ _ _ 'A' _ rfl (by decide), ?_, by decide, ?_, by decide⟩
    · rw [String.append_assoc]
      exact mkError_append_ne _ _ _ 'C' _ rfl (by decide)
    · rw [String.append_assoc]
      exact mkError_append_ne _ _ _ 'C' _ rfl (by decide)

/-- Witness of C11 (amended): the 404 that reports the exhaustion message. -/
theorem max_retries_error_told_apart_by_message_witness :
    ∃ k, k ≤ 4 ∧
      ∃ r, (fun (_ : Nat) => errorResponse 404 "Max retries reached for Gemini API call.") k
          = .response r ∧
        ∃ errorBody, readErrorBody r = .ok errorBody ∧
          errorBody.message = some "Max retries reached for Gemini API call." := by
  obtain ⟨k, hk, _, h⟩ := (max_retries_error_told_apart_by_message "p" none
    (fun _ => errorResponse 404 "Max retries reached for Gemini API call.") (fun _ => 0)
    ⟨.error (mkError "Max retries reached for Gemini API call."),
      [.request geminiUrl (geminiPayload "p" none)]⟩ rfl rfl (by decide)).1
  refine ⟨k, hk, ?_⟩
  rcases h with h | ⟨r, hr, h⟩
  · simp [errorResponse, jsonResponse] at h
  · refine ⟨r, hr, ?_⟩
    simp only [errorResponse, jsonResponse, Outcome.response.injEq] at hr
    subst hr
    exact ⟨_, rfl, rfl⟩

/-- C21 (counterexample): the text "not json" is not valid JSON, yet with a schema supplied
both copies of `callGemini` return it, a string, as it came: the call does not fail. -/
theorem callGemini_returns_text_that_is_not_json :
    parseExample "not json"
      = .error ⟨"SyntaxError", "Unexpected token 'o', \"not json\" is not valid JSON"⟩
    ∧ ApiService.callGemini "p" (some booksSchema)
        (fun _ => .response (textResponse "not json" (some "STOP"))) (fun _ => 0)
      = some ⟨.ok "not json", [.request geminiUrl (geminiPayload "p" (some booksSchema))]⟩
    ∧ callGemini "p" (some booksSchema)
        (fun _ => .response (textResponse "not json" (some "STOP"))) (fun _ => 0)
      = some ⟨.ok "not json", [.request geminiUrl (geminiPayload "p" (some booksSchema))]⟩ :=
  ⟨rfl, rfl, rfl⟩

/-- C21 (amended): when a schema is supplied, both copies of `callGemini` end as they do
without one (the schema changes the request only), and they hand the text of the response to
the caller as it came, valid JSON or not; the caller parses it: when the text returned to
`getRecommendedBooks` is not valid JSON, `JSON.parse` throws there, and `getRecommendedBooks`
catches the error, logs it and returns the empty array. -/
theorem schema_text_is_parsed_by_the_caller (parse : String → Except JsError Json)
    (prompt topicOrContent : String) (schema : Schema) (env : Nat → Outcome)
    (random : Nat → ℚ) :
    (ApiService.callGemini prompt (some schema) env random).map (fun run => run.result)
      = (ApiService.callGemini prompt none env random).map (fun run => run.result)
    ∧ (callGemini prompt (some schema) env random).map (fun run => run.result)
      = (callGemini prompt none env random).map (fun run => run.result)
    ∧ (∀ (k : Nat) (response : Response) (candidate : Candidate) (text : String), k ≤ 4 →
        (∀ i, i < k → (env i).retryable = true) → env k = .response response →
        response.hasText candidate text →
        (∃ run, ApiService.callGemini prompt (some schema) env random = some run
          ∧ callGemini prompt (some schema) env random = some run
          ∧ run.result = .ok (if candidate.finishReason = some "MAX_TOKENS"
              then text ++ truncationNotice else text))
        ∧ ∀ error,
          parse (if candidate.finishReason = some "MAX_TOKENS" then text ++ truncationNotice
            else text) = .error error →
          (∃ books, ApiService.getRecommendedBooks parse topicOrContent env random = some books
            ∧ books.result = .ok (.array []) ∧ books.logged = [error])
          ∧ ∃ books, getRecommendedBooks parse topicOrContent env random = some books
            ∧ books.result = .ok (.array []) ∧ books.logged = [error]) := by
  refine ⟨retryLoop_result_request _ _ _ _ env random _ _,
    retryLoop_result_request _ _ _ _ env random _ _, ?_⟩
  intro k response candidate text hk hfail hresp htext
  have hlt : k < maxRetries := by simp only [maxRetries]; omega
  have hA := fun (p : String) (s : Option Schema) =>
    retryLoop_backoffs_then_returned (.request geminiUrl (geminiPayload p s))
      ApiService.callGeminiTry "Max retries reached for Gemini API call." env random
      (fun a => backoffDelay a (random a)) k _ hlt
      (fun i hi => ApiService.callGeminiTry_retryable i (env i) (random i)
        (by omega) (hfail i hi))
      (by rw [hresp]; exact ApiService.callGeminiTry_hasText k response candidate text _ htext)
  have hM := fun (p : String) (s : Option Schema) =>
    retryLoop_backoffs_then_returned (.request geminiUrl (geminiPayload p s))
      callGeminiTry "Max retries reached for Gemini API call." env random
      (fun a => backoffDelay a (random a)) k _ hlt
      (fun i hi => mainJs_callGeminiTry_retryable i (env i) (random i) (by omega) (hfail i hi))
      (by rw [hresp]; exact mainJs_callGeminiTry_hasText k response candidate text _ htext)
  refine ⟨⟨_, hA prompt (some schema), hM prompt (some schema), rfl⟩, fun error hparse => ?_⟩
  constructor
  · refine ⟨_, by rw [ApiService.getRecommendedBooks, ApiService.callGemini, hA]; rfl, ?_, ?_⟩
    · rw [recommendedBooks_of_parse_error parse _ _ error rfl hparse]
    · rw [recommendedBooks_of_parse_error parse _ _ error rfl hparse]
  · refine ⟨_, by rw [getRecommendedBooks, callGemini, hM]; rfl, ?_, ?_⟩
    · rw [recommendedBooks_of_parse_error parse _ _ error rfl hparse]
    · rw [recommendedBooks_of_parse_error parse _ _ error rfl hparse]

/-- Witness of C21: a 200 response with the text "not json". -/
theorem schema_text_is_parsed_by_the_caller_witness :
    (textResponse "not json" (some "STOP")).hasText (textCandidate "not json" (some "STOP"))
      "not json" ∧
    ∃ books, ApiService.getRecommendedBooks parseExample "Fasting"
        (fun _ => .response (textResponse "not json" (some "STOP"))) (fun _ => 0) = some books
      ∧ books.result = .ok (.array [])
      ∧ books.logged
        = [⟨"SyntaxError", "Unexpected token 'o', \"not json\" is not valid JSON"⟩] :=
  ⟨⟨rfl, ⟨_, _, rfl, rfl⟩, rfl, by decide⟩,
    (((schema_text_is_parsed_by_the_caller parseExample "p" "Fasting" booksSchema
      (fun _ => .response (textResponse "not json" (some "STOP"))) (fun _ => 0)).2.2 0
      (textResponse "not json" (some "STOP")) (textCandidate "not json" (some "STOP"))
      "not json" (by decide) (by intro i hi; omega) rfl
      ⟨rfl, ⟨_, _, rfl, rfl⟩, rfl, by decide⟩).2 _ rfl).1⟩

/-- C22 (counterexample): a 404 response ends `ApiService.callGemini` with a terminal error,
and `ApiService.getRecommendedBooks` does not fail: it returns the empty array. -/
theorem getRecommendedBooks_returns_after_404 :
    ApiService.callGemini (ApiService.booksPrompt "Fasting") (some booksSchema)
        (fun _ => errorResponse 404 "Model not found") (fun _ => 0)
      = some ⟨.error (mkError "Model not found"),
          [.request geminiUrl (geminiPayload (ApiService.booksPrompt "Fasting")
            (some booksSchema))]⟩
    ∧ ApiService.getRecommendedBooks parseExample "Fasting"
        (fun _ => errorResponse 404 "Model not found") (fun _ => 0)
      = some ⟨.ok (.array []), [mkError "Model not found"],
          [.request geminiUrl (geminiPayload (ApiService.booksPrompt "Fasting")
            (some booksSchema))]⟩ :=
  ⟨rfl, rfl⟩

/-- C22 (amended): whenever the underlying call of `callGemini` ends in an error (a terminal
client error, content blocked, a malformed response, retries exhausted, or any other),
`getRecommendedBooks` does not fail: it catches the error, passes it to `console.error`, and
returns the empty array after the same requests and sleeps; the error reaches the log, not
the caller.  So for both copies. -/
theorem getRecommendedBooks_logs_terminal_errors (parse : String → Except JsError Json)
    (topicOrContent : String) (env : Nat → Outcome) (random : Nat → ℚ) :
    (∀ run error,
      ApiService.callGemini (ApiService.booksPrompt topicOrContent) (some booksSchema) env random
        = some run →
      run.result = .error error →
      ApiService.getRecommendedBooks parse topicOrContent env random
        = some ⟨.ok (.array []), [error], run.events⟩)
    ∧ (∀ run error,
      callGemini (booksPrompt topicOrContent) (some booksSchema) env random = some run →
      run.result = .error error →
      getRecommendedBooks parse topicOrContent env random
        = some ⟨.ok (.array []), [error], run.events⟩) := by
  constructor
  · intro run error hrun herr
    rw [ApiService.getRecommendedBooks, hrun, Option.map_some',
      recommendedBooks_of_error parse run error herr]
  · intro run error hrun herr
    rw [getRecommendedBooks, hrun, Option.map_some',
      recommendedBooks_of_error parse run error herr]

/-- Witness of C22: five throttled or failed attempts exhaust the retries. -/
theorem getRecommendedBooks_logs_terminal_errors_witness :
    ∃ run, ApiService.callGemini (ApiService.booksPrompt "Fasting") (some booksSchema)
        mixedFailures (fun _ => 0) = some run
      ∧ run.result = .error (mkError "Max retries reached for Gemini API call.")
      ∧ ApiService.getRecommendedBooks parseExample "Fasting" mixedFailures (fun _ => 0)
        = some ⟨.ok (.array []), [mkError "Max retries reached for Gemini API call."],
            run.events⟩ :=
  ⟨_, rfl, rfl,
    (getRecommendedBooks_logs_terminal_errors parseExample "Fasting" mixedFailures
      (fun _ => 0)).1 _ _ rfl rfl⟩

/-- C23 (counterexample): a 200 response whose first candidate has the finish reason "STOP"
and an array of parts whose first entry is `null`.  `ApiService.callGemini` reads the part
through `?.` and fails with "Content generation stopped unexpectedly. Reason: STOP.";
`callGemini` of `main.js` reads `parts[0].text` and fails with the `TypeError` of reading
`text` of `null`: the two copies end with different errors. -/
theorem callGemini_copies_differ_on_null_part :
    ApiService.callGemini "p" none (fun _ => .response nullPartResponse) (fun _ => 0)
      = some ⟨.error (mkError "Content generation stopped unexpectedly. Reason: STOP."),
          [.request geminiUrl (geminiPayload "p" none)]⟩
    ∧ callGemini "p" none (fun _ => .response nullPartResponse) (fun _ => 0)
      = some ⟨.error (nullReadError "text"), [.request geminiUrl (geminiPayload "p" none)]⟩
    ∧ mkError "Content generation stopped unexpectedly. Reason: STOP." ≠ nullReadError "text" :=
  ⟨rfl, rfl, by decide⟩

/-- C23 (amended): the two copies of the text wrapper, `callGemini` of `main.js` and
`ApiService.callGemini`, are equivalent on the sequences of attempt outcomes in which no 2xx
response has a JSON body whose first candidate, or the first part of the content of whose
first candidate, is `null`: for every prompt, schema, such sequence (of rejections of `fetch`
and of responses with any status and a body of the shape of the API: `candidates` and
`parts` are arrays where present, any field may be absent or `null`) and jitter values, both
end, and with one and the same run: the same requests and sleeps in the same order, and the
same returned text or the same error. -/
theorem text_wrapper_copies_are_equivalent (prompt : String) (responseSchema : Option Schema)
    (env : Nat → Outcome) (random : Nat → ℚ)
    (hnull : ∀ i, i < 5 → (env i).firstEntriesNotNull = true) :
    ∃ run, ApiService.callGemini prompt responseSchema env random = some run
      ∧ callGemini prompt responseSchema env random = some run
      ∧ requestCount run.events ≤ 5 := by
  obtain ⟨run, hrun, hcount, _⟩ := retryLoop_terminates geminiUrl
    (geminiPayload prompt responseSchema) ApiService.callGeminiTry
    "Max retries reached for Gemini API call." env random (maxRetries + 1) 0 (by omega)
  refine ⟨run, hrun, ?_, by simpa [maxRetries] using hcount⟩
  rw [← hrun]
  exact retryLoop_congr _ _ _ _ env random
    (fun i hi => callGeminiTry_agree i (env i) (random i) (hnull i hi)) _ _

/-- Witness of C23: four 429 responses, then a 200 with the text "hello". -/
theorem text_wrapper_copies_are_equivalent_witness :
    (∀ i, i < 5 → (fourThrottledThenText i).firstEntriesNotNull = true) ∧
    ∃ run, ApiService.callGemini "p" none fourThrottledThenText (fun _ => 0) = some run
      ∧ callGemini "p" none fourThrottledThenText (fun _ => 0) = some run
      ∧ requestCount run.events ≤ 5 :=
  ⟨by decide,
    text_wrapper_copies_are_equivalent "p" none fourThrottledThenText (fun _ => 0)
      (by decide)⟩

/-- C24 (failing input): a 200 response whose first part has no `text`, and one whose first
part has the empty text.  `callGeminiVision` of `main.js` returns what it finds, `undefined`
and the empty string, whereas `ApiService.callGeminiVision` throws "Error: An unknown issue
occurred with the Vision API response.": the two copies do not end alike. -/
theorem callGeminiVision_returns_missing_text :
    callGeminiVision "p" "aGk=" "image/png" (fun _ => .response partWithoutText) (fun _ => 0)
      = some ⟨.ok none, [visionRequest "p" "aGk=" "image/png"]⟩
    ∧ ApiService.callGeminiVision "p" "aGk=" "image/png" (fun _ => .response partWithoutText)
        (fun _ => 0)
      = some ⟨.error visionUnknownIssue, [visionRequest "p" "aGk=" "image/png"]⟩
    ∧ callGeminiVision "p" "aGk=" "image/png" (fun _ => .response partWithEmptyText) (fun _ => 0)
      = some ⟨.ok (some ""), [visionRequest "p" "aGk=" "image/png"]⟩
    ∧ ApiService.callGeminiVision "p" "aGk=" "image/png" (fun _ => .response partWithEmptyText)
        (fun _ => 0)
      = some ⟨.error visionUnknownIssue, [visionRequest "p" "aGk=" "image/png"]⟩ := by
  refine ⟨rfl, ?_, rfl, ?_⟩
  · rfl
  · rfl

/-- C25 (failing input): the response text `{"books":"none"}` is valid JSON whose member
`books` is a truthy string; both copies of `getRecommendedBooks` return that string, which
is not an array. -/
theorem getRecommendedBooks_returns_a_string :
    parseExample "\x7b\"books\":\"none\"\x7d" = .ok (.object [("books", .string "none")])
    ∧ ApiService.getRecommendedBooks parseExample "Fasting"
        (fun _ => .response (textResponse "\x7b\"books\":\"none\"\x7d" (some "STOP")))
        (fun _ => 0)
      = some ⟨.ok (.string "none"), [],
          [.request geminiUrl (geminiPayload (ApiService.booksPrompt "Fasting")
            (some booksSchema))]⟩
    ∧ getRecommendedBooks parseExample "Fasting"
        (fun _ => .response (textResponse "\x7b\"books\":\"none\"\x7d" (some "STOP")))
        (fun _ => 0)
      = some ⟨.ok (.string "none"), [],
          [.request geminiUrl (geminiPayload (booksPrompt "Fasting") (some booksSchema))]⟩
    ∧ (Json.string "none").isArray = false :=
  ⟨rfl, rfl, rfl, rfl⟩

/-- Both copies of `getRecommendedBooks` always return and never raise: the call of
`callGemini` ends, and the value returned is `booksOrEmpty` of its result, after the same
requests and sleeps. -/
theorem getRecommendedBooks_always_returns (parse : String → Except JsError Json)
    (topicOrContent : String) (env : Nat → Outcome) (random : Nat → ℚ) :
    (∃ run books,
      ApiService.callGemini (ApiService.booksPrompt topicOrContent) (some booksSchema) env random
        = some run
      ∧ ApiService.getRecommendedBooks parse topicOrContent env random = some books
      ∧ books.result = .ok (booksOrEmpty parse run.result) ∧ books.events = run.events)
    ∧ (∃ run books,
      callGemini (booksPrompt topicOrContent) (some booksSchema) env random = some run
      ∧ getRecommendedBooks parse topicOrContent env random = some books
      ∧ books.result = .ok (booksOrEmpty parse run.result) ∧ books.events = run.events) := by
  constructor
  · obtain ⟨run, hrun, _, _⟩ := retryLoop_terminates geminiUrl
      (geminiPayload (ApiService.booksPrompt topicOrContent) (some booksSchema))
      ApiService.callGeminiTry "Max retries reached for Gemini API call." env random
      (maxRetries + 1) 0 (by omega)
    exact ⟨run, recommendedBooks parse run, hrun,
      by rw [ApiService.getRecommendedBooks, ApiService.callGemini, hrun]; rfl,
      recommendedBooks_result parse run, recommendedBooks_events parse run⟩
  · obtain ⟨run, hrun, _, _⟩ := retryLoop_terminates geminiUrl
      (geminiPayload (booksPrompt topicOrContent) (some booksSchema))
      callGeminiTry "Max retries reached for Gemini API call." env random
      (maxRetries + 1) 0 (by omega)
    exact ⟨run, recommendedBooks parse run, hrun,
      by rw [getRecommendedBooks, callGemini, hrun]; rfl,
      recommendedBooks_result parse run, recommendedBooks_events parse run⟩

/-- C26 (counterexample): five retryable outcomes in a row while `Math.random()` returns
1 - 2^-52, a double below 1: the delay computed at attempt 4 is rounded to 17000, and the
fifth sleep of the call lasts 17000 ms. -/
theorem fifth_sleep_reaches_17000 :
    roundDouble (1 - 1 / 2 ^ 52) = 1 - 1 / 2 ^ 52
    ∧ backoffDelay 4 (1 - 1 / 2 ^ 52) = 17000
    ∧ ∃ run, ApiService.callGemini "p" none mixedFailures (fun _ => 1 - 1 / 2 ^ 52) = some run
      ∧ (sleeps run.events)[4]? = some 17000 := by
  have hrun := retryLoop_all_backoffs (.request geminiUrl (geminiPayload "p" none))
    ApiService.callGeminiTry "Max retries reached for Gemini API call." mixedFailures
    (fun _ => 1 - 1 / 2 ^ 52) (fun a => backoffDelay a (1 - 1 / 2 ^ 52))
    (fun i hi => ApiService.callGeminiTry_retryable i (mixedFailures i) _ hi
      (by simp only [maxRetries] at hi; interval_cases i <;> decide))
  refine ⟨double_top52, backoffDelay_top52_four, _, hrun, ?_⟩
  simp only [backoffEvents, sleeps, maxRetries, Nat.reduceAdd, backoffDelay_top52_four]
  simp

/-- C26 (amended): the attempt counter of every retry wrapper.  In a call of the loop from
`attempt = 0` (whatever its `try` block), the counter holds a value of 0..4 at every pass
through the loop body, the passes are those of the requests of the run (pass number `i`
holds `attempt = i`), the disjunct `attempt === maxRetries` of the `catch` block is false at
every pass, so the block decides by the message alone, and, `Math.random()` being in [0, 1),
every delay a pass computes and every sleep of a run is at most 17000 ms; the `try` blocks
of the eight wrappers compute their delays by the backoff formula. -/
theorem attempt_counter_stays_below_maxRetries {α : Type} (url : String) (payload : Payload)
    (tryBlock : Nat → Outcome → ℚ → TryResult α) (exhausted : String) (env : Nat → Outcome)
    (random : Nat → ℚ) (atob : String → Except JsError String) :
    (∀ a ∈ attemptTrace tryBlock env random (maxRetries + 1) 0,
      0 ≤ a ∧ a ≤ 4 ∧ ¬ (a = maxRetries)
      ∧ (∀ error, (catchBlock a error (random a) : TryResult α)
          = catchBlockByMessage a error (random a))
      ∧ (0 ≤ random a → random a < 1 → backoffDelay a (random a) ≤ 17000))
    ∧ (∃ run, retryLoop (.request url payload) tryBlock exhausted env random (maxRetries + 1) 0
          = some run
        ∧ attemptTrace tryBlock env random (maxRetries + 1) 0
          = List.range (requestCount run.events)
        ∧ (DelaysByFormula tryBlock → (∀ i, 0 ≤ random i ∧ random i < 1) →
            ∀ d ∈ sleeps run.events, d ≤ 17000))
    ∧ DelaysByFormula ApiService.callGeminiTry ∧ DelaysByFormula ApiService.callImagenTry
    ∧ DelaysByFormula (ApiService.callGeminiTTSTry atob)
    ∧ DelaysByFormula ApiService.callGeminiVisionTry
    ∧ DelaysByFormula callGeminiTry ∧ DelaysByFormula callImagenTry
    ∧ DelaysByFormula (callGeminiTTSTry atob) ∧ DelaysByFormula callGeminiVisionTry := by
  refine ⟨fun a ha => ?_, ?_, ApiService.callGeminiTry_delays, ApiService.callImagenTry_delays,
    ApiService.callGeminiTTSTry_delays atob, ApiService.callGeminiVisionTry_delays,
    mainJs_callGeminiTry_delays, ?_, mainJs_callGeminiTTSTry_delays atob,
    mainJs_callGeminiVisionTry_delays⟩
  · have hlt := (attemptTrace_bounds tryBlock env random _ 0 a ha).2
    have h4 : a ≤ 4 := by simp only [maxRetries] at hlt; omega
    exact ⟨Nat.zero_le a, h4, by omega, fun error => catchBlock_below_maxRetries a error _ hlt,
      fun h0 h1 => backoffDelay_le a _ h4 h0 h1⟩
  · obtain ⟨run, hrun, _, _⟩ := retryLoop_terminates url payload tryBlock exhausted env random
      (maxRetries + 1) 0 (by omega)
    refine ⟨run, hrun, ?_, fun htry hrandom => ?_⟩
    · rw [attemptTrace_requests url payload tryBlock exhausted env random _ 0 run hrun,
        List.range_eq_range']
    · exact retryLoop_sleeps_le url payload tryBlock exhausted env random htry hrandom _ 0 run
        hrun
  · intro attempt outcome random delay h
    rw [callImagenTry_agree] at h
    exact ApiService.callImagenTry_delays attempt outcome random delay h

/-- Witness of C26: five retryable outcomes in a row and the jitter 1/2. -/
theorem attempt_counter_stays_below_maxRetries_witness :
    (∀ i : Nat, (0 : ℚ) ≤ (fun _ : Nat => (1 / 2 : ℚ)) i
      ∧ (fun _ : Nat => (1 / 2 : ℚ)) i < 1) ∧
    attemptTrace ApiService.callGeminiTry mixedFailures (fun _ => 1 / 2) (maxRetries + 1) 0
      = [0, 1, 2, 3, 4] ∧
    ∃ run, ApiService.callGemini "p" none mixedFailures (fun _ => 1 / 2) = some run
      ∧ attemptTrace ApiService.callGeminiTry mixedFailures (fun _ => 1 / 2) (maxRetries + 1) 0
        = List.range (requestCount run.events)
      ∧ ∀ d ∈ sleeps run.events, d ≤ 17000 :=
  ⟨fun _ => by norm_num, by decide,
    (attempt_counter_stays_below_maxRetries geminiUrl (geminiPayload "p" none)
      ApiService.callGeminiTry "Max retries reached for Gemini API call." mixedFailures
      (fun _ => 1 / 2) (fun s => .ok s)).2.1.imp fun _ h =>
        ⟨h.1, h.2.1, h.2.2 ApiService.callGeminiTry_delays (fun _ => by norm_num)⟩⟩

/-- C27: for every snapshot, the list `listenProjects` passes to its callback is a permutation
of the records of the documents of the snapshot, in non-increasing order of rank, where the
rank of a record is the time of its `updatedAt` timestamp, and 0 when it has none.  So a
record without a timestamp is followed only by records of rank 0 or less, and the records
without a timestamp come last when every timestamp of the snapshot is later than 1970.  The
comparator of the copy in `main.js` computes the same number on records whose `updatedAt` is
a timestamp, `null` or absent. -/
theorem listenProjects_orders_by_updatedAt (docs : List Document) :
    (FirebaseService.listenProjects docs).Perm (docs.map toRecord)
    ∧ (FirebaseService.listenProjects docs).Pairwise (fun a b => rank b ≤ rank a)
    ∧ (∀ record, hasTimestamp record = false → rank record = 0)
    ∧ (FirebaseService.listenProjects docs).Pairwise
        (fun a b => hasTimestamp a = false → rank b ≤ 0)
    ∧ ((∀ d ∈ docs, hasTimestamp (toRecord d) = true → 0 < rank (toRecord d)) →
        (FirebaseService.listenProjects docs).Pairwise
          (fun a b => hasTimestamp a = false → hasTimestamp b = false))
    ∧ (∀ a b, timestampOrNone a = true → timestampOrNone b = true →
        App.compareUpdatedAt a b = .ok (compareUpdatedAt a b)) := by
  have hperm := perm_listenProjects docs
  have hsorted : (FirebaseService.listenProjects docs).Pairwise (fun a b => rank b ≤ rank a) :=
    sorted_listenProjects docs
  refine ⟨hperm, hsorted, rank_of_no_timestamp, ?_, fun hpos => ?_,
    fun a b ha hb => mainJs_compareUpdatedAt_eq a b ha hb⟩
  · exact hsorted.imp fun {a b} hab ha => by rw [rank_of_no_timestamp a ha] at hab; exact hab
  · refine hsorted.imp_of_mem fun {a b} _ hb hab ha => ?_
    rw [rank_of_no_timestamp a ha] at hab
    by_contra hne
    have hbt : hasTimestamp b = true := by simpa using hne
    obtain ⟨d, hd, rfl⟩ := List.mem_map.1 ((hperm.mem_iff).1 hb)
    have := hpos d hd hbt
    omega

/-- Witness of C27: three documents, the second without a timestamp, which comes last. -/
theorem listenProjects_orders_by_updatedAt_witness :
    (∀ d ∈ threeProjects, hasTimestamp (toRecord d) = true → 0 < rank (toRecord d)) ∧
    FirebaseService.listenProjects threeProjects
      = [[("id", .string "c"), ("updatedAt", .timestamp 9), ("title", .string "third")],
          [("id", .string "a"), ("title", .string "first"), ("updatedAt", .timestamp 5)],
          [("id", .string "own"), ("title", .string "second")]] ∧
    (FirebaseService.listenProjects threeProjects).Pairwise
      (fun a b => hasTimestamp a = false → hasTimestamp b = false) :=
  ⟨by decide, by decide,
    (listenProjects_orders_by_updatedAt threeProjects).2.2.2.2.1 (by decide)⟩

/-- C28: in `ApiService.callGeminiTTS`, when the response of attempt `k` (after `k ≤ 4`
retryable outcomes) carries audio whose decoded payload has an odd number of bytes, no WAV is
returned: `new Int16Array` throws its `RangeError`, whose message the `catch` block does not
take for a network failure, so the `try` block throws it, the `catch` block rethrows it, and
the call ends at that attempt with this error: `k + 1` requests, `k` sleeps, no retry after
it.  The copy in `main.js` ends with the same run when the MIME type of the audio names a
rate. -/
theorem callGeminiTTS_odd_payload_not_retried (atob : String → Except JsError String)
    (text voiceName : String) (env : Nat → Outcome) (random : Nat → ℚ) (k : Nat)
    (audioData mimeType : String) (b : List Nat)
    (hk : k ≤ 4) (hfail : ∀ i, i < k → (env i).retryableByStatus = true)
    (haudio : (env k).audio = some (audioData, mimeType))
    (hb : base64ToArrayBuffer atob audioData = .ok b) (hodd : b.length % 2 = 1) :
    int16Array b = .error oddByteLength
    ∧ isNetworkError oddByteLength = false
    ∧ ApiService.callGeminiTTSTry atob k (env k) (random k) = .thrown oddByteLength
    ∧ catchBlock k oddByteLength (random k) = (.thrown oddByteLength : TryResult (List Nat))
    ∧ ∃ run, ApiService.callGeminiTTS atob text voiceName env random = some run
      ∧ run.result = .error oddByteLength
      ∧ run.events = backoffEvents
            (.request ttsUrl (.speech text voiceName "gemini-2.5-flash-preview-tts"))
            (fun a => backoffDelay a (random a)) 0 k
          ++ [.request ttsUrl (.speech text voiceName "gemini-2.5-flash-preview-tts")]
      ∧ requestCount run.events = k + 1
      ∧ (sleeps run.events).length = k
      ∧ ∀ j, rateAt mimeType.toList j = true →
          callGeminiTTS atob text voiceName env random = some run := by
  have hlt : k < maxRetries := by simp only [maxRetries]; omega
  have hne : ¬ b.length % 2 = 0 := by omega
  have hwav : ApiService.ttsWav atob audioData mimeType = .error oddByteLength := by
    rw [ApiService.ttsWav_eq, decodeSamples_odd atob audioData b hb hodd]; rfl
  have htry : ApiService.callGeminiTTSTry atob k (env k) (random k) = .thrown oddByteLength := by
    rw [ApiService.callGeminiTTSTry_audio atob k _ _ audioData mimeType haudio, hwav]; rfl
  refine ⟨by simp only [int16Array, if_neg hne], by decide, htry,
    catchBlock_other _ _ _ (by decide),
    runEndingAt (List Nat)
      (.request ttsUrl (.speech text voiceName "gemini-2.5-flash-preview-tts")) random k
      (.error oddByteLength), ?_, rfl, rfl, ?_, ?_, fun j hj => ?_⟩
  · exact retryLoop_backoffs_then_thrown _ _ _ env random _ k _ hlt
      (fun i hi => ApiService.callGeminiTTSTry_retryable atob i (env i) (random i) (by omega)
        (hfail i hi))
      (iteration_thrown_other _ _ _ _ _ htry (by decide))
  · simp only [runEndingAt]
    rw [requestCount_append, requestCount_backoffEvents]; rfl
  · simp only [runEndingAt]
    rw [sleeps_append, List.length_append, sleeps_backoffEvents_length]; rfl
  · refine retryLoop_backoffs_then_thrown _ _ _ env random _ k _ hlt
      (fun i hi => mainJs_callGeminiTTSTry_retryable atob i (env i) (random i) (by omega)
        (hfail i hi))
      (iteration_thrown_other _ _ _ _ _ ?_ (by decide))
    rw [mainJs_callGeminiTTSTry_audio atob k _ _ audioData mimeType haudio,
      ttsWav_agree atob audioData mimeType j hj, hwav]
    rfl

/-- Witness of C28: inline audio whose decoded payload is the three bytes "ABC". -/
theorem callGeminiTTS_odd_payload_not_retried_witness :
    (Outcome.response (audioResponse "ABC" "audio/L16;rate=24000")).audio
      = some ("ABC", "audio/L16;rate=24000") ∧
    base64ToArrayBuffer (fun s => .ok s) "ABC" = .ok [65, 66, 67] ∧
    [65, 66, 67].length % 2 = 1 ∧
    ∃ run, ApiService.callGeminiTTS (fun s => .ok s) "t" "Kore"
        (fun _ => .response (audioResponse "ABC" "audio/L16;rate=24000")) (fun _ => 0) = some run
      ∧ run.result = .error oddByteLength
      ∧ requestCount run.events = 1 ∧ (sleeps run.events).length = 0 :=
  ⟨rfl, rfl, by decide,
    (callGeminiTTS_odd_payload_not_retried (fun s => .ok s) "t" "Kore"
      (fun _ => .response (audioResponse "ABC" "audio/L16;rate=24000")) (fun _ => 0) 0
      "ABC" "audio/L16;rate=24000" [65, 66, 67] (by decide) (by intro i hi; omega) rfl rfl
      (by decide)).2.2.2.2.imp fun _ h => ⟨h.1, h.2.1, h.2.2.2.1, h.2.2.2.2.1⟩⟩

/-- C29 (failing input): today is 15 June 2025 and the calendar displays June 2026 (twelve
presses of "next month"); of the posts scheduled for 10 June 2025 and for 10 June 2026, the
cell of 10 June 2026 lists the first, whose date is not the date of the cell, and not the
second: the filter compares the year of the post with the year of today. -/
theorem calendar_cell_lists_post_of_another_year :
    postsForDay [juneTenth2025, juneTenth2026] ⟨2026, 5, 1⟩ ⟨2025, 5, 15⟩ 10 = [juneTenth2025]
    ∧ (calendarCells [juneTenth2025, juneTenth2026] ⟨2026, 5, 1⟩ ⟨2025, 5, 15⟩)[9]?
      = some (⟨2026, 5, 10⟩, [juneTenth2025])
    ∧ juneTenth2025.scheduleDate ≠ ⟨2026, 5, 10⟩
    ∧ juneTenth2026.scheduleDate = ⟨2026, 5, 10⟩ := by
  decide

/-- C30: in the record `{ id: d.id, ...d.data() }` built for a document, the property `id` is
the field `id` of the data when the data has one, and the document id only when it has none;
every other property is that of the data.  `listenScheduled` delivers these records, and
`listenProjects` delivers exactly these records (in its order). -/
theorem record_id_is_the_data_id_when_present (d : Document)
    (hkeys : (d.data.map Prod.fst).Nodup) :
    (∀ value, d.data.lookup "id" = some value → (toRecord d).lookup "id" = some value)
    ∧ (d.data.lookup "id" = none → (toRecord d).lookup "id" = some (.string d.id))
    ∧ (∀ key, key ≠ "id" → (toRecord d).lookup key = d.data.lookup key)
    ∧ (∀ docs, FirebaseService.listenScheduled docs = docs.map toRecord)
    ∧ (∀ docs record, record ∈ FirebaseService.listenProjects docs ↔ record ∈ docs.map toRecord)
      := by
  refine ⟨fun value h => ?_, fun h => ?_, fun key hkey => ?_, fun docs => rfl,
    fun docs record => (perm_listenProjects docs).mem_iff⟩
  · rw [lookup_toRecord d hkeys, h]
  · rw [lookup_toRecord d hkeys, h]; rfl
  · rw [lookup_toRecord d hkeys]
    cases d.data.lookup key with
    | some value => rfl
    | none => simp [hkey]

/-- Witness of C30: a document "b" whose data stores the `id` "own". -/
theorem record_id_is_the_data_id_when_present_witness :
    (([("id", FieldValue.string "own"), ("title", .string "second")] : Record).map
      Prod.fst).Nodup ∧
    (toRecord ⟨"b", [("id", .string "own"), ("title", .string "second")]⟩).lookup "id"
      = some (.string "own") :=
  ⟨by decide,
    (record_id_is_the_data_id_when_present
      ⟨"b", [("id", .string "own"), ("title", .string "second")]⟩ (by decide)).1 _ rfl⟩

end Atmt
